import Mathlib

/-! # Clock engine (`src/src/clock.c`, `src/inc/clock.h`)

Shallow embedding of the time-keeping and alarm engine.

* `uint8_t` / `uint16_t` values are natural numbers; every C operation that can
  wrap is written with an explicit `% 256` / `% 65536`.
* A pointer that may be `NULL` is an `Option`; a function that writes through a
  pointer returns the new contents next to its C return value.
* `clock_time_t` is a union of `time.{seconds,minutes,hours}[2]` and `bcd[6]`
  over the same six bytes, so `bcd[0..5]` are
  `seconds[0], seconds[1], minutes[0], minutes[1], hours[0], hours[1]`.
-/

namespace Clock

/-! ## Data model -/

/-- The union `clock_time_t` of `clock.h`: six BCD digits, index 0 of every pair is the units
digit and index 1 the tens digit. -/
structure clock_time_t where
  /-- Byte `time.seconds[0]`, which is `bcd[0]`. -/
  seconds0 : Nat
  /-- Byte `time.seconds[1]`, which is `bcd[1]`. -/
  seconds1 : Nat
  /-- Byte `time.minutes[0]`, which is `bcd[2]`. -/
  minutes0 : Nat
  /-- Byte `time.minutes[1]`, which is `bcd[3]`. -/
  minutes1 : Nat
  /-- Byte `time.hours[0]`, which is `bcd[4]`. -/
  hours0 : Nat
  /-- Byte `time.hours[1]`, which is `bcd[5]`. -/
  hours1 : Nat
deriving DecidableEq

/-- The view `t.bcd[i]` of the union (`i < 6`). -/
def clock_time_t.bcd (t : clock_time_t) (i : Nat) : Nat :=
  match i with
  | 0 => t.seconds0
  | 1 => t.seconds1
  | 2 => t.minutes0
  | 3 => t.minutes1
  | 4 => t.hours0
  | _ => t.hours1

/-- The value `(clock_time_t){0}` and the result of `memset(.., 0, ..)`. -/
def zeroTime : clock_time_t := ⟨0, 0, 0, 0, 0, 0⟩

/-- The record `struct clock_s` of `clock.c`. -/
structure clock_s where
  clock_ticks : Nat
  current_time : clock_time_t
  valid : Bool
  ticks_per_second : Nat
  alarm_time : clock_time_t
  alarm_enabled : Bool
  alarm_triggered : Bool
  snoozed_time : clock_time_t
  snoozed_active : Bool
deriving DecidableEq

/-! ## Operations -/

/-- The function `IsValidTime` (clock.c:55-73); `none` is the `NULL` pointer. -/
def IsValidTime (time : Option clock_time_t) : Bool :=
  match time with
  | none => false
  | some t =>
    if t.seconds0 > 9 ∨ t.seconds1 > 5 then false
    else if t.minutes0 > 9 ∨ t.minutes1 > 5 then false
    else if t.hours0 > 9 ∨ t.hours1 > 2 ∨ (t.hours1 = 2 ∧ t.hours0 > 3) then false
    else true

/-- The function `ClockCreate` (clock.c:90-110). `malloc_ok` says whether `malloc` returned a
block; the block is zeroed by `memset` before the three stores. -/
def ClockCreate (malloc_ok : Bool) (ticks_per_second : Nat) : Option clock_s :=
  if ticks_per_second < 1 then none
  else if !malloc_ok then none
  else
    let self : clock_s :=
      { clock_ticks := 0, current_time := zeroTime, valid := false, ticks_per_second := 0,
        alarm_time := zeroTime, alarm_enabled := false, alarm_triggered := false,
        snoozed_time := zeroTime, snoozed_active := false }
    let self := { self with ticks_per_second := ticks_per_second }
    let self := { self with valid := false }
    let self := { self with alarm_enabled := false }
    let self := { self with alarm_triggered := false }
    some self

/-- The function `ClockGetTime` (clock.c:112-119): the C result and the new contents of the
buffer `result` points to. -/
def ClockGetTime (self : Option clock_s) (result : Option clock_time_t) :
    Bool × Option clock_time_t :=
  match self, result with
  | some e, some _ => (e.valid, some e.current_time)
  | _, _ => (false, result)

/-- The function `ClockSetTime` (clock.c:121-130): the C result and the engine afterwards. -/
def ClockSetTime (self : Option clock_s) (new_time : Option clock_time_t) :
    Bool × Option clock_s :=
  match self, new_time with
  | some e, some t =>
    if !IsValidTime (some t) then (false, some e)
    else (true, some { e with current_time := t, valid := true })
  | _, _ => (false, self)

/-- The function `ClockTimesMatch` (clock.c:236-243): the loop over `bcd[0..5]` returns false
at the first differing digit and true when there is none. -/
def ClockTimesMatch (a b : clock_time_t) : Bool :=
  [0, 1, 2, 3, 4, 5].all (fun i => !(a.bcd i != b.bcd i))

/-- The body of `if (clock_ticks == ticks_per_second)` in `ClockNewTick` that updates
`current_time` (clock.c:139-182): the cascading increment, each `++` on a `uint8_t`. -/
def advanceSecond (t : clock_time_t) : clock_time_t :=
  let t := { t with seconds0 := (t.seconds0 + 1) % 256 }
  if t.seconds0 > 9 then
    let t := { t with seconds0 := 0 }
    let t := { t with seconds1 := (t.seconds1 + 1) % 256 }
    if t.seconds1 > 5 then
      let t := { t with seconds1 := 0 }
      let t := { t with minutes0 := (t.minutes0 + 1) % 256 }
      if t.minutes0 > 9 then
        let t := { t with minutes0 := 0 }
        let t := { t with minutes1 := (t.minutes1 + 1) % 256 }
        if t.minutes1 > 5 then
          let t := { t with minutes1 := 0 }
          let t := { t with hours0 := (t.hours0 + 1) % 256 }
          let t : clock_time_t :=
            if t.hours0 > 9 then
              let t := { t with hours0 := 0 }
              { t with hours1 := (t.hours1 + 1) % 256 }
            else t
          if t.hours1 > 2 ∨ (t.hours1 = 2 ∧ t.hours0 > 3) then
            { t with seconds0 := 0, seconds1 := 0, minutes0 := 0, minutes1 := 0,
                     hours0 := 0, hours1 := 0 }
          else t
        else t
      else t
    else t
  else t

/-- The alarm check that ends `ClockNewTick` (clock.c:185-193). -/
def checkAlarm (e : clock_s) : clock_s :=
  if e.alarm_enabled then
    let target := if e.snoozed_active then e.snoozed_time else e.alarm_time
    if ClockTimesMatch e.current_time target then
      { e with alarm_triggered := true, snoozed_active := false }
    else e
  else e

/-- The function `ClockNewTick` on an engine that is present (clock.c:133-194). -/
def newTick (e : clock_s) : clock_s :=
  if !e.valid then e
  else
    let e := { e with clock_ticks := (e.clock_ticks + 1) % 65536 }
    let e :=
      if e.clock_ticks = e.ticks_per_second then
        { e with clock_ticks := 0, current_time := advanceSecond e.current_time }
      else e
    checkAlarm e

/-- The function `ClockNewTick` (clock.c:132-194). -/
def ClockNewTick (self : Option clock_s) : Option clock_s :=
  match self with
  | none => none
  | some e => some (newTick e)

/-- The function `ClockSetAlarmTime` (clock.c:197-204). -/
def ClockSetAlarmTime (self : Option clock_s) (alarm_time : Option clock_time_t) :
    Bool × Option clock_s :=
  match self, alarm_time with
  | some e, some t =>
    if !IsValidTime (some t) then (false, some e)
    else (true, some { e with alarm_time := t })
  | _, _ => (false, self)

/-- The function `ClockGetAlarmTime` (clock.c:207-213). -/
def ClockGetAlarmTime (self : Option clock_s) (alarm_time : Option clock_time_t) :
    Bool × Option clock_time_t :=
  match self, alarm_time with
  | some e, some _ => (true, some e.alarm_time)
  | _, _ => (false, alarm_time)

/-- The function `ClockEnableAlarm` (clock.c:215-220). -/
def ClockEnableAlarm (self : Option clock_s) : Option clock_s :=
  match self with
  | none => none
  | some e => if e.valid then some { e with alarm_enabled := true } else some e

/-- The function `ClockDisableAlarm` (clock.c:222-226). -/
def ClockDisableAlarm (self : Option clock_s) : Option clock_s :=
  match self with
  | none => none
  | some e => if e.valid then some { e with alarm_enabled := false } else some e

/-- The function `ClockIsAlarmEnabled` (clock.c:228-230). -/
def ClockIsAlarmEnabled (self : Option clock_s) : Bool :=
  match self with
  | none => false
  | some e => e.alarm_enabled

/-- The function `ClockIsAlarmTriggered` (clock.c:232-234). -/
def ClockIsAlarmTriggered (self : Option clock_s) : Bool :=
  match self with
  | none => false
  | some e => e.alarm_triggered

/-- The function `ClockSnoozeAlarm` (clock.c:245-279); `uint8_t` locals are reduced `% 256`,
`uint16_t` locals `% 65536`. -/
def ClockSnoozeAlarm (self : Option clock_s) (minutes_to_snooze : Nat) :
    Bool × Option clock_s :=
  match self with
  | none => (false, none)
  | some e =>
    if e.valid = false ∨ minutes_to_snooze = 0 then (false, some e)
    else
      let min_units := e.current_time.minutes0
      let min_tens := e.current_time.minutes1
      let hr_units := e.current_time.hours0
      let hr_tens := e.current_time.hours1
      let current_minutes := (min_tens * 10 + min_units) % 256
      let current_hours := (hr_tens * 10 + hr_units) % 256
      let total_minutes := (current_minutes + minutes_to_snooze) % 65536
      let new_hours := (current_hours + total_minutes / 60) % 65536
      let new_minutes := total_minutes % 60
      let new_hours := if new_hours ≥ 24 then new_hours % 24 else new_hours
      let st := e.snoozed_time
      let st := { st with hours1 := (new_hours / 10) % 256 }
      let st := { st with hours0 := (new_hours % 10) % 256 }
      let st := { st with minutes1 := (new_minutes / 10) % 256 }
      let st := { st with minutes0 := (new_minutes % 10) % 256 }
      let st := { st with seconds1 := 0 }
      let st := { st with seconds0 := 0 }
      (true, some { e with snoozed_time := st, snoozed_active := true, alarm_triggered := false })

/-- The function `ClockCancelAlarmUntilNextDay` (clock.c:281-290). -/
def ClockCancelAlarmUntilNextDay (self : Option clock_s) : Bool × Option clock_s :=
  match self with
  | none => (false, none)
  | some e =>
    if !e.valid then (false, some e)
    else (true, some { e with alarm_triggered := false, snoozed_active := false })

/-! ## Calls and call sequences -/

/-- One call of a state-changing operation of `clock.h` with its arguments. -/
inductive Op where
  | SetTime (new_time : Option clock_time_t)
  | SetAlarmTime (alarm_time : Option clock_time_t)
  | NewTick
  | EnableAlarm
  | DisableAlarm
  | SnoozeAlarm (minutes_to_snooze : Nat)
  | CancelAlarmUntilNextDay

/-- The engine after one call. -/
def Op.run (o : Op) (self : Option clock_s) : Option clock_s :=
  match o with
  | .SetTime t => (ClockSetTime self t).2
  | .SetAlarmTime t => (ClockSetAlarmTime self t).2
  | .NewTick => ClockNewTick self
  | .EnableAlarm => ClockEnableAlarm self
  | .DisableAlarm => ClockDisableAlarm self
  | .SnoozeAlarm m => (ClockSnoozeAlarm self m).2
  | .CancelAlarmUntilNextDay => (ClockCancelAlarmUntilNextDay self).2

/-- The engine after a sequence of calls, first call first. -/
def runOps (ops : List Op) (self : Option clock_s) : Option clock_s :=
  ops.foldl (fun s o => o.run s) self

/-! ## Invariants -/

/-- The three stored times of an engine, when there is one, pass validation. -/
def StoredTimesValid (self : Option clock_s) : Prop :=
  ∀ e, self = some e →
    IsValidTime (some e.current_time) = true ∧ IsValidTime (some e.alarm_time) = true ∧
      IsValidTime (some e.snoozed_time) = true

/-! ## Seconds of the day -/

/-- The second of the day a time value denotes: `hh:mm:ss` read in decimal. -/
def toSeconds (t : clock_time_t) : Nat :=
  ((t.hours1 * 10 + t.hours0) * 60 + (t.minutes1 * 10 + t.minutes0)) * 60
    + (t.seconds1 * 10 + t.seconds0)

/-- The BCD encoding of second `n` of the day. -/
def ofSeconds (n : Nat) : clock_time_t :=
  { seconds0 := n % 60 % 10, seconds1 := n % 60 / 10,
    minutes0 := n / 60 % 60 % 10, minutes1 := n / 60 % 60 / 10,
    hours0 := n / 3600 % 10, hours1 := n / 3600 / 10 }

/-- The BCD encoding of `h:m:s`. -/
def ofHMS (h m s : Nat) : clock_time_t :=
  { seconds0 := s % 10, seconds1 := s / 10, minutes0 := m % 10, minutes1 := m / 10,
    hours0 := h % 10, hours1 := h / 10 }

/-! ## Sample engines -/

/-- An engine whose time has been set: rate `R`, accumulator `ticks`, time `t`, alarm time `a`,
alarm enabled or not, nothing else set. -/
def sampleEngine (R ticks : Nat) (t a : clock_time_t) (enabled : Bool) : clock_s :=
  { clock_ticks := ticks, current_time := t, valid := true, ticks_per_second := R,
    alarm_time := a, alarm_enabled := enabled, alarm_triggered := false,
    snoozed_time := zeroTime, snoozed_active := false }

/-- An engine at 06:30:00 with the alarm armed for 06:30:00, accumulator 1 of 5. -/
def sampleDue : clock_s := sampleEngine 5 1 (ofHMS 6 30 0) (ofHMS 6 30 0) true

/-- An engine at 23:59:00 with the alarm armed for 00:01:00, rate 5, accumulator 0. -/
def sampleMidnight : clock_s := sampleEngine 5 0 (ofHMS 23 59 0) (ofHMS 0 1 0) true

/-- An engine at 23:59:00 with alarm time 00:01:00 and the alarm disabled, rate 5. -/
def sampleDisabled : clock_s := sampleEngine 5 0 (ofHMS 23 59 0) (ofHMS 0 1 0) false

/-- An engine whose time was never set: rate 5, accumulator 4, alarm time 07:15:00 stored. -/
def sampleUnset : clock_s :=
  { clock_ticks := 4, current_time := zeroTime, valid := false, ticks_per_second := 5,
    alarm_time := ofHMS 7 15 0, alarm_enabled := false, alarm_triggered := false,
    snoozed_time := zeroTime, snoozed_active := false }

/-- The engine on the tick that fired the alarm: 00:01:00, alarm armed for 00:01:00 and
triggered, rate 5, accumulator 0. -/
def sampleFired : clock_s :=
  { clock_ticks := 0, current_time := ofHMS 0 1 0, valid := true, ticks_per_second := 5,
    alarm_time := ofHMS 0 1 0, alarm_enabled := true, alarm_triggered := true,
    snoozed_time := zeroTime, snoozed_active := false }

/-- An engine at 23:58:47, accumulator 3 of 5, whose alarm (23:58:00) is enabled and
triggered. -/
def sampleRinging : clock_s :=
  { clock_ticks := 3, current_time := ofHMS 23 58 47, valid := true, ticks_per_second := 5,
    alarm_time := ofHMS 23 58 0, alarm_enabled := true, alarm_triggered := true,
    snoozed_time := zeroTime, snoozed_active := false }

/-! ## Long-press detector (`src/src/main.c`) -/

/-- Modelled from the spec: `TickType_t` is declared by FreeRTOS, outside the sources of the
repository. The spec calls the tick source "a free-running counter"; it is taken as the
unsigned 32-bit counter of the default FreeRTOS configuration, and this is its modulus. -/
def TICK_MODULUS : Nat := 4294967296

/-- Unsigned subtraction `a - b` of two `TickType_t` values. -/
def tickSub (a b : Nat) : Nat := (a + TICK_MODULUS - b) % TICK_MODULUS

/-- The record `long_press_t` of `main.c`. -/
structure long_press_t where
  press_time : Nat
  release_time : Nat
  active : Bool
deriving DecidableEq

/-- The function `LongPressInit` (main.c:67-71): the detector after the three stores. -/
def LongPressInit (lp : long_press_t) : long_press_t :=
  let lp := { lp with press_time := 0 }
  let lp := { lp with release_time := 0 }
  { lp with active := false }

/-- The function `LongPressUpdate` (main.c:73-96): the C result and the detector afterwards. -/
def LongPressUpdate (lp : long_press_t) (is_pressed : Bool)
    (current_time press_threshold release_tolerance : Nat) : Bool × long_press_t :=
  if is_pressed = true then
    let lp := { lp with release_time := 0 }
    if lp.press_time = 0 then
      (false, { lp with press_time := current_time })
    else if lp.active = false ∧ tickSub current_time lp.press_time ≥ press_threshold then
      (true, { lp with active := true })
    else (false, lp)
  else
    if lp.press_time > 0 then
      if lp.release_time = 0 then
        (false, { lp with release_time := current_time })
      else if tickSub current_time lp.release_time ≥ release_tolerance then
        (false, { press_time := 0, release_time := 0, active := false })
      else (false, lp)
    else (false, lp)

/-- The results of a sequence of `LongPressUpdate` polls `(is_pressed, current_time)`, first
poll first. -/
def pollOutputs (press_threshold release_tolerance : Nat) :
    long_press_t → List (Bool × Nat) → List Bool
  | _, [] => []
  | lp, p :: ps =>
    (LongPressUpdate lp p.1 p.2 press_threshold release_tolerance).1 ::
      pollOutputs press_threshold release_tolerance
        (LongPressUpdate lp p.1 p.2 press_threshold release_tolerance).2 ps

/-- The detector after a sequence of `LongPressUpdate` polls. -/
def pollState (press_threshold release_tolerance : Nat) :
    long_press_t → List (Bool × Nat) → long_press_t
  | lp, [] => lp
  | lp, p :: ps =>
    pollState press_threshold release_tolerance
      (LongPressUpdate lp p.1 p.2 press_threshold release_tolerance).2 ps

/-- Polls at the given timestamps with the button pressed at each. -/
def pressedAt (ts : List Nat) : List (Bool × Nat) := ts.map (fun t => (true, t))

/-- Polls at the given timestamps with the button released at each. -/
def releasedAt (ts : List Nat) : List (Bool × Nat) := ts.map (fun t => (false, t))

/-- The expected results of pressed polls at `ts` for a hold timed from `t0`: true at the first
poll with `t - t0 ≥ press_threshold`, false at every other poll. -/
def firstReach (press_threshold t0 : Nat) : List Nat → List Bool
  | [] => []
  | t :: ts =>
    if t - t0 ≥ press_threshold then true :: ts.map (fun _ => false)
    else false :: firstReach press_threshold t0 ts

/-! ## Interaction state machine (`src/src/main.c`) -/

/-- The enumeration `system_mode_t` of `clock.h`. -/
inductive system_mode_t where
  | MODE_UNSET
  | MODE_HOME
  | MODE_SET_TIME_MINUTES
  | MODE_SET_TIME_HOURS
  | MODE_SET_ALARM_MINUTES
  | MODE_SET_ALARM_HOURS
  | MODE_ALARM_TRIGGERED
deriving DecidableEq

/-- An array `uint8_t x[4]` of `main.c` (`digits` and `dots`). -/
structure digits_t where
  d0 : Nat
  d1 : Nat
  d2 : Nat
  d3 : Nat
deriving DecidableEq

/-- The function `digitsToTime` (main.c:98-105): the time written through `time`. -/
def digitsToTime (digits : digits_t) : clock_time_t :=
  { hours1 := digits.d0, hours0 := digits.d1, minutes1 := digits.d2, minutes0 := digits.d3,
    seconds1 := 0, seconds0 := 0 }

/-- The function `timeToDigits` (main.c:107-112): the array written through `digits`. -/
def timeToDigits (time : clock_time_t) : digits_t :=
  { d0 := time.bcd 5, d1 := time.bcd 4, d2 := time.bcd 3, d3 := time.bcd 2 }

/-- The globals of `main.c` and the two static detectors of `ButtonTask`. The variable
`last_state` is a `uint8_t` that only ever holds `MODE_UNSET` or `MODE_HOME`. The display and
the output pins are sinks and are left out. -/
structure main_t where
  mode : system_mode_t
  clock : Option clock_s
  current_time : clock_time_t
  alarm_time : clock_time_t
  digits : digits_t
  dots : digits_t
  last_state : system_mode_t
  timeout : Bool
  timeout_counter : Nat
  set_alarm_lp : long_press_t
  set_time_lp : long_press_t
deriving DecidableEq

/-- What one pass of the `ButtonTask` loop reads from outside: the results of
`DigitalInputGetIsActive` on the two set buttons, of `DigitalInputWasDeactivated` on the four
others, and of the two `xTaskGetTickCount` calls. -/
structure inputs_t where
  set_alarm_active : Bool
  set_time_active : Bool
  accept_released : Bool
  cancel_released : Bool
  increment_released : Bool
  decrement_released : Bool
  ticks_first : Nat
  ticks_second : Nat
deriving DecidableEq

/-- The statements `min = (digits[2] * 10 + digits[3] + 1) % 60; digits[2] = min / 10;
digits[3] = min % 10;` (main.c:219-221, 297-299); `min` is a `uint8_t`. -/
def incMinutes (digits : digits_t) : digits_t :=
  let min := ((digits.d2 * 10 + digits.d3 + 1) % 60) % 256
  let digits := { digits with d2 := (min / 10) % 256 }
  { digits with d3 := (min % 10) % 256 }

/-- The statements `min = (digits[2] * 10 + digits[3] - 1 + 60) % 60; ...` (main.c:227-229,
304-306), the arithmetic in `int`. -/
def decMinutes (digits : digits_t) : digits_t :=
  let min := ((((digits.d2 * 10 + digits.d3 : Nat) : Int) - 1 + 60) % 60).toNat % 256
  let digits := { digits with d2 := (min / 10) % 256 }
  { digits with d3 := (min % 10) % 256 }

/-- The statements `horas = (digits[0] * 10 + digits[1] + 1) % 24; digits[0] = horas / 10;
digits[1] = horas % 10;` (main.c:257-259, 336-338). -/
def incHours (digits : digits_t) : digits_t :=
  let horas := ((digits.d0 * 10 + digits.d1 + 1) % 24) % 256
  let digits := { digits with d0 := (horas / 10) % 256 }
  { digits with d1 := (horas % 10) % 256 }

/-- The statements `horas = (digits[0] * 10 + digits[1] - 1 + 24) % 24; ...` (main.c:265-267,
344-346), the arithmetic in `int`. -/
def decHours (digits : digits_t) : digits_t :=
  let horas := ((((digits.d0 * 10 + digits.d1 : Nat) : Int) - 1 + 24) % 24).toNat % 256
  let digits := { digits with d0 := (horas / 10) % 256 }
  { digits with d1 := (horas % 10) % 256 }

/-- The block `if (DigitalInputWasDeactivated(board->cancel) || timeout) { ... }` that opens
each of the four editing cases (main.c:204-214, 242-252, 282-292, 320-330). -/
def cancelOrTimeout (inp : inputs_t) (s : main_t) : main_t :=
  if inp.cancel_released = true ∨ s.timeout = true then
    let s : main_t :=
      if s.last_state = system_mode_t.MODE_UNSET then { s with mode := system_mode_t.MODE_UNSET }
      else { s with mode := system_mode_t.MODE_HOME }
    let s := { s with timeout := false }
    { s with timeout_counter := 0 }
  else s

/-- The statements `if (ClockGetTime(clock, &current_time)) timeToDigits(digits,
&current_time);` (main.c:167-169, 384-386). -/
def refreshDigits (s : main_t) : main_t :=
  let r := ClockGetTime s.clock (some s.current_time)
  let s := { s with current_time := r.2.getD s.current_time }
  if r.1 = true then { s with digits := timeToDigits s.current_time } else s

/-- The statements `if (ClockGetAlarmTime(clock, &alarm_time)) timeToDigits(digits,
&alarm_time);` (main.c:150-152, 181-183). -/
def loadAlarmDigits (s : main_t) : main_t :=
  let r := ClockGetAlarmTime s.clock (some s.alarm_time)
  let s := { s with alarm_time := r.2.getD s.alarm_time }
  if r.1 = true then { s with digits := timeToDigits s.alarm_time } else s

/-- The case `MODE_UNSET` of `ButtonTask` (main.c:146-163). -/
def caseUnset (press_threshold release_tolerance : Nat) (inp : inputs_t) (s : main_t) : main_t :=
  let r := LongPressUpdate s.set_alarm_lp (!inp.set_alarm_active) inp.ticks_first
    press_threshold release_tolerance
  let s := { s with set_alarm_lp := r.2 }
  if r.1 = true then
    let s := loadAlarmDigits s
    let s := { s with mode := system_mode_t.MODE_SET_ALARM_MINUTES }
    { s with last_state := system_mode_t.MODE_UNSET }
  else
    let r := LongPressUpdate s.set_time_lp (!inp.set_time_active) inp.ticks_second
      press_threshold release_tolerance
    let s := { s with set_time_lp := r.2 }
    if r.1 = true then
      let s := { s with mode := system_mode_t.MODE_SET_TIME_MINUTES }
      { s with last_state := system_mode_t.MODE_UNSET }
    else s

/-- The case `MODE_HOME` of `ButtonTask` (main.c:165-200). -/
def caseHome (press_threshold release_tolerance : Nat) (inp : inputs_t) (s : main_t) : main_t :=
  let s := refreshDigits s
  let r := LongPressUpdate s.set_time_lp (!inp.set_time_active) inp.ticks_first
    press_threshold release_tolerance
  let s := { s with set_time_lp := r.2 }
  if r.1 = true then
    let s := { s with mode := system_mode_t.MODE_SET_TIME_MINUTES }
    { s with last_state := system_mode_t.MODE_HOME }
  else
    let r := LongPressUpdate s.set_alarm_lp (!inp.set_alarm_active) inp.ticks_second
      press_threshold release_tolerance
    let s := { s with set_alarm_lp := r.2 }
    if r.1 = true then
      let s := loadAlarmDigits s
      let s := { s with mode := system_mode_t.MODE_SET_ALARM_MINUTES }
      { s with last_state := system_mode_t.MODE_HOME }
    else if ClockIsAlarmTriggered s.clock = true then
      let s := { s with mode := system_mode_t.MODE_ALARM_TRIGGERED }
      { s with dots := { s.dots with d3 := 1 } }
    else if inp.accept_released = true then
      let s := { s with clock := ClockEnableAlarm s.clock }
      { s with dots := { s.dots with d3 := 1 } }
    else if inp.cancel_released = true then
      let s := { s with clock := ClockDisableAlarm s.clock }
      { s with dots := { s.dots with d3 := 0 } }
    else s

/-- The increment and decrement blocks of `MODE_SET_TIME_MINUTES` (main.c:215-230). -/
def timeMinutesBlocks (inp : inputs_t) (s : main_t) : main_t :=
  let s : main_t :=
    if inp.increment_released = true then
      let s := { s with timeout := false }
      let s := { s with timeout_counter := 0 }
      { s with digits := incMinutes s.digits }
    else s
  if inp.decrement_released = true then
    let s := { s with timeout := false }
    let s := { s with timeout_counter := 0 }
    { s with digits := decMinutes s.digits }
  else s

/-- The increment and decrement blocks of `MODE_SET_ALARM_MINUTES` (main.c:294-307), which
clear `timeout` but not `timeout_counter`. -/
def alarmMinutesBlocks (inp : inputs_t) (s : main_t) : main_t :=
  let s : main_t :=
    if inp.increment_released = true then
      let s := { s with timeout := false }
      { s with digits := incMinutes s.digits }
    else s
  if inp.decrement_released = true then
    let s := { s with timeout := false }
    { s with digits := decMinutes s.digits }
  else s

/-- The increment and decrement blocks of `MODE_SET_TIME_HOURS` and `MODE_SET_ALARM_HOURS`
(main.c:253-268, 332-347). -/
def hoursBlocks (inp : inputs_t) (s : main_t) : main_t :=
  let s : main_t :=
    if inp.increment_released = true then
      let s := { s with timeout := false }
      let s := { s with timeout_counter := 0 }
      { s with digits := incHours s.digits }
    else s
  if inp.decrement_released = true then
    let s := { s with timeout := false }
    let s := { s with timeout_counter := 0 }
    { s with digits := decHours s.digits }
  else s

/-- The accept block of `MODE_SET_TIME_MINUTES` and `MODE_SET_ALARM_MINUTES` (main.c:231-237,
308-314): on an accept-release go on to the hours mode `next`. -/
def acceptMinutes (next : system_mode_t) (inp : inputs_t) (s : main_t) : main_t :=
  if inp.accept_released = true then
    let s := { s with timeout := false }
    let s := { s with timeout_counter := 0 }
    { s with mode := next }
  else s

/-- The accept block of `MODE_SET_TIME_HOURS` (main.c:269-277). -/
def acceptTimeHours (inp : inputs_t) (s : main_t) : main_t :=
  if inp.accept_released = true then
    let s := { s with current_time := digitsToTime s.digits }
    let r := ClockSetTime s.clock (some s.current_time)
    let s := { s with clock := r.2 }
    if r.1 = true then
      let s := { s with mode := system_mode_t.MODE_HOME }
      { s with last_state := system_mode_t.MODE_HOME }
    else s
  else s

/-- The accept block of `MODE_SET_ALARM_HOURS` (main.c:348-366). -/
def acceptAlarmHours (inp : inputs_t) (s : main_t) : main_t :=
  if inp.accept_released = true then
    let s := { s with alarm_time := digitsToTime s.digits }
    let r := ClockSetAlarmTime s.clock (some s.alarm_time)
    let s := { s with clock := r.2 }
    if r.1 = true then
      let s := { s with dots := { s.dots with d3 := 1 } }
      let s := { s with clock := ClockEnableAlarm s.clock }
      if s.last_state ≠ system_mode_t.MODE_UNSET then
        { s with mode := system_mode_t.MODE_HOME }
      else
        let s := { s with mode := system_mode_t.MODE_UNSET }
        { s with digits := { d0 := 0, d1 := 0, d2 := 0, d3 := 0 } }
    else s
  else s

/-- The case `MODE_SET_TIME_MINUTES` of `ButtonTask` (main.c:202-239): its four blocks in
order. -/
def caseSetTimeMinutes (inp : inputs_t) (s : main_t) : main_t :=
  acceptMinutes system_mode_t.MODE_SET_TIME_HOURS inp
    (timeMinutesBlocks inp (cancelOrTimeout inp s))

/-- The case `MODE_SET_TIME_HOURS` of `ButtonTask` (main.c:241-279): its four blocks in
order. -/
def caseSetTimeHours (inp : inputs_t) (s : main_t) : main_t :=
  acceptTimeHours inp (hoursBlocks inp (cancelOrTimeout inp s))

/-- The case `MODE_SET_ALARM_MINUTES` of `ButtonTask` (main.c:281-316): its four blocks in
order. -/
def caseSetAlarmMinutes (inp : inputs_t) (s : main_t) : main_t :=
  acceptMinutes system_mode_t.MODE_SET_ALARM_HOURS inp
    (alarmMinutesBlocks inp (cancelOrTimeout inp s))

/-- The case `MODE_SET_ALARM_HOURS` of `ButtonTask` (main.c:318-368): its four blocks in
order. -/
def caseSetAlarmHours (inp : inputs_t) (s : main_t) : main_t :=
  acceptAlarmHours inp (hoursBlocks inp (cancelOrTimeout inp s))

/-- The case `MODE_ALARM_TRIGGERED` of `ButtonTask` (main.c:370-389). -/
def caseAlarmTriggered (inp : inputs_t) (s : main_t) : main_t :=
  let s : main_t :=
    if inp.cancel_released = true then
      let s := { s with clock := (ClockCancelAlarmUntilNextDay s.clock).2 }
      { s with mode := system_mode_t.MODE_HOME }
    else if inp.accept_released = true then
      let s := { s with clock := (ClockSnoozeAlarm s.clock 5).2 }
      { s with mode := system_mode_t.MODE_HOME }
    else s
  refreshDigits s

/-- One pass of the `while (true)` loop of `ButtonTask` (main.c:145-390). The arguments
`press_threshold` and `release_tolerance` are `pdMS_TO_TICKS(LONG_PRESS_TIME_MS)` and
`pdMS_TO_TICKS(DEBOUNCE_TOLERANCE_MS)`, a FreeRTOS macro. -/
def ButtonTask (press_threshold release_tolerance : Nat) (inp : inputs_t) (s : main_t) :
    main_t :=
  match s.mode with
  | .MODE_UNSET => caseUnset press_threshold release_tolerance inp s
  | .MODE_HOME => caseHome press_threshold release_tolerance inp s
  | .MODE_SET_TIME_MINUTES => caseSetTimeMinutes inp s
  | .MODE_SET_TIME_HOURS => caseSetTimeHours inp s
  | .MODE_SET_ALARM_MINUTES => caseSetAlarmMinutes inp s
  | .MODE_SET_ALARM_HOURS => caseSetAlarmHours inp s
  | .MODE_ALARM_TRIGGERED => caseAlarmTriggered inp s

/-- One pass of the loop of `ClockTask` (main.c:131-132). -/
def ClockTask (s : main_t) : main_t :=
  let s := { s with clock := ClockNewTick s.clock }
  { s with current_time := (ClockGetTime s.clock (some s.current_time)).2.getD s.current_time }

/-- One pass of the loop of `DotBlinkTask` (main.c:401-403). -/
def DotBlinkTask (s : main_t) : main_t :=
  if s.mode = system_mode_t.MODE_HOME ∨ s.mode = system_mode_t.MODE_ALARM_TRIGGERED then
    { s with dots := { s.dots with d1 := if s.dots.d1 = 0 then 1 else 0 } }
  else s

/-- One pass of the loop of `TimeOutTask` (main.c:413-420); `timeout_counter` is a
`uint8_t`. -/
def TimeOutTask (s : main_t) : main_t :=
  if s.mode = system_mode_t.MODE_SET_ALARM_HOURS ∨ s.mode = system_mode_t.MODE_SET_ALARM_MINUTES ∨
      s.mode = system_mode_t.MODE_SET_TIME_HOURS ∨ s.mode = system_mode_t.MODE_SET_TIME_MINUTES then
    let s := { s with timeout_counter := (s.timeout_counter + 1) % 256 }
    if s.timeout_counter ≥ 30 then
      let s := { s with timeout := true }
      { s with timeout_counter := 0 }
    else s
  else s

/-- The state when the scheduler starts: the initialisers of the globals of `main.c`,
`clock = ClockCreate(1000)` and the two `LongPressInit` calls of `ButtonTask`. -/
def mainInit (malloc_ok : Bool) : main_t :=
  { mode := system_mode_t.MODE_UNSET, clock := ClockCreate malloc_ok 1000,
    current_time := zeroTime, alarm_time := zeroTime,
    digits := { d0 := 0, d1 := 0, d2 := 0, d3 := 0 },
    dots := { d0 := 0, d1 := 1, d2 := 0, d3 := 0 },
    last_state := system_mode_t.MODE_UNSET, timeout := false, timeout_counter := 0,
    set_alarm_lp := LongPressInit { press_time := 0, release_time := 0, active := false },
    set_time_lp := LongPressInit { press_time := 0, release_time := 0, active := false } }

/-- The hours a digit buffer shows. -/
def hoursOf (digits : digits_t) : Nat := digits.d0 * 10 + digits.d1

/-- The minutes a digit buffer shows. -/
def minutesOf (digits : digits_t) : Nat := digits.d2 * 10 + digits.d3

/-- A digit buffer holds a valid `hh:mm`: four decimal digits, hours below 24, minutes
below 60. -/
def validDigits (digits : digits_t) : Bool :=
  decide (digits.d0 ≤ 9 ∧ digits.d1 ≤ 9 ∧ digits.d2 ≤ 9 ∧ digits.d3 ≤ 9 ∧
    hoursOf digits < 24 ∧ minutesOf digits < 60)

/-- The buffer showing `h:m`. -/
def digitsOf (h m : Nat) : digits_t := { d0 := h / 10, d1 := h % 10, d2 := m / 10, d3 := m % 10 }

/-- A state in editing mode `mode` entered from `last`, over clock `clock`, showing `h:m`,
seven idle seconds counted. -/
def sampleEdit (mode last : system_mode_t) (clock : Option clock_s) (h m : Nat) : main_t :=
  { mode := mode, clock := clock, current_time := zeroTime, alarm_time := zeroTime,
    digits := digitsOf h m, dots := { d0 := 0, d1 := 1, d2 := 0, d3 := 0 },
    last_state := last, timeout := false, timeout_counter := 7,
    set_alarm_lp := { press_time := 0, release_time := 0, active := false },
    set_time_lp := { press_time := 0, release_time := 0, active := false } }

/-- No button event and both set buttons idle, at tick `t`. -/
def noInput (t : Nat) : inputs_t :=
  { set_alarm_active := true, set_time_active := true, accept_released := false,
    cancel_released := false, increment_released := false, decrement_released := false,
    ticks_first := t, ticks_second := t }

/-- The digit buffer after the increment and decrement blocks of the two hours cases
(main.c:253-268, 332-347). -/
def editHours (inp : inputs_t) (digits : digits_t) : digits_t :=
  let digits := if inp.increment_released = true then incHours digits else digits
  if inp.decrement_released = true then decHours digits else digits

/-- Successive passes of the `ButtonTask` loop, one per element of `inps`, first pass
first. -/
def runButtonTask (press_threshold release_tolerance : Nat) (inps : List inputs_t)
    (s : main_t) : main_t :=
  inps.foldl (fun s inp => ButtonTask press_threshold release_tolerance inp s) s

/-- The set-alarm button held down, nothing else, at tick `t`. -/
def holdSetAlarm (t : Nat) : inputs_t := { noInput t with set_alarm_active := false }

/-- An accept-release and no other event, at tick `t`. -/
def acceptOnly (t : Nat) : inputs_t := { noInput t with accept_released := true }

/-- A cancel-release and no other event, at tick `t`. -/
def cancelOnly (t : Nat) : inputs_t := { noInput t with cancel_released := true }

/-- An increment-release and no other event, at tick `t`. -/
def incrementOnly (t : Nat) : inputs_t := { noInput t with increment_released := true }

/-- A decrement-release and no other event, at tick `t`. -/
def decrementOnly (t : Nat) : inputs_t := { noInput t with decrement_released := true }

/-- The set-time button held down, nothing else, at tick `t`. -/
def holdSetTime (t : Nat) : inputs_t := { noInput t with set_time_active := false }

/-- The engine holds a valid time: the pointer is non-null and `clock->valid` is set, which is
when `ClockGetTime` returns true. -/
def clockValid (clock : Option clock_s) : Bool :=
  match clock with
  | some e => e.valid
  | none => false

/-- One step of the firmware: one pass of the loop of one of its four tasks, `ButtonTask`
with what it reads from outside. -/
inductive step_t where
  | button (inp : inputs_t)
  | clockTick
  | timeOut
  | dotBlink
deriving DecidableEq

/-- The effect of one step on the globals. -/
def step_t.run (press_threshold release_tolerance : Nat) : step_t → main_t → main_t
  | .button inp, s => ButtonTask press_threshold release_tolerance inp s
  | .clockTick, s => ClockTask s
  | .timeOut, s => TimeOutTask s
  | .dotBlink, s => DotBlinkTask s

/-- Successive steps, first step first: an interleaving of passes of the four task loops, each
pass taken as a whole. -/
def runSteps (press_threshold release_tolerance : Nat) (steps : List step_t) (s : main_t) :
    main_t :=
  steps.foldl (fun s st => st.run press_threshold release_tolerance s) s

/-- The mode is one of the four editing modes. -/
def isEditing (mode : system_mode_t) : Bool :=
  decide (mode = system_mode_t.MODE_SET_TIME_MINUTES ∨ mode = system_mode_t.MODE_SET_TIME_HOURS ∨
    mode = system_mode_t.MODE_SET_ALARM_MINUTES ∨ mode = system_mode_t.MODE_SET_ALARM_HOURS)

/-- A first-time setup of the time: long press on set-time (polls at ticks 1 and 3001),
accept-release into `MODE_SET_TIME_HOURS`, ten passes of `TimeOutTask`, and the accept-release
that commits 00:00. -/
def commitAfterTenSeconds : List step_t :=
  [step_t.button (holdSetTime 1), step_t.button (holdSetTime 3001),
    step_t.button (acceptOnly 3010)] ++ List.replicate 10 step_t.timeOut ++
    [step_t.button (acceptOnly 14000)]

/-- The set-time button released for 200 ticks and then held for 3000 ticks: a second long
press. -/
def secondLongPress : List step_t :=
  [step_t.button (noInput 14100), step_t.button (noInput 14300),
    step_t.button (holdSetTime 15000), step_t.button (holdSetTime 18000)]

/-- A first-time setup of the alarm: long press on set-alarm, accept-release into
`MODE_SET_ALARM_HOURS`, an increment-release (01:00) and the accept-release that commits. -/
def alarmBeforeTime : List step_t :=
  [step_t.button (holdSetAlarm 1), step_t.button (holdSetAlarm 3001),
    step_t.button (acceptOnly 3010), step_t.button (incrementOnly 3020),
    step_t.button (acceptOnly 3030)]

/-- A setup of the time after that: a clock tick, long press on set-time, accept-release into
`MODE_SET_TIME_HOURS` and the accept-release that commits 00:00. -/
def thenSetTime : List step_t :=
  [step_t.clockTick, step_t.button (holdSetTime 4000), step_t.button (holdSetTime 7000),
    step_t.button (acceptOnly 7010), step_t.button (acceptOnly 7020),
    step_t.button (noInput 7030), step_t.clockTick]

/-- An increment-release and an accept-release read in the same pass, at tick `t`. -/
def incrementAndAccept (t : Nat) : inputs_t :=
  { noInput t with increment_released := true, accept_released := true }

/-- What mode and `last_state` say about the engine: either `last_state` is `MODE_UNSET`, the
engine holds no valid time and the mode is neither `MODE_HOME` nor `MODE_ALARM_TRIGGERED`; or
`last_state` is `MODE_HOME`, the engine holds a valid time and the mode is not `MODE_UNSET`. -/
def modeInvariant (s : main_t) : Prop :=
  (s.last_state = system_mode_t.MODE_UNSET ∧ clockValid s.clock = false ∧
    s.mode ≠ system_mode_t.MODE_HOME ∧ s.mode ≠ system_mode_t.MODE_ALARM_TRIGGERED) ∨
  (s.last_state = system_mode_t.MODE_HOME ∧ clockValid s.clock = true ∧
    s.mode ≠ system_mode_t.MODE_UNSET)

/-! ## Validity and seconds of the day -/

theorem IsValidTime_iff (t : clock_time_t) :
    IsValidTime (some t) = true ↔
      t.seconds0 ≤ 9 ∧ t.seconds1 ≤ 5 ∧ t.minutes0 ≤ 9 ∧ t.minutes1 ≤ 5 ∧ t.hours0 ≤ 9 ∧
        t.hours1 ≤ 2 ∧ (t.hours1 = 2 → t.hours0 ≤ 3) := by
  simp only [IsValidTime]
  split_ifs <;> simp only [Bool.false_eq_true, false_iff, true_iff] <;> omega

theorem ofSeconds_toSeconds (t : clock_time_t) (h : IsValidTime (some t) = true) :
    ofSeconds (toSeconds t) = t := by
  rw [IsValidTime_iff] at h
  obtain ⟨a, b, c, d, e, f, g⟩ := h
  rcases t with ⟨s0, s1, m0, m1, h0, h1⟩
  simp only at a b c d e f g
  simp only [ofSeconds, toSeconds, clock_time_t.mk.injEq]
  refine ⟨?_, ?_, ?_, ?_, ?_, ?_⟩ <;> omega

theorem toSeconds_lt (t : clock_time_t) (h : IsValidTime (some t) = true) :
    toSeconds t < 86400 := by
  rw [IsValidTime_iff] at h
  simp only [toSeconds]
  omega

theorem IsValidTime_ofSeconds (n : Nat) (h : n < 86400) :
    IsValidTime (some (ofSeconds n)) = true := by
  rw [IsValidTime_iff]
  simp only [ofSeconds]
  omega

theorem toSeconds_ofSeconds (n : Nat) :
    toSeconds (ofSeconds n) = n := by
  simp only [ofSeconds, toSeconds]
  omega

theorem advanceSecond_valid (t : clock_time_t) (h : IsValidTime (some t) = true) :
    IsValidTime (some (advanceSecond t)) = true ∧
    toSeconds (advanceSecond t) = (toSeconds t + 1) % 86400 := by
  rw [IsValidTime_iff] at h
  obtain ⟨a, b, c, d, e, f, g⟩ := h
  rcases t with ⟨s0, s1, m0, m1, h0, h1⟩
  simp only at a b c d e f g
  have e0 : (s0 + 1) % 256 = s0 + 1 := by omega
  have e1 : (s1 + 1) % 256 = s1 + 1 := by omega
  have e2 : (m0 + 1) % 256 = m0 + 1 := by omega
  have e3 : (m1 + 1) % 256 = m1 + 1 := by omega
  have e4 : (h0 + 1) % 256 = h0 + 1 := by omega
  have e5 : (h1 + 1) % 256 = h1 + 1 := by omega
  rw [IsValidTime_iff]
  simp only [advanceSecond, toSeconds, e0, e1, e2, e3, e4, e5]
  split_ifs <;> (try dsimp only at *) <;> omega

/-! ## One tick and many ticks -/

theorem ClockTimesMatch_iff (a b : clock_time_t) : ClockTimesMatch a b = true ↔ a = b := by
  rcases a with ⟨a0, a1, a2, a3, a4, a5⟩
  rcases b with ⟨b0, b1, b2, b3, b4, b5⟩
  simp [ClockTimesMatch, clock_time_t.bcd]

theorem checkAlarm_frame (e : clock_s) :
    (checkAlarm e).clock_ticks = e.clock_ticks ∧ (checkAlarm e).current_time = e.current_time ∧
    (checkAlarm e).valid = e.valid ∧ (checkAlarm e).ticks_per_second = e.ticks_per_second ∧
    (checkAlarm e).alarm_time = e.alarm_time ∧ (checkAlarm e).alarm_enabled = e.alarm_enabled ∧
    (checkAlarm e).snoozed_time = e.snoozed_time := by
  simp only [checkAlarm]
  split_ifs <;> exact ⟨rfl, rfl, rfl, rfl, rfl, rfl, rfl⟩

theorem checkAlarm_flags (e : clock_s) :
    (e.alarm_enabled = true ∧
        e.current_time = (if e.snoozed_active = true then e.snoozed_time else e.alarm_time) →
      (checkAlarm e).alarm_triggered = true ∧ (checkAlarm e).snoozed_active = false) ∧
    (¬ (e.alarm_enabled = true ∧
        e.current_time = (if e.snoozed_active = true then e.snoozed_time else e.alarm_time)) →
      (checkAlarm e).alarm_triggered = e.alarm_triggered ∧
        (checkAlarm e).snoozed_active = e.snoozed_active) := by
  unfold checkAlarm
  constructor
  · rintro ⟨h1, h2⟩
    have h3 := (ClockTimesMatch_iff _ _).mpr h2
    simp [h1, h3]
  · intro h
    by_cases h1 : e.alarm_enabled = true
    · have h2 : ¬ e.current_time =
          (if e.snoozed_active = true then e.snoozed_time else e.alarm_time) := fun h2 => h ⟨h1, h2⟩
      have h3 : ClockTimesMatch e.current_time
          (if e.snoozed_active = true then e.snoozed_time else e.alarm_time) = false := by
        rw [← Bool.not_eq_true, ClockTimesMatch_iff]; exact h2
      simp [h1, h3]
    · simp [h1]

theorem newTick_invalid (e : clock_s) (h : e.valid = false) : newTick e = e := by
  simp [newTick, h]

/-- The engine between the time update and the alarm check of one tick. -/
theorem newTick_valid (e : clock_s) (h : e.valid = true) :
    newTick e = checkAlarm
      (if (e.clock_ticks + 1) % 65536 = e.ticks_per_second then
        { e with clock_ticks := 0, current_time := advanceSecond e.current_time }
       else { e with clock_ticks := (e.clock_ticks + 1) % 65536 }) := by
  simp only [newTick, h]
  rfl

theorem newTick_frame (e : clock_s) :
    (newTick e).valid = e.valid ∧ (newTick e).ticks_per_second = e.ticks_per_second ∧
    (newTick e).alarm_time = e.alarm_time ∧ (newTick e).alarm_enabled = e.alarm_enabled ∧
    (newTick e).snoozed_time = e.snoozed_time := by
  cases h : e.valid
  · rw [newTick_invalid e h]; simp [h]
  · rw [newTick_valid e h]
    obtain ⟨_, _, h3, h4, h5, h6, h7⟩ := checkAlarm_frame
      (if (e.clock_ticks + 1) % 65536 = e.ticks_per_second then
        { e with clock_ticks := 0, current_time := advanceSecond e.current_time }
       else { e with clock_ticks := (e.clock_ticks + 1) % 65536 })
    rw [h3, h4, h5, h6, h7]
    split_ifs <;> simp [h]

theorem newTick_time (e : clock_s) (h : e.valid = true) (hR : e.ticks_per_second < 65536)
    (ha : e.clock_ticks < e.ticks_per_second) :
    (newTick e).clock_ticks = (if e.clock_ticks + 1 = e.ticks_per_second then 0
      else e.clock_ticks + 1) ∧
    (newTick e).current_time = (if e.clock_ticks + 1 = e.ticks_per_second then
      advanceSecond e.current_time else e.current_time) := by
  have hm : (e.clock_ticks + 1) % 65536 = e.clock_ticks + 1 := Nat.mod_eq_of_lt (by omega)
  rw [newTick_valid e h, hm]
  obtain ⟨h1, h2, _⟩ := checkAlarm_frame
      (if e.clock_ticks + 1 = e.ticks_per_second then
        { e with clock_ticks := 0, current_time := advanceSecond e.current_time }
       else { e with clock_ticks := e.clock_ticks + 1 })
  rw [h1, h2]
  split_ifs <;> simp

theorem ClockNewTick_iterate (n : Nat) (e : clock_s) :
    ClockNewTick^[n] (some e) = some (newTick^[n] e) := by
  induction n with
  | zero => rfl
  | succ n ih => rw [Function.iterate_succ_apply', Function.iterate_succ_apply', ih]; rfl

theorem succ_div_mod (a R : Nat) (hR : 0 < R) :
    (a % R + 1 = R → (a + 1) % R = 0 ∧ (a + 1) / R = a / R + 1) ∧
    (a % R + 1 ≠ R → (a + 1) % R = a % R + 1 ∧ (a + 1) / R = a / R) := by
  have hlt := Nat.mod_lt a hR
  have hd := Nat.div_add_mod a R
  constructor
  · intro h
    have e1 : a + 1 = R * (a / R + 1) := by rw [Nat.mul_add, Nat.mul_one]; omega
    rw [e1]
    exact ⟨Nat.mul_mod_right _ _, Nat.mul_div_cancel_left _ hR⟩
  · intro h
    have h2 : a % R + 1 < R := by omega
    have e1 : a + 1 = R * (a / R) + (a % R + 1) := by omega
    rw [e1, Nat.mul_add_mod, Nat.mul_add_div hR, Nat.mod_eq_of_lt h2, Nat.div_eq_of_lt h2]
    exact ⟨rfl, rfl⟩

theorem newTick_iterate (e : clock_s) (hv : e.valid = true) (hR : e.ticks_per_second < 65536)
    (ha : e.clock_ticks < e.ticks_per_second) (ht : IsValidTime (some e.current_time) = true)
    (n : Nat) :
    (newTick^[n] e).valid = true ∧
    (newTick^[n] e).ticks_per_second = e.ticks_per_second ∧
    (newTick^[n] e).alarm_time = e.alarm_time ∧
    (newTick^[n] e).alarm_enabled = e.alarm_enabled ∧
    (newTick^[n] e).snoozed_time = e.snoozed_time ∧
    (newTick^[n] e).clock_ticks = (e.clock_ticks + n) % e.ticks_per_second ∧
    (newTick^[n] e).current_time =
      ofSeconds ((toSeconds e.current_time + (e.clock_ticks + n) / e.ticks_per_second) % 86400) := by
  have hpos : 0 < e.ticks_per_second := by omega
  induction n with
  | zero =>
    simp only [Function.iterate_zero, id_eq, Nat.add_zero, Nat.mod_eq_of_lt ha,
      Nat.div_eq_of_lt ha, Nat.mod_eq_of_lt (toSeconds_lt _ ht), ofSeconds_toSeconds _ ht,
      hv, and_self]
  | succ n ih =>
    obtain ⟨i1, i2, i3, i4, i5, i6, i7⟩ := ih
    rw [Function.iterate_succ_apply']
    obtain ⟨f1, f2, f3, f4, f5⟩ := newTick_frame (newTick^[n] e)
    have hlt : (newTick^[n] e).clock_ticks < (newTick^[n] e).ticks_per_second := by
      rw [i6, i2]; exact Nat.mod_lt _ hpos
    obtain ⟨t1, t2⟩ := newTick_time (newTick^[n] e) i1 (by rw [i2]; exact hR) hlt
    refine ⟨by rw [f1, i1], by rw [f2, i2], by rw [f3, i3], by rw [f4, i4], by rw [f5, i5], ?_, ?_⟩
    · rw [t1, i6, i2, ← Nat.add_assoc]
      obtain ⟨s1, s2⟩ := succ_div_mod (e.clock_ticks + n) e.ticks_per_second hpos
      split_ifs with hc
      · exact (s1 hc).1.symm
      · exact (s2 hc).1.symm
    · rw [t2, i6, i2, i7, ← Nat.add_assoc]
      obtain ⟨s1, s2⟩ := succ_div_mod (e.clock_ticks + n) e.ticks_per_second hpos
      split_ifs with hc
      · rw [(s1 hc).2]
        have hval := IsValidTime_ofSeconds ((toSeconds e.current_time +
          (e.clock_ticks + n) / e.ticks_per_second) % 86400) (Nat.mod_lt _ (by decide))
        rw [← ofSeconds_toSeconds _ (advanceSecond_valid _ hval).1, (advanceSecond_valid _ hval).2,
          toSeconds_ofSeconds]
        congr 1
        omega
      · rw [(s2 hc).2]


/-! ## Seconds, minutes, hours and days of ticks -/

/-- C1: at tick rate `R ≥ 1` (a `uint16_t`), from an engine with `valid = true`, a current time
that passes validation and denotes second `s` of the day, and accumulator below `R`, exactly `R`
calls of `ClockNewTick` leave the BCD encoding of `(s + 1) mod 86400` as current time and the
accumulator at its original value. -/
theorem C1_rate_ticks_advance_one_second (R s : Nat) (e : clock_s) (hR : 1 ≤ R)
    (hR16 : R < 65536) (htps : e.ticks_per_second = R) (hv : e.valid = true)
    (ht : IsValidTime (some e.current_time) = true) (hs : toSeconds e.current_time = s)
    (ha : e.clock_ticks < R) :
    ∃ e', ClockNewTick^[R] (some e) = some e' ∧
      e'.current_time = ofSeconds ((s + 1) % 86400) ∧ e'.clock_ticks = e.clock_ticks := by
  subst htps hs
  obtain ⟨_, _, _, _, _, h6, h7⟩ := newTick_iterate e hv hR16 ha ht e.ticks_per_second
  refine ⟨_, ClockNewTick_iterate _ e, ?_, ?_⟩
  · rw [h7, Nat.add_div_right _ hR, Nat.div_eq_of_lt ha]
  · rw [h6, Nat.add_mod_right, Nat.mod_eq_of_lt ha]

/-- C1 at 23:59:59 with rate 3 and accumulator 1: three ticks give 00:00:00, accumulator 1. -/
theorem C1_rate_ticks_advance_one_second_witness :
    (sampleEngine 3 1 (ofHMS 23 59 59) zeroTime false).clock_ticks < 3 ∧
    ∃ e', ClockNewTick^[3] (some (sampleEngine 3 1 (ofHMS 23 59 59) zeroTime false)) = some e' ∧
      e'.current_time = ofSeconds ((86399 + 1) % 86400) ∧
      e'.clock_ticks = (sampleEngine 3 1 (ofHMS 23 59 59) zeroTime false).clock_ticks :=
  ⟨by decide,
   C1_rate_ticks_advance_one_second 3 86399 (sampleEngine 3 1 (ofHMS 23 59 59) zeroTime false)
    (by decide) (by decide) rfl rfl (by decide) (by decide) (by decide)⟩

/-- C2: at tick rate `R ≥ 1`, from an engine with `valid = true`, accumulator below `R` and a
current time that passes validation and denotes second `s` of the day, `n * R` calls of
`ClockNewTick` leave the encoding of `(s + n) mod 86400`; so `60 * R` ticks advance one minute,
`3600 * R` ticks one hour, and `86400 * R` ticks bring back the time the clock started from. -/
theorem C2_seconds_elapsed (R n s : Nat) (e : clock_s) (hR : 1 ≤ R) (hR16 : R < 65536)
    (htps : e.ticks_per_second = R) (hv : e.valid = true)
    (ht : IsValidTime (some e.current_time) = true) (hs : toSeconds e.current_time = s)
    (ha : e.clock_ticks < R) :
    (∃ e', ClockNewTick^[n * R] (some e) = some e' ∧
      e'.current_time = ofSeconds ((s + n) % 86400)) ∧
    (∃ e', ClockNewTick^[60 * R] (some e) = some e' ∧
      e'.current_time = ofSeconds ((s + 60) % 86400)) ∧
    (∃ e', ClockNewTick^[3600 * R] (some e) = some e' ∧
      e'.current_time = ofSeconds ((s + 3600) % 86400)) ∧
    (∃ e', ClockNewTick^[86400 * R] (some e) = some e' ∧ e'.current_time = e.current_time) := by
  subst htps hs
  have key : ∀ k, ∃ e', ClockNewTick^[k * e.ticks_per_second] (some e) = some e' ∧
      e'.current_time = ofSeconds ((toSeconds e.current_time + k) % 86400) := by
    intro k
    obtain ⟨_, _, _, _, _, _, h7⟩ := newTick_iterate e hv hR16 ha ht (k * e.ticks_per_second)
    refine ⟨_, ClockNewTick_iterate _ e, ?_⟩
    rw [h7, Nat.add_mul_div_right _ _ hR, Nat.div_eq_of_lt ha, Nat.zero_add]
  refine ⟨key n, key 60, key 3600, ?_⟩
  obtain ⟨e', h1, h2⟩ := key 86400
  refine ⟨e', h1, ?_⟩
  rw [h2, Nat.add_mod_right, Nat.mod_eq_of_lt (toSeconds_lt _ ht), ofSeconds_toSeconds _ ht]

/-- C2 from 00:00:00 at rate 5: a whole day of ticks returns to 00:00:00. -/
theorem C2_seconds_elapsed_witness :
    IsValidTime (some (sampleEngine 5 0 zeroTime zeroTime false).current_time) = true ∧
    ∃ e', ClockNewTick^[86400 * 5] (some (sampleEngine 5 0 zeroTime zeroTime false)) = some e' ∧
      e'.current_time = (sampleEngine 5 0 zeroTime zeroTime false).current_time :=
  ⟨by decide,
   (C2_seconds_elapsed 5 86400 0 (sampleEngine 5 0 zeroTime zeroTime false)
    (by decide) (by decide) rfl rfl (by decide) (by decide) (by decide)).2.2.2⟩


/-! ## Stored times stay valid -/

theorem IsValidTime_zeroTime : IsValidTime (some zeroTime) = true := by decide

theorem newTick_current_time (e : clock_s) :
    (newTick e).current_time = e.current_time ∨
      (e.valid = true ∧ (newTick e).current_time = advanceSecond e.current_time) := by
  cases h : e.valid
  · rw [newTick_invalid e h]; exact Or.inl rfl
  · rw [newTick_valid e h]
    obtain ⟨_, h2, _⟩ := checkAlarm_frame
      (if (e.clock_ticks + 1) % 65536 = e.ticks_per_second then
        { e with clock_ticks := 0, current_time := advanceSecond e.current_time }
       else { e with clock_ticks := (e.clock_ticks + 1) % 65536 })
    rw [h2]
    split_ifs
    · exact Or.inr ⟨rfl, rfl⟩
    · exact Or.inl rfl

theorem hm_digits_valid (H M : Nat) (hH : H < 24) (hM : M < 60) :
    IsValidTime (some ⟨0, 0, (M % 10) % 256, (M / 10) % 256, (H % 10) % 256, (H / 10) % 256⟩)
      = true := by
  rw [IsValidTime_iff]
  dsimp only
  omega

theorem snooze_time_valid (e e' : clock_s) (m : Nat) (b : Bool)
    (h : ClockSnoozeAlarm (some e) m = (b, some e')) :
    e'.current_time = e.current_time ∧ e'.alarm_time = e.alarm_time ∧
      IsValidTime (some e'.snoozed_time) = true ∨ e' = e := by
  simp only [ClockSnoozeAlarm] at h
  split_ifs at h with h1 h2
  · right
    simp only [Prod.mk.injEq, Option.some.injEq] at h
    exact h.2.symm
  · left
    simp only [Prod.mk.injEq, Option.some.injEq] at h
    rw [← h.2]
    exact ⟨rfl, rfl, hm_digits_valid _ _ (Nat.mod_lt _ (by decide)) (Nat.mod_lt _ (by decide))⟩
  · left
    simp only [Prod.mk.injEq, Option.some.injEq] at h
    rw [← h.2]
    exact ⟨rfl, rfl, hm_digits_valid _ _ (not_le.mp h2) (Nat.mod_lt _ (by decide))⟩

theorem Op_run_StoredTimesValid (o : Op) (self : Option clock_s) (h : StoredTimesValid self) :
    StoredTimesValid (o.run self) := by
  cases self with
  | none =>
    intro e he
    cases o <;> simp [Op.run, ClockSetTime, ClockSetAlarmTime, ClockNewTick, ClockEnableAlarm,
      ClockDisableAlarm, ClockSnoozeAlarm, ClockCancelAlarmUntilNextDay] at he
  | some e0 =>
    obtain ⟨h1, h2, h3⟩ := h e0 rfl
    intro e he
    cases o with
    | SetTime t =>
      cases t with
      | none =>
        simp only [Op.run, ClockSetTime, Option.some.injEq] at he
        subst he; exact ⟨h1, h2, h3⟩
      | some t =>
        simp only [Op.run, ClockSetTime] at he
        split_ifs at he with hv
        · simp only [Option.some.injEq] at he
          subst he; exact ⟨h1, h2, h3⟩
        · simp only [Option.some.injEq] at he
          subst he
          simp only [Bool.not_eq_true, Bool.not_eq_false, Bool.not_eq_eq_eq_not,
            Bool.not_true, Bool.not_false] at hv
          exact ⟨hv, h2, h3⟩
    | SetAlarmTime t =>
      cases t with
      | none =>
        simp only [Op.run, ClockSetAlarmTime, Option.some.injEq] at he
        subst he; exact ⟨h1, h2, h3⟩
      | some t =>
        simp only [Op.run, ClockSetAlarmTime] at he
        split_ifs at he with hv
        · simp only [Option.some.injEq] at he
          subst he; exact ⟨h1, h2, h3⟩
        · simp only [Option.some.injEq] at he
          subst he
          simp only [Bool.not_eq_true, Bool.not_eq_false, Bool.not_eq_eq_eq_not,
            Bool.not_true, Bool.not_false] at hv
          exact ⟨h1, hv, h3⟩
    | NewTick =>
      simp only [Op.run, ClockNewTick, Option.some.injEq] at he
      subst he
      obtain ⟨_, _, f3, _, f5⟩ := newTick_frame e0
      refine ⟨?_, by rw [f3]; exact h2, by rw [f5]; exact h3⟩
      rcases newTick_current_time e0 with hc | ⟨_, hc⟩
      · rw [hc]; exact h1
      · rw [hc]; exact (advanceSecond_valid _ h1).1
    | EnableAlarm =>
      simp only [Op.run, ClockEnableAlarm] at he
      split_ifs at he <;> simp only [Option.some.injEq] at he <;> subst he <;>
        exact ⟨h1, h2, h3⟩
    | DisableAlarm =>
      simp only [Op.run, ClockDisableAlarm] at he
      split_ifs at he <;> simp only [Option.some.injEq] at he <;> subst he <;>
        exact ⟨h1, h2, h3⟩
    | SnoozeAlarm m =>
      simp only [Op.run] at he
      have hp : ClockSnoozeAlarm (some e0) m = ((ClockSnoozeAlarm (some e0) m).1, some e) := by
        rw [← he]
      rcases snooze_time_valid e0 e m _ hp with ⟨g1, g2, g3⟩ | g
      · exact ⟨by rw [g1]; exact h1, by rw [g2]; exact h2, g3⟩
      · subst g; exact ⟨h1, h2, h3⟩
    | CancelAlarmUntilNextDay =>
      simp only [Op.run, ClockCancelAlarmUntilNextDay] at he
      split_ifs at he <;> simp only [Option.some.injEq] at he <;> subst he <;>
        exact ⟨h1, h2, h3⟩

theorem runOps_StoredTimesValid (ops : List Op) (self : Option clock_s)
    (h : StoredTimesValid self) : StoredTimesValid (runOps ops self) := by
  induction ops generalizing self with
  | nil => exact h
  | cons o ops ih => exact ih _ (Op_run_StoredTimesValid o self h)

theorem ClockCreate_StoredTimesValid (malloc_ok : Bool) (R : Nat) :
    StoredTimesValid (ClockCreate malloc_ok R) := by
  intro e he
  simp only [ClockCreate] at he
  split_ifs at he
  simp only [Option.some.injEq] at he
  subst he
  exact ⟨IsValidTime_zeroTime, IsValidTime_zeroTime, IsValidTime_zeroTime⟩

/-- C3: in every engine state reached from `ClockCreate` by any sequence of `ClockSetTime`,
`ClockSetAlarmTime`, `ClockNewTick`, `ClockEnableAlarm`, `ClockDisableAlarm`, `ClockSnoozeAlarm`
and `ClockCancelAlarmUntilNextDay` calls with arbitrary arguments, the current time, the alarm
time and the snoozed time all pass `IsValidTime`. -/
theorem C3_stored_times_always_valid (malloc_ok : Bool) (R : Nat) (ops : List Op) (e : clock_s)
    (h : runOps ops (ClockCreate malloc_ok R) = some e) :
    IsValidTime (some e.current_time) = true ∧ IsValidTime (some e.alarm_time) = true ∧
      IsValidTime (some e.snoozed_time) = true :=
  runOps_StoredTimesValid ops _ (ClockCreate_StoredTimesValid malloc_ok R) e h


/-- C3 on a run at rate 1 that sets 23:59:59, arms the alarm for 00:00:00, ticks over midnight,
snoozes 255 minutes, offers an invalid time, disables, cancels and snoozes 200 minutes. -/
theorem C3_stored_times_always_valid_witness :
    runOps [Op.SetTime (some (ofHMS 23 59 59)), Op.SetAlarmTime (some (ofHMS 0 0 0)),
        Op.EnableAlarm, Op.NewTick, Op.SnoozeAlarm 255, Op.SetTime (some ⟨10, 0, 0, 0, 0, 0⟩),
        Op.DisableAlarm, Op.CancelAlarmUntilNextDay, Op.SnoozeAlarm 200] (ClockCreate true 1)
      = some { clock_ticks := 0, current_time := zeroTime, valid := true, ticks_per_second := 1,
               alarm_time := zeroTime, alarm_enabled := false, alarm_triggered := false,
               snoozed_time := ofHMS 3 20 0, snoozed_active := true } ∧
    IsValidTime (some zeroTime) = true ∧ IsValidTime (some zeroTime) = true ∧
      IsValidTime (some (ofHMS 3 20 0)) = true :=
  ⟨by decide,
   C3_stored_times_always_valid true 1
    [Op.SetTime (some (ofHMS 23 59 59)), Op.SetAlarmTime (some (ofHMS 0 0 0)),
      Op.EnableAlarm, Op.NewTick, Op.SnoozeAlarm 255, Op.SetTime (some ⟨10, 0, 0, 0, 0, 0⟩),
      Op.DisableAlarm, Op.CancelAlarmUntilNextDay, Op.SnoozeAlarm 200]
    { clock_ticks := 0, current_time := zeroTime, valid := true, ticks_per_second := 1,
      alarm_time := zeroTime, alarm_enabled := false, alarm_triggered := false,
      snoozed_time := ofHMS 3 20 0, snoozed_active := true } (by decide)⟩

/-! ## Setting and reading the time -/

/-- C4: for every engine state and every time argument that fails validation (a time value
with a digit out of range, or no value at all), `ClockSetTime` returns false and the engine
afterwards is the engine before, field for field. -/
theorem C4_set_invalid_time_rejected (e : clock_s) (t : Option clock_time_t)
    (h : IsValidTime t = false) : ClockSetTime (some e) t = (false, some e) := by
  cases t with
  | none => rfl
  | some t => simp [ClockSetTime, h]

/-- C4 at 24:00:00 offered to an engine showing 12:34:56. -/
theorem C4_set_invalid_time_rejected_witness :
    IsValidTime (some (ofHMS 24 0 0)) = false ∧
    ClockSetTime (some (sampleEngine 5 2 (ofHMS 12 34 56) (ofHMS 6 30 0) true))
        (some (ofHMS 24 0 0))
      = (false, some (sampleEngine 5 2 (ofHMS 12 34 56) (ofHMS 6 30 0) true)) :=
  ⟨by decide,
   C4_set_invalid_time_rejected (sampleEngine 5 2 (ofHMS 12 34 56) (ofHMS 6 30 0) true)
    (some (ofHMS 24 0 0)) (by decide)⟩

/-- C5: for every engine state and every time `v` that passes validation, `ClockSetTime`
returns true and changes only `current_time` (to `v`) and `valid` (to true); a following
`ClockGetTime` returns true and writes exactly `v` into the buffer of the caller. -/
theorem C5_set_valid_time_accepted (e : clock_s) (v buf : clock_time_t)
    (h : IsValidTime (some v) = true) :
    ClockSetTime (some e) (some v) =
      (true, some { clock_ticks := e.clock_ticks, current_time := v, valid := true,
                    ticks_per_second := e.ticks_per_second, alarm_time := e.alarm_time,
                    alarm_enabled := e.alarm_enabled, alarm_triggered := e.alarm_triggered,
                    snoozed_time := e.snoozed_time, snoozed_active := e.snoozed_active }) ∧
    ClockGetTime (ClockSetTime (some e) (some v)).2 (some buf) = (true, some v) := by
  simp [ClockSetTime, ClockGetTime, h]

/-- C5 at 15:03:54 (the value of the unit test) set on a fresh engine of rate 5. -/
theorem C5_set_valid_time_accepted_witness :
    IsValidTime (some (ofHMS 15 3 54)) = true ∧
    ClockGetTime (ClockSetTime (ClockCreate true 5) (some (ofHMS 15 3 54))).2
      (some ⟨1, 2, 3, 4, 5, 6⟩) = (true, some (ofHMS 15 3 54)) := by
  have h := C5_set_valid_time_accepted
    { clock_ticks := 0, current_time := zeroTime, valid := false, ticks_per_second := 5,
      alarm_time := zeroTime, alarm_enabled := false, alarm_triggered := false,
      snoozed_time := zeroTime, snoozed_active := false }
    (ofHMS 15 3 54) ⟨1, 2, 3, 4, 5, 6⟩ (by decide)
  exact ⟨by decide, h.2⟩

/-- C6: `IsValidTime` accepts a six-digit value exactly when seconds-units ≤ 9,
seconds-tens ≤ 5, minutes-units ≤ 9, minutes-tens ≤ 5, hours-units ≤ 9, hours-tens ≤ 2 and
hours-units ≤ 3 when hours-tens = 2; that is exactly when the digits are the decimal digits of
some `h < 24`, `m < 60`, `s < 60`; and `ClockSetTime` and `ClockSetAlarmTime` on a present
engine return true exactly when it holds. -/
theorem C6_valid_time_characterised (t : clock_time_t) (e : clock_s) :
    (IsValidTime (some t) = true ↔
      t.seconds0 ≤ 9 ∧ t.seconds1 ≤ 5 ∧ t.minutes0 ≤ 9 ∧ t.minutes1 ≤ 5 ∧ t.hours0 ≤ 9 ∧
        t.hours1 ≤ 2 ∧ (t.hours1 = 2 → t.hours0 ≤ 3)) ∧
    (IsValidTime (some t) = true ↔
      ∃ h m s, h < 24 ∧ m < 60 ∧ s < 60 ∧ t = ofHMS h m s) ∧
    ((ClockSetTime (some e) (some t)).1 = true ↔ IsValidTime (some t) = true) ∧
    ((ClockSetAlarmTime (some e) (some t)).1 = true ↔ IsValidTime (some t) = true) := by
  refine ⟨IsValidTime_iff t, ?_, ?_, ?_⟩
  · rw [IsValidTime_iff]
    constructor
    · rintro ⟨a, b, c, d, f, g, i⟩
      refine ⟨t.hours1 * 10 + t.hours0, t.minutes1 * 10 + t.minutes0,
        t.seconds1 * 10 + t.seconds0, by omega, by omega, by omega, ?_⟩
      rcases t with ⟨s0, s1, m0, m1, h0, h1⟩
      simp only at a b c d f g i
      simp only [ofHMS, clock_time_t.mk.injEq]
      omega
    · rintro ⟨h, m, s, hh, hm, hs, rfl⟩
      simp only [ofHMS]
      omega
  · cases hv : IsValidTime (some t) <;> simp [ClockSetTime, hv]
  · cases hv : IsValidTime (some t) <;> simp [ClockSetAlarmTime, hv]

/-! ## Creation -/

/-- C7: `ClockCreate R` returns no engine when `R < 1`; for `R ≥ 1` an engine that is created
(the allocation succeeding) has `ticks_per_second = R`, `valid = false`, the alarm disabled and
not triggered, snooze inactive, accumulator 0 and all-zero times, and `ClockGetTime` on it
returns false and overwrites the buffer of the caller with six zero digits. -/
theorem C7_create (R : Nat) (malloc_ok : Bool) (buf : clock_time_t) :
    (R < 1 → ClockCreate malloc_ok R = none) ∧
    (1 ≤ R → ClockCreate true R =
      some { clock_ticks := 0, current_time := zeroTime, valid := false, ticks_per_second := R,
             alarm_time := zeroTime, alarm_enabled := false, alarm_triggered := false,
             snoozed_time := zeroTime, snoozed_active := false }) ∧
    (∀ e, ClockCreate malloc_ok R = some e → 1 ≤ R ∧ malloc_ok = true ∧ e =
      { clock_ticks := 0, current_time := zeroTime, valid := false, ticks_per_second := R,
        alarm_time := zeroTime, alarm_enabled := false, alarm_triggered := false,
        snoozed_time := zeroTime, snoozed_active := false }) ∧
    (1 ≤ R → ClockGetTime (ClockCreate true R) (some buf) = (false, some zeroTime)) := by
  refine ⟨?_, ?_, ?_, ?_⟩
  · intro h
    simp [ClockCreate, h]
  · intro h
    have h' : ¬ R < 1 := by omega
    simp [ClockCreate, h']
  · intro e he
    simp only [ClockCreate] at he
    split_ifs at he with h1 h2
    simp only [Option.some.injEq] at he
    refine ⟨by omega, by simpa using h2, he.symm⟩
  · intro h
    have h' : ¬ R < 1 := by omega
    simp [ClockCreate, ClockGetTime, h']

/-- C7 at rates 0 and 5, the buffer holding 1,2,3,4,5,6 as in the unit test. -/
theorem C7_create_witness :
    ClockCreate true 0 = none ∧
    ClockGetTime (ClockCreate true 5) (some ⟨1, 2, 3, 4, 5, 6⟩) = (false, some zeroTime) :=
  ⟨(C7_create 0 true zeroTime).1 (by decide),
   (C7_create 5 true ⟨1, 2, 3, 4, 5, 6⟩).2.2.2 (by decide)⟩

/-! ## One tick -/

/-- C8: for every engine state with `valid = false`, `ClockNewTick` changes nothing: the
engine afterwards is the engine before, field for field. -/
theorem C8_tick_without_valid_time (e : clock_s) (h : e.valid = false) :
    ClockNewTick (some e) = some e := by
  simp only [ClockNewTick, newTick_invalid e h]

/-- C8 on an engine that is not valid, whose alarm is enabled and whose alarm time equals the
stored current time, one tick short of a second. -/
theorem C8_tick_without_valid_time_witness :
    ClockNewTick (some
        { clock_ticks := 4, current_time := zeroTime, valid := false,
          ticks_per_second := 5, alarm_time := zeroTime, alarm_enabled := true,
          alarm_triggered := false, snoozed_time := zeroTime, snoozed_active := false })
      = some
        { clock_ticks := 4, current_time := zeroTime, valid := false,
          ticks_per_second := 5, alarm_time := zeroTime, alarm_enabled := true,
          alarm_triggered := false, snoozed_time := zeroTime, snoozed_active := false } :=
  C8_tick_without_valid_time _ rfl


theorem newTick_flags (e : clock_s) (hv : e.valid = true) :
    (e.alarm_enabled = true ∧ (newTick e).current_time =
        (if e.snoozed_active = true then e.snoozed_time else e.alarm_time) →
      (newTick e).alarm_triggered = true ∧ (newTick e).snoozed_active = false) ∧
    (¬ (e.alarm_enabled = true ∧ (newTick e).current_time =
        (if e.snoozed_active = true then e.snoozed_time else e.alarm_time)) →
      (newTick e).alarm_triggered = e.alarm_triggered ∧
        (newTick e).snoozed_active = e.snoozed_active) := by
  rw [newTick_valid e hv]
  have hx : ∀ X : clock_s, X.alarm_enabled = e.alarm_enabled →
      X.snoozed_active = e.snoozed_active → X.snoozed_time = e.snoozed_time →
      X.alarm_time = e.alarm_time → X.alarm_triggered = e.alarm_triggered →
      (e.alarm_enabled = true ∧ (checkAlarm X).current_time =
          (if e.snoozed_active = true then e.snoozed_time else e.alarm_time) →
        (checkAlarm X).alarm_triggered = true ∧ (checkAlarm X).snoozed_active = false) ∧
      (¬ (e.alarm_enabled = true ∧ (checkAlarm X).current_time =
          (if e.snoozed_active = true then e.snoozed_time else e.alarm_time)) →
        (checkAlarm X).alarm_triggered = e.alarm_triggered ∧
          (checkAlarm X).snoozed_active = e.snoozed_active) := by
    intro X a1 a2 a3 a4 a5
    have hf := checkAlarm_flags X
    rw [a1, a2, a3, a4, a5] at hf
    rw [(checkAlarm_frame X).2.1]
    exact hf
  apply hx <;> split_ifs <;> rfl

/-- C9: on every engine state with `valid = true`, one `ClockNewTick` call, whatever the
accumulator, compares the current time it leaves with the target (`snoozed_time` when
`snoozed_active`, otherwise `alarm_time`): if the alarm is enabled and the two are equal in all
six digits, `alarm_triggered` becomes true and `snoozed_active` false; in every other case both
flags keep their values; `alarm_time`, `alarm_enabled` and `snoozed_time` are never changed. -/
theorem C9_tick_evaluates_alarm (e : clock_s) (hv : e.valid = true) :
    ∃ e', ClockNewTick (some e) = some e' ∧
      e'.alarm_time = e.alarm_time ∧ e'.alarm_enabled = e.alarm_enabled ∧
      e'.snoozed_time = e.snoozed_time ∧
      (e.alarm_enabled = true ∧ e'.current_time =
          (if e.snoozed_active = true then e.snoozed_time else e.alarm_time) →
        e'.alarm_triggered = true ∧ e'.snoozed_active = false) ∧
      (¬ (e.alarm_enabled = true ∧ e'.current_time =
          (if e.snoozed_active = true then e.snoozed_time else e.alarm_time)) →
        e'.alarm_triggered = e.alarm_triggered ∧ e'.snoozed_active = e.snoozed_active) :=
  ⟨newTick e, rfl, (newTick_frame e).2.2.1, (newTick_frame e).2.2.2.1, (newTick_frame e).2.2.2.2,
    newTick_flags e hv⟩

/-- C9 on `sampleDue`, at 06:30:00 with the alarm armed for 06:30:00 in the middle of a second:
the tick triggers the alarm although no second elapses. -/
theorem C9_tick_evaluates_alarm_witness :
    sampleDue.valid = true ∧
    ClockNewTick (some sampleDue) =
      some { clock_ticks := 2, current_time := ofHMS 6 30 0, valid := true,
             ticks_per_second := 5, alarm_time := ofHMS 6 30 0, alarm_enabled := true,
             alarm_triggered := true, snoozed_time := zeroTime, snoozed_active := false } ∧
    ∃ e', ClockNewTick (some sampleDue) = some e' ∧
      e'.alarm_time = sampleDue.alarm_time ∧
      e'.alarm_enabled = sampleDue.alarm_enabled ∧
      e'.snoozed_time = sampleDue.snoozed_time ∧
      (sampleDue.alarm_enabled = true ∧
          e'.current_time =
            (if sampleDue.snoozed_active = true
              then sampleDue.snoozed_time
              else sampleDue.alarm_time) →
        e'.alarm_triggered = true ∧ e'.snoozed_active = false) ∧
      (¬ (sampleDue.alarm_enabled = true ∧
          e'.current_time =
            (if sampleDue.snoozed_active = true
              then sampleDue.snoozed_time
              else sampleDue.alarm_time)) →
        e'.alarm_triggered = sampleDue.alarm_triggered ∧
          e'.snoozed_active = sampleDue.snoozed_active) :=
  ⟨rfl, by decide,
   C9_tick_evaluates_alarm sampleDue rfl⟩

/-! ## The alarm over many ticks -/

theorem toSeconds_injective (a b : clock_time_t) (ha : IsValidTime (some a) = true)
    (hb : IsValidTime (some b) = true) (h : toSeconds a = toSeconds b) : a = b := by
  rw [← ofSeconds_toSeconds a ha, ← ofSeconds_toSeconds b hb, h]

theorem alarm_quiet (e : clock_s) (hv : e.valid = true) (hR : e.ticks_per_second < 65536)
    (ha : e.clock_ticks < e.ticks_per_second) (ht : IsValidTime (some e.current_time) = true)
    (hs : e.snoozed_active = false) (htr : e.alarm_triggered = false) (k : Nat)
    (hq : ∀ j, 1 ≤ j → j ≤ k → (newTick^[j] e).current_time ≠ e.alarm_time) :
    (newTick^[k] e).alarm_triggered = false ∧ (newTick^[k] e).snoozed_active = false := by
  induction k with
  | zero => exact ⟨htr, hs⟩
  | succ k ih =>
    obtain ⟨i1, i2⟩ := ih (fun j h1 h2 => hq j h1 (Nat.le_succ_of_le h2))
    obtain ⟨v, _, a3, _, _, _, _⟩ := newTick_iterate e hv hR ha ht k
    have hne := hq (k + 1) (Nat.succ_le_succ (Nat.zero_le k)) (Nat.le_refl _)
    rw [Function.iterate_succ_apply'] at hne ⊢
    have hflags := (newTick_flags (newTick^[k] e) v).2
    rw [i2, a3, i1] at hflags
    exact hflags (fun h => hne (by simpa using h.2))

theorem alarm_fires (e : clock_s) (hv : e.valid = true) (hR : e.ticks_per_second < 65536)
    (ha : e.clock_ticks < e.ticks_per_second) (ht : IsValidTime (some e.current_time) = true)
    (hen : e.alarm_enabled = true) (k : Nat) (hs : (newTick^[k] e).snoozed_active = false)
    (hq : (newTick^[k + 1] e).current_time = e.alarm_time) :
    (newTick^[k + 1] e).alarm_triggered = true := by
  obtain ⟨v, _, a3, a4, _, _, _⟩ := newTick_iterate e hv hR ha ht k
  rw [Function.iterate_succ_apply'] at hq ⊢
  have hflags := (newTick_flags (newTick^[k] e) v).1
  rw [hs, a3, a4] at hflags
  exact (hflags ⟨hen, by simpa using hq⟩).1

/-- C10: at rate `R ≥ 1` (a `uint16_t`), from an engine with `valid = true`, accumulator 0, a
current time `T` that passes validation, the alarm enabled with an alarm time `A ≠ T` that
passes validation, snooze inactive and the alarm not triggered: with
`d = (A - T) mod 86400` seconds (written `(A + 86400 - T) % 86400` on naturals),
`ClockIsAlarmTriggered` is false after every `k < d * R` ticks and true after exactly `d * R`
ticks, across the 23:59:59 -> 00:00:00 rollover as well. -/
theorem C10_alarm_fires_on_time (R : Nat) (e : clock_s) (hR : 1 ≤ R) (hR16 : R < 65536)
    (htps : e.ticks_per_second = R) (hv : e.valid = true) (hacc : e.clock_ticks = 0)
    (hT : IsValidTime (some e.current_time) = true) (hen : e.alarm_enabled = true)
    (hA : IsValidTime (some e.alarm_time) = true) (hne : e.alarm_time ≠ e.current_time)
    (hs : e.snoozed_active = false) (htr : e.alarm_triggered = false) :
    (∀ k, k < (toSeconds e.alarm_time + 86400 - toSeconds e.current_time) % 86400 * R →
      ClockIsAlarmTriggered (ClockNewTick^[k] (some e)) = false) ∧
    ClockIsAlarmTriggered
      (ClockNewTick^[(toSeconds e.alarm_time + 86400 - toSeconds e.current_time) % 86400 * R]
        (some e)) = true := by
  subst htps
  have ha : e.clock_ticks < e.ticks_per_second := by omega
  have hTlt := toSeconds_lt _ hT
  have hAlt := toSeconds_lt _ hA
  have hsec : toSeconds e.alarm_time ≠ toSeconds e.current_time :=
    fun h => hne (toSeconds_injective _ _ hA hT h)
  generalize hd : (toSeconds e.alarm_time + 86400 - toSeconds e.current_time) % 86400 = d
  have hd1 : 1 ≤ d := by omega
  -- the time after `j` ticks
  have htime : ∀ j, (newTick^[j] e).current_time =
      ofSeconds ((toSeconds e.current_time + j / e.ticks_per_second) % 86400) := by
    intro j
    have h7 := (newTick_iterate e hv hR16 ha hT j).2.2.2.2.2.2
    rw [hacc, Nat.zero_add] at h7
    exact h7
  -- before `d * R` ticks the time differs from the alarm time
  have hquiet : ∀ k, k < d * e.ticks_per_second →
      (newTick^[k] e).alarm_triggered = false ∧ (newTick^[k] e).snoozed_active = false := by
    intro k hk
    apply alarm_quiet e hv hR16 ha hT hs htr k
    intro j _ hj2 heq
    have hjd : j / e.ticks_per_second < d :=
      (Nat.div_lt_iff_lt_mul hR).mpr (Nat.lt_of_le_of_lt hj2 hk)
    rw [htime j] at heq
    have h2 := congrArg toSeconds heq
    rw [toSeconds_ofSeconds] at h2
    generalize j / e.ticks_per_second = q at hjd h2
    omega
  refine ⟨?_, ?_⟩
  · intro k hk
    rw [ClockNewTick_iterate]
    exact (hquiet k hk).1
  · rw [ClockNewTick_iterate]
    have hpos : 0 < d * e.ticks_per_second := Nat.mul_pos hd1 hR
    obtain ⟨k, hk⟩ : ∃ k, d * e.ticks_per_second = k + 1 := ⟨d * e.ticks_per_second - 1, by omega⟩
    have hlast : (newTick^[k + 1] e).current_time = e.alarm_time := by
      rw [htime (k + 1), ← hk, Nat.mul_div_cancel _ hR]
      have h3 : (toSeconds e.current_time + d) % 86400 = toSeconds e.alarm_time := by omega
      rw [h3, ofSeconds_toSeconds _ hA]
    rw [hk]
    exact alarm_fires e hv hR16 ha hT hen k (hquiet k (by omega)).2 hlast

/-- C10 on `sampleMidnight` (23:59:00, alarm 00:01:00, rate 5): quiet for the first 599 ticks,
triggered after 120 seconds, that is 600 ticks. -/
theorem C10_alarm_fires_on_time_witness :
    sampleMidnight.alarm_time ≠ sampleMidnight.current_time ∧
    (toSeconds sampleMidnight.alarm_time + 86400 - toSeconds sampleMidnight.current_time)
      % 86400 * 5 = 600 ∧
    (∀ k, k < (toSeconds sampleMidnight.alarm_time + 86400
          - toSeconds sampleMidnight.current_time) % 86400 * 5 →
      ClockIsAlarmTriggered (ClockNewTick^[k] (some sampleMidnight)) = false) ∧
    ClockIsAlarmTriggered
      (ClockNewTick^[(toSeconds sampleMidnight.alarm_time + 86400
          - toSeconds sampleMidnight.current_time) % 86400 * 5] (some sampleMidnight)) = true :=
  ⟨by decide, by decide,
   C10_alarm_fires_on_time 5 sampleMidnight (by decide) (by decide) rfl rfl rfl (by decide) rfl
    (by decide) (by decide) rfl rfl⟩


/-! ## A disabled alarm -/

theorem newTick_disabled (e : clock_s) (h1 : e.alarm_enabled = false)
    (h2 : e.alarm_triggered = false) :
    (newTick e).alarm_enabled = false ∧ (newTick e).alarm_triggered = false := by
  refine ⟨by rw [(newTick_frame e).2.2.2.1]; exact h1, ?_⟩
  cases hv : e.valid
  · rw [newTick_invalid e hv]; exact h2
  · have hf := (newTick_flags e hv).2 (fun h => by simp [h1] at h)
    rw [hf.1]; exact h2

theorem newTick_iterate_disabled (e : clock_s) (h1 : e.alarm_enabled = false)
    (h2 : e.alarm_triggered = false) (n : Nat) :
    (newTick^[n] e).alarm_enabled = false ∧ (newTick^[n] e).alarm_triggered = false := by
  induction n with
  | zero => exact ⟨h1, h2⟩
  | succ n ih =>
    rw [Function.iterate_succ_apply']
    exact newTick_disabled _ ih.1 ih.2

/-- C11: for every engine state with `alarm_enabled = false` and `alarm_triggered = false`
and every number `n` of `ClockNewTick` calls, `alarm_triggered` is still false afterwards
(and the alarm still disabled), whatever times the clock passes through. -/
theorem C11_disabled_alarm_never_fires (e : clock_s) (n : Nat) (h1 : e.alarm_enabled = false)
    (h2 : e.alarm_triggered = false) :
    ClockIsAlarmTriggered (ClockNewTick^[n] (some e)) = false ∧
      ClockIsAlarmEnabled (ClockNewTick^[n] (some e)) = false := by
  rw [ClockNewTick_iterate]
  exact ⟨(newTick_iterate_disabled e h1 h2 n).2, (newTick_iterate_disabled e h1 h2 n).1⟩

/-- C11 on `sampleDisabled` (23:59:00, alarm time 00:01:00, rate 5) over the 600 ticks of
the unit test, which take the clock to 00:01:00. -/
theorem C11_disabled_alarm_never_fires_witness :
    sampleDisabled.alarm_enabled = false ∧ sampleDisabled.alarm_triggered = false ∧
    ClockIsAlarmTriggered (ClockNewTick^[600] (some sampleDisabled)) = false ∧
      ClockIsAlarmEnabled (ClockNewTick^[600] (some sampleDisabled)) = false :=
  ⟨rfl, rfl, C11_disabled_alarm_never_fires sampleDisabled 600 rfl rfl⟩

/-! ## Enabling, disabling and the alarm time -/

/-- C12: with `valid = false`, `ClockEnableAlarm` and `ClockDisableAlarm` leave the engine
unchanged; with `valid = true` they set `alarm_enabled` to true / false and change no other
field; `ClockIsAlarmEnabled` reports the stored flag. -/
theorem C12_enable_disable (e : clock_s) :
    (e.valid = false →
      ClockEnableAlarm (some e) = some e ∧ ClockDisableAlarm (some e) = some e) ∧
    (e.valid = true →
      ClockEnableAlarm (some e) =
        some { clock_ticks := e.clock_ticks, current_time := e.current_time, valid := e.valid,
               ticks_per_second := e.ticks_per_second, alarm_time := e.alarm_time,
               alarm_enabled := true, alarm_triggered := e.alarm_triggered,
               snoozed_time := e.snoozed_time, snoozed_active := e.snoozed_active } ∧
      ClockDisableAlarm (some e) =
        some { clock_ticks := e.clock_ticks, current_time := e.current_time, valid := e.valid,
               ticks_per_second := e.ticks_per_second, alarm_time := e.alarm_time,
               alarm_enabled := false, alarm_triggered := e.alarm_triggered,
               snoozed_time := e.snoozed_time, snoozed_active := e.snoozed_active } ∧
      ClockIsAlarmEnabled (ClockEnableAlarm (some e)) = true ∧
      ClockIsAlarmEnabled (ClockDisableAlarm (some e)) = false) ∧
    ClockIsAlarmEnabled (some e) = e.alarm_enabled := by
  refine ⟨?_, ?_, rfl⟩
  · intro h
    simp [ClockEnableAlarm, ClockDisableAlarm, h]
  · intro h
    simp [ClockEnableAlarm, ClockDisableAlarm, ClockIsAlarmEnabled, h]

/-- C12 on `sampleUnset` (never set: both calls change nothing) and on `sampleRinging`
(valid: disabling keeps the alarm triggered). -/
theorem C12_enable_disable_witness :
    (ClockEnableAlarm (some sampleUnset) = some sampleUnset ∧
      ClockDisableAlarm (some sampleUnset) = some sampleUnset) ∧
    ClockIsAlarmEnabled (ClockDisableAlarm (some sampleRinging)) = false :=
  ⟨(C12_enable_disable sampleUnset).1 rfl, ((C12_enable_disable sampleRinging).2.1 rfl).2.2.2⟩

/-- C13: for every engine state, valid or not, and every time `x` that passes validation,
`ClockSetAlarmTime` returns true and changes only `alarm_time` (to `x`); a following
`ClockGetAlarmTime` returns true and writes exactly `x` into the buffer of the caller. -/
theorem C13_alarm_time_round_trip (e : clock_s) (x buf : clock_time_t)
    (h : IsValidTime (some x) = true) :
    ClockSetAlarmTime (some e) (some x) =
      (true, some { clock_ticks := e.clock_ticks, current_time := e.current_time,
                    valid := e.valid, ticks_per_second := e.ticks_per_second, alarm_time := x,
                    alarm_enabled := e.alarm_enabled, alarm_triggered := e.alarm_triggered,
                    snoozed_time := e.snoozed_time, snoozed_active := e.snoozed_active }) ∧
    ClockGetAlarmTime (ClockSetAlarmTime (some e) (some x)).2 (some buf) = (true, some x) := by
  simp [ClockSetAlarmTime, ClockGetAlarmTime, h]

/-- C13 at 02:15:00 (the value of the unit test) on an engine whose time was never set. -/
theorem C13_alarm_time_round_trip_witness :
    IsValidTime (some (ofHMS 2 15 0)) = true ∧
    ClockGetAlarmTime (ClockSetAlarmTime (some sampleUnset) (some (ofHMS 2 15 0))).2
      (some zeroTime) = (true, some (ofHMS 2 15 0)) :=
  ⟨by decide, (C13_alarm_time_round_trip sampleUnset (ofHMS 2 15 0) zeroTime (by decide)).2⟩

/-- C14: for every engine state and every time argument that fails validation (a value with a
digit out of range, or no value), `ClockSetAlarmTime` returns false and the engine afterwards
is the engine before; a following `ClockGetAlarmTime` yields the alarm time stored before. -/
theorem C14_set_invalid_alarm_rejected (e : clock_s) (t : Option clock_time_t)
    (buf : clock_time_t) (h : IsValidTime t = false) :
    ClockSetAlarmTime (some e) t = (false, some e) ∧
    ClockGetAlarmTime (ClockSetAlarmTime (some e) t).2 (some buf) = (true, some e.alarm_time) := by
  cases t with
  | none => exact ⟨rfl, rfl⟩
  | some t => simp [ClockSetAlarmTime, ClockGetAlarmTime, h]

/-- C14 at 12:60:00 offered to `sampleUnset`, which keeps its alarm time 07:15:00. -/
theorem C14_set_invalid_alarm_rejected_witness :
    IsValidTime (some (ofHMS 12 60 0)) = false ∧
    ClockSetAlarmTime (some sampleUnset) (some (ofHMS 12 60 0)) = (false, some sampleUnset) ∧
    ClockGetAlarmTime (ClockSetAlarmTime (some sampleUnset) (some (ofHMS 12 60 0))).2
      (some zeroTime) = (true, some sampleUnset.alarm_time) :=
  ⟨by decide,
   C14_set_invalid_alarm_rejected sampleUnset (some (ofHMS 12 60 0)) zeroTime (by decide)⟩

/-! ## Snoozing -/

/-- C15: `ClockSnoozeAlarm` returns false with the engine unchanged exactly when the engine
is not valid or `minutes = 0` (and returns false only then); on an engine with `valid = true`
it returns true for every `minutes` in 1..255. -/
theorem C15_snooze_fails_iff (e : clock_s) (minutes : Nat) :
    (ClockSnoozeAlarm (some e) minutes = (false, some e) ↔ (e.valid = false ∨ minutes = 0)) ∧
    ((ClockSnoozeAlarm (some e) minutes).1 = false ↔ (e.valid = false ∨ minutes = 0)) ∧
    (e.valid = true → 1 ≤ minutes → minutes ≤ 255 →
      (ClockSnoozeAlarm (some e) minutes).1 = true) := by
  by_cases hc : e.valid = false ∨ minutes = 0
  · have h : ClockSnoozeAlarm (some e) minutes = (false, some e) := by
      simp only [ClockSnoozeAlarm, if_pos hc]
    refine ⟨⟨fun _ => hc, fun _ => h⟩, ⟨fun _ => hc, fun _ => by rw [h]⟩, ?_⟩
    intro hv h1 _
    rcases hc with hc | hc
    · rw [hv] at hc; cases hc
    · omega
  · have h : (ClockSnoozeAlarm (some e) minutes).1 = true := by
      simp only [ClockSnoozeAlarm, if_neg hc]
    refine ⟨⟨fun h2 => ?_, fun h2 => absurd h2 hc⟩, ⟨fun h2 => ?_, fun h2 => absurd h2 hc⟩,
      fun _ _ _ => h⟩
    · rw [h2] at h; cases h
    · rw [h2] at h; cases h

/-- C15 on `sampleRinging` with 0 minutes (refused, unchanged) and 255 minutes (accepted), and
on `sampleUnset` with 5 minutes (refused, unchanged). -/
theorem C15_snooze_fails_iff_witness :
    ClockSnoozeAlarm (some sampleRinging) 0 = (false, some sampleRinging) ∧
    ClockSnoozeAlarm (some sampleUnset) 5 = (false, some sampleUnset) ∧
    (ClockSnoozeAlarm (some sampleRinging) 255).1 = true :=
  ⟨(C15_snooze_fails_iff sampleRinging 0).1.mpr (Or.inr rfl),
   (C15_snooze_fails_iff sampleUnset 5).1.mpr (Or.inl rfl),
   (C15_snooze_fails_iff sampleRinging 255).2.2 rfl (by decide) (by decide)⟩


theorem snooze_arith (h1 h0 m1 m0 N : Nat) (c3 : m0 ≤ 9) (c4 : m1 ≤ 5) (c5 : h0 ≤ 9)
    (c6 : h1 ≤ 2) (c7 : h1 = 2 → h0 ≤ 3) (hN : N ≤ 255) :
    ((m1 * 10 + m0) % 256 + N) % 65536 % 60 =
        (60 * (h1 * 10 + h0) + (m1 * 10 + m0) + N) % 1440 % 60 ∧
    ((h1 * 10 + h0) % 256 + ((m1 * 10 + m0) % 256 + N) % 65536 / 60) % 65536 % 24 =
        (60 * (h1 * 10 + h0) + (m1 * 10 + m0) + N) % 1440 / 60 ∧
    ((h1 * 10 + h0) % 256 + ((m1 * 10 + m0) % 256 + N) % 65536 / 60) % 65536 < 29 := by
  generalize hH : h1 * 10 + h0 = H
  generalize hM : m1 * 10 + m0 = M
  have bH : H ≤ 23 := by omega
  have bM : M ≤ 59 := by omega
  clear hH hM c3 c4 c5 c6 c7
  have e1 : M % 256 = M := by omega
  have e2 : H % 256 = H := by omega
  have e3 : (M + N) % 65536 = M + N := by omega
  rw [e1, e2, e3]
  have e4 : (H + (M + N) / 60) % 65536 = H + (M + N) / 60 := by omega
  rw [e4]
  refine ⟨by omega, by omega, by omega⟩

theorem snooze_digits (H M : Nat) (hH : H < 24) (hM : M < 60) :
    (⟨0, 0, (M % 10) % 256, (M / 10) % 256, (H % 10) % 256, (H / 10) % 256⟩ : clock_time_t)
      = ofHMS H M 0 := by
  simp only [ofHMS, clock_time_t.mk.injEq]
  refine ⟨trivial, trivial, by omega, by omega, by omega, by omega⟩

theorem snooze_result (e : clock_s) (N : Nat) (hN1 : 1 ≤ N) (hN2 : N ≤ 255)
    (hv : e.valid = true) (hT : IsValidTime (some e.current_time) = true) :
    ClockSnoozeAlarm (some e) N =
      (true, some
        { clock_ticks := e.clock_ticks, current_time := e.current_time, valid := e.valid,
          ticks_per_second := e.ticks_per_second, alarm_time := e.alarm_time,
          alarm_enabled := e.alarm_enabled, alarm_triggered := false,
          snoozed_time :=
            ofHMS ((60 * (e.current_time.hours1 * 10 + e.current_time.hours0)
                    + (e.current_time.minutes1 * 10 + e.current_time.minutes0) + N) % 1440 / 60)
                  ((60 * (e.current_time.hours1 * 10 + e.current_time.hours0)
                    + (e.current_time.minutes1 * 10 + e.current_time.minutes0) + N) % 1440 % 60)
                  0,
          snoozed_active := true }) := by
  rw [IsValidTime_iff] at hT
  obtain ⟨_, _, c3, c4, c5, c6, c7⟩ := hT
  obtain ⟨a1, a2, a3⟩ := snooze_arith _ _ _ _ N c3 c4 c5 c6 c7 hN2
  have hc : ¬ (e.valid = false ∨ N = 0) := by
    rw [hv]
    intro h
    rcases h with h | h
    · cases h
    · omega
  simp only [ClockSnoozeAlarm, if_neg hc]
  rw [← a1, ← a2]
  have hmod := Nat.mod_lt (((e.current_time.hours1 * 10 + e.current_time.hours0) % 256 +
    ((e.current_time.minutes1 * 10 + e.current_time.minutes0) % 256 + N) % 65536 / 60) % 65536)
    (show 0 < 24 by decide)
  have hmin := Nat.mod_lt (((e.current_time.minutes1 * 10 + e.current_time.minutes0) % 256 + N)
    % 65536) (show 0 < 60 by decide)
  rw [← snooze_digits _ _ hmod hmin]
  split_ifs with h24
  · rfl
  · rw [Nat.mod_eq_of_lt (not_le.mp h24)]

/-- C16: on an engine with `valid = true` whose current time `hh:mm:ss` passes validation,
`ClockSnoozeAlarm N` with `N` in 1..255 returns true, stores as `snoozed_time` the BCD encoding
of minute `(60*hh + mm + N) mod 1440` of the day with both seconds digits 0, sets
`snoozed_active`, clears `alarm_triggered` and leaves every other field as it was. -/
theorem C16_snooze_target (e : clock_s) (N : Nat) (hN1 : 1 ≤ N) (hN2 : N ≤ 255)
    (hv : e.valid = true) (hT : IsValidTime (some e.current_time) = true) :
    ClockSnoozeAlarm (some e) N =
      (true, some
        { clock_ticks := e.clock_ticks, current_time := e.current_time, valid := e.valid,
          ticks_per_second := e.ticks_per_second, alarm_time := e.alarm_time,
          alarm_enabled := e.alarm_enabled, alarm_triggered := false,
          snoozed_time :=
            ofHMS ((60 * (e.current_time.hours1 * 10 + e.current_time.hours0)
                    + (e.current_time.minutes1 * 10 + e.current_time.minutes0) + N) % 1440 / 60)
                  ((60 * (e.current_time.hours1 * 10 + e.current_time.hours0)
                    + (e.current_time.minutes1 * 10 + e.current_time.minutes0) + N) % 1440 % 60)
                  0,
          snoozed_active := true }) :=
  snooze_result e N hN1 hN2 hv hT

/-- C16 on `sampleRinging` (23:58:47) snoozed 255 minutes: the target is 04:13:00. -/
theorem C16_snooze_target_witness :
    IsValidTime (some sampleRinging.current_time) = true ∧
    ClockSnoozeAlarm (some sampleRinging) 255 =
      (true, some
        { clock_ticks := 3, current_time := ofHMS 23 58 47, valid := true,
          ticks_per_second := 5, alarm_time := ofHMS 23 58 0, alarm_enabled := true,
          alarm_triggered := false, snoozed_time := ofHMS 4 13 0, snoozed_active := true }) :=
  ⟨by decide, C16_snooze_target sampleRinging 255 (by decide) (by decide) rfl (by decide)⟩

/-! ## Cancelling -/

/-- C18: `ClockCancelAlarmUntilNextDay` returns false and leaves the engine unchanged when
`valid = false`; when `valid = true` it returns true, clears `alarm_triggered` and
`snoozed_active` and leaves every other field as it was. -/
theorem C18_cancel (e : clock_s) :
    (e.valid = false → ClockCancelAlarmUntilNextDay (some e) = (false, some e)) ∧
    (e.valid = true → ClockCancelAlarmUntilNextDay (some e) =
      (true, some
        { clock_ticks := e.clock_ticks, current_time := e.current_time, valid := e.valid,
          ticks_per_second := e.ticks_per_second, alarm_time := e.alarm_time,
          alarm_enabled := e.alarm_enabled, alarm_triggered := false,
          snoozed_time := e.snoozed_time, snoozed_active := false })) := by
  constructor
  · intro h
    simp [ClockCancelAlarmUntilNextDay, h]
  · intro h
    simp [ClockCancelAlarmUntilNextDay, h]

/-- C18 on `sampleUnset` (refused, unchanged) and on `sampleFired` (alarm silenced). -/
theorem C18_cancel_witness :
    ClockCancelAlarmUntilNextDay (some sampleUnset) = (false, some sampleUnset) ∧
    ClockCancelAlarmUntilNextDay (some sampleFired) =
      (true, some
        { clock_ticks := 0, current_time := ofHMS 0 1 0, valid := true, ticks_per_second := 5,
          alarm_time := ofHMS 0 1 0, alarm_enabled := true, alarm_triggered := false,
          snoozed_time := zeroTime, snoozed_active := false }) :=
  ⟨(C18_cancel sampleUnset).1 rfl, (C18_cancel sampleFired).2 rfl⟩


/-! ## Reaching the alarm target -/

theorem target_quiet (e : clock_s) (hv : e.valid = true) (hR : e.ticks_per_second < 65536)
    (ha : e.clock_ticks < e.ticks_per_second) (ht : IsValidTime (some e.current_time) = true)
    (k : Nat)
    (hq : ∀ j, 1 ≤ j → j ≤ k → (newTick^[j] e).current_time ≠
      (if e.snoozed_active = true then e.snoozed_time else e.alarm_time)) :
    (newTick^[k] e).alarm_triggered = e.alarm_triggered ∧
      (newTick^[k] e).snoozed_active = e.snoozed_active := by
  induction k with
  | zero => exact ⟨rfl, rfl⟩
  | succ k ih =>
    obtain ⟨i1, i2⟩ := ih (fun j h1 h2 => hq j h1 (Nat.le_succ_of_le h2))
    obtain ⟨v, _, a3, _, a5, _, _⟩ := newTick_iterate e hv hR ha ht k
    have hne := hq (k + 1) (Nat.succ_le_succ (Nat.zero_le k)) (Nat.le_refl _)
    rw [Function.iterate_succ_apply'] at hne ⊢
    have hflags := (newTick_flags (newTick^[k] e) v).2
    rw [i2, a3, a5, i1] at hflags
    exact hflags (fun h => hne h.2)

theorem target_fires (e : clock_s) (hv : e.valid = true) (hR : e.ticks_per_second < 65536)
    (ha : e.clock_ticks < e.ticks_per_second) (ht : IsValidTime (some e.current_time) = true)
    (hen : e.alarm_enabled = true) (k : Nat)
    (hs : (newTick^[k] e).snoozed_active = e.snoozed_active)
    (hq : (newTick^[k + 1] e).current_time =
      (if e.snoozed_active = true then e.snoozed_time else e.alarm_time)) :
    (newTick^[k + 1] e).alarm_triggered = true := by
  obtain ⟨v, _, a3, a4, a5, _, _⟩ := newTick_iterate e hv hR ha ht k
  rw [Function.iterate_succ_apply'] at hq ⊢
  have hflags := (newTick_flags (newTick^[k] e) v).1
  rw [hs, a3, a4, a5] at hflags
  exact (hflags ⟨hen, hq⟩).1

/-- From an engine that is valid, with accumulator below the rate, the alarm enabled and not
triggered, whose target (the snoozed time when snoozed, else the alarm time) lies `q` seconds
ahead, `0 < q < 86400`: the alarm stays silent for fewer than `q * R - a` ticks and is
triggered after exactly that many, when the current time is the target. -/
theorem target_reached (e : clock_s) (hv : e.valid = true) (hR : e.ticks_per_second < 65536)
    (ha : e.clock_ticks < e.ticks_per_second) (ht : IsValidTime (some e.current_time) = true)
    (hen : e.alarm_enabled = true) (htr : e.alarm_triggered = false) (q : Nat) (hq1 : 1 ≤ q)
    (hq2 : q < 86400)
    (htar : (if e.snoozed_active = true then e.snoozed_time else e.alarm_time) =
      ofSeconds ((toSeconds e.current_time + q) % 86400)) :
    (∀ k, k < q * e.ticks_per_second - e.clock_ticks →
      (newTick^[k] e).alarm_triggered = false) ∧
    (newTick^[q * e.ticks_per_second - e.clock_ticks] e).alarm_triggered = true ∧
    (newTick^[q * e.ticks_per_second - e.clock_ticks] e).current_time =
      (if e.snoozed_active = true then e.snoozed_time else e.alarm_time) := by
  have hpos : 0 < e.ticks_per_second := by omega
  have hTlt := toSeconds_lt _ ht
  have hbig : e.ticks_per_second ≤ q * e.ticks_per_second := Nat.le_mul_of_pos_left _ hq1
  have htime : ∀ j, (newTick^[j] e).current_time =
      ofSeconds ((toSeconds e.current_time + (e.clock_ticks + j) / e.ticks_per_second) % 86400) :=
    fun j => (newTick_iterate e hv hR ha ht j).2.2.2.2.2.2
  have hquiet : ∀ k, k < q * e.ticks_per_second - e.clock_ticks →
      (newTick^[k] e).alarm_triggered = e.alarm_triggered ∧
        (newTick^[k] e).snoozed_active = e.snoozed_active := by
    intro k hk
    apply target_quiet e hv hR ha ht k
    intro j _ hj2 heq
    have hjq : (e.clock_ticks + j) / e.ticks_per_second < q :=
      (Nat.div_lt_iff_lt_mul hpos).mpr (by omega)
    rw [htime j, htar] at heq
    have h2 := congrArg toSeconds heq
    rw [toSeconds_ofSeconds, toSeconds_ofSeconds] at h2
    generalize (e.clock_ticks + j) / e.ticks_per_second = p at hjq h2
    omega
  obtain ⟨k, hk⟩ : ∃ k, q * e.ticks_per_second - e.clock_ticks = k + 1 :=
    ⟨q * e.ticks_per_second - e.clock_ticks - 1, by omega⟩
  have hlast : (newTick^[k + 1] e).current_time =
      (if e.snoozed_active = true then e.snoozed_time else e.alarm_time) := by
    have h3 : e.clock_ticks + (k + 1) = q * e.ticks_per_second := by omega
    rw [htime (k + 1), h3, Nat.mul_div_cancel _ hpos, htar]
  refine ⟨fun k hk => by rw [(hquiet k hk).1, htr], ?_, ?_⟩
  · rw [hk]
    exact target_fires e hv hR ha ht hen k (hquiet k (by omega)).2 hlast
  · rw [hk]
    exact hlast


theorem snooze_target_seconds (t : clock_time_t) (N : Nat) (hN1 : 1 ≤ N) (hN2 : N ≤ 255)
    (hT : IsValidTime (some t) = true) :
    ofHMS ((60 * (t.hours1 * 10 + t.hours0) + (t.minutes1 * 10 + t.minutes0) + N) % 1440 / 60)
        ((60 * (t.hours1 * 10 + t.hours0) + (t.minutes1 * 10 + t.minutes0) + N) % 1440 % 60) 0
      = ofSeconds ((toSeconds t + (60 * N - (t.seconds1 * 10 + t.seconds0))) % 86400) := by
  rw [IsValidTime_iff] at hT
  obtain ⟨c1, c2, c3, c4, c5, c6, c7⟩ := hT
  have hsec : (toSeconds t + (60 * N - (t.seconds1 * 10 + t.seconds0))) % 86400 =
      60 * ((60 * (t.hours1 * 10 + t.hours0) + (t.minutes1 * 10 + t.minutes0) + N) % 1440) := by
    simp only [toSeconds]
    have bH : t.hours1 * 10 + t.hours0 ≤ 23 := by omega
    have bM : t.minutes1 * 10 + t.minutes0 ≤ 59 := by omega
    have bS : t.seconds1 * 10 + t.seconds0 ≤ 59 := by omega
    generalize t.hours1 * 10 + t.hours0 = H at bH ⊢
    generalize t.minutes1 * 10 + t.minutes0 = M at bM ⊢
    generalize t.seconds1 * 10 + t.seconds0 = S at bS ⊢
    clear c1 c2 c3 c4 c5 c6 c7
    omega
  rw [hsec]
  generalize (60 * (t.hours1 * 10 + t.hours0) + (t.minutes1 * 10 + t.minutes0) + N) % 1440 = X
  simp only [ofHMS, ofSeconds, clock_time_t.mk.injEq]
  refine ⟨by omega, by omega, by omega, by omega, by omega, by omega⟩

/-- C17: at rate `R ≥ 1` (a `uint16_t`), on an engine with `valid = true`, the alarm enabled
and triggered, a current time `hh:mm:ss` that passes validation and accumulator `a < R`: after
`ClockSnoozeAlarm N` with `N` in 1..255, `ClockIsAlarmTriggered` (true before) is false after
every `k < (60*N - ss)*R - a` ticks (`k = 0`: immediately) and true after exactly
`(60*N - ss)*R - a` ticks, the tick on which the current time becomes `hh:mm + N` minutes,
seconds 00; with `ss = 0` and `a = 0` that is `60*N*R` ticks. -/
theorem C17_snoozed_alarm_fires (R N : Nat) (e : clock_s) (buf : clock_time_t) (hR : 1 ≤ R)
    (hR16 : R < 65536) (htps : e.ticks_per_second = R) (hN1 : 1 ≤ N) (hN2 : N ≤ 255)
    (hv : e.valid = true) (hen : e.alarm_enabled = true) (htr : e.alarm_triggered = true)
    (hT : IsValidTime (some e.current_time) = true) (ha : e.clock_ticks < R) :
    ClockIsAlarmTriggered (some e) = true ∧
    (∀ k, k < (60 * N - (e.current_time.seconds1 * 10 + e.current_time.seconds0)) * R
          - e.clock_ticks →
      ClockIsAlarmTriggered (ClockNewTick^[k] (ClockSnoozeAlarm (some e) N).2) = false) ∧
    ClockIsAlarmTriggered
      (ClockNewTick^[(60 * N - (e.current_time.seconds1 * 10 + e.current_time.seconds0)) * R
          - e.clock_ticks] (ClockSnoozeAlarm (some e) N).2) = true ∧
    ClockGetTime
      (ClockNewTick^[(60 * N - (e.current_time.seconds1 * 10 + e.current_time.seconds0)) * R
          - e.clock_ticks] (ClockSnoozeAlarm (some e) N).2) (some buf) =
      (true, some (ofHMS
        ((60 * (e.current_time.hours1 * 10 + e.current_time.hours0)
          + (e.current_time.minutes1 * 10 + e.current_time.minutes0) + N) % 1440 / 60)
        ((60 * (e.current_time.hours1 * 10 + e.current_time.hours0)
          + (e.current_time.minutes1 * 10 + e.current_time.minutes0) + N) % 1440 % 60) 0)) ∧
    (e.current_time.seconds1 * 10 + e.current_time.seconds0 = 0 → e.clock_ticks = 0 →
      (60 * N - (e.current_time.seconds1 * 10 + e.current_time.seconds0)) * R - e.clock_ticks
        = 60 * N * R) := by
  subst htps
  have hss : e.current_time.seconds1 * 10 + e.current_time.seconds0 ≤ 59 := by
    have h := (IsValidTime_iff _).mp hT
    omega
  rw [snooze_result e N hN1 hN2 hv hT]
  have htarget := snooze_target_seconds e.current_time N hN1 hN2 hT
  generalize ofHMS
    ((60 * (e.current_time.hours1 * 10 + e.current_time.hours0)
      + (e.current_time.minutes1 * 10 + e.current_time.minutes0) + N) % 1440 / 60)
    ((60 * (e.current_time.hours1 * 10 + e.current_time.hours0)
      + (e.current_time.minutes1 * 10 + e.current_time.minutes0) + N) % 1440 % 60) 0 = tgt
    at htarget ⊢
  dsimp only
  generalize hE : (⟨e.clock_ticks, e.current_time, e.valid, e.ticks_per_second, e.alarm_time,
    e.alarm_enabled, false, tgt, true⟩ : clock_s) = e1
  have f1 : e1.valid = true := by rw [← hE]; exact hv
  have f2 : e1.ticks_per_second = e.ticks_per_second := by rw [← hE]
  have f3 : e1.clock_ticks = e.clock_ticks := by rw [← hE]
  have f4 : e1.current_time = e.current_time := by rw [← hE]
  have f5 : e1.alarm_enabled = true := by rw [← hE]; exact hen
  have f6 : e1.alarm_triggered = false := by rw [← hE]
  have f7 : (if e1.snoozed_active = true then e1.snoozed_time else e1.alarm_time) = tgt := by
    rw [← hE]; rfl
  have hv1 := (newTick_iterate e1 f1 (by rw [f2]; exact hR16) (by rw [f2, f3]; exact ha)
    (by rw [f4]; exact hT)
    ((60 * N - (e.current_time.seconds1 * 10 + e.current_time.seconds0)) * e.ticks_per_second
      - e.clock_ticks)).1
  obtain ⟨q1, q2, q3⟩ := target_reached e1 f1 (by rw [f2]; exact hR16)
    (by rw [f2, f3]; exact ha) (by rw [f4]; exact hT) f5 f6
    (60 * N - (e.current_time.seconds1 * 10 + e.current_time.seconds0)) (by omega) (by omega)
    (by rw [f7, f4]; exact htarget)
  rw [f2, f3] at q1 q2 q3
  rw [f7] at q3
  refine ⟨htr, ?_, ?_, ?_, ?_⟩
  · intro k hk
    rw [ClockNewTick_iterate]
    exact q1 k hk
  · rw [ClockNewTick_iterate]
    exact q2
  · rw [ClockNewTick_iterate]
    simp only [ClockGetTime]
    rw [hv1, q3]
  · intro h1 h2
    rw [h1, h2]
    rfl

/-- C17 on `sampleRinging` (23:58:47, accumulator 3 of 5) snoozed 2 minutes: silent for fewer
than `(120 - 47) * 5 - 3 = 362` ticks, triggered after 362, at 00:00:00. -/
theorem C17_snoozed_alarm_fires_witness :
    sampleRinging.clock_ticks < 5 ∧
    (60 * 2 - (sampleRinging.current_time.seconds1 * 10 + sampleRinging.current_time.seconds0))
      * 5 - sampleRinging.clock_ticks = 362 ∧
    ClockIsAlarmTriggered
      (ClockNewTick^[(60 * 2 - (sampleRinging.current_time.seconds1 * 10
          + sampleRinging.current_time.seconds0)) * 5 - sampleRinging.clock_ticks]
        (ClockSnoozeAlarm (some sampleRinging) 2).2) = true :=
  ⟨by decide, by decide,
   (C17_snoozed_alarm_fires 5 2 sampleRinging zeroTime (by decide) (by decide) rfl (by decide)
    (by decide) rfl rfl rfl (by decide) (by decide)).2.2.1⟩

/-- C19: at rate `R ≥ 1` (a `uint16_t`), on an engine with `valid = true`, the alarm enabled
(snoozed or not, triggered or not), an alarm time `A` that passes validation and accumulator
0: `ClockCancelAlarmUntilNextDay` succeeds and clears `alarm_triggered`, a following
`ClockSetTime` to a valid time `T ≠ A` succeeds, and `((A - T) mod 86400) * R` ticks later
`ClockIsAlarmTriggered` is true again, and not before. -/
theorem C19_alarm_fires_after_cancel (R : Nat) (e : clock_s) (T : clock_time_t) (hR : 1 ≤ R)
    (hR16 : R < 65536) (htps : e.ticks_per_second = R) (hv : e.valid = true)
    (hen : e.alarm_enabled = true) (hA : IsValidTime (some e.alarm_time) = true)
    (hT : IsValidTime (some T) = true) (hne : T ≠ e.alarm_time) (hacc : e.clock_ticks = 0) :
    (ClockCancelAlarmUntilNextDay (some e)).1 = true ∧
    ClockIsAlarmTriggered (ClockCancelAlarmUntilNextDay (some e)).2 = false ∧
    (ClockSetTime (ClockCancelAlarmUntilNextDay (some e)).2 (some T)).1 = true ∧
    (∀ k, k < (toSeconds e.alarm_time + 86400 - toSeconds T) % 86400 * R →
      ClockIsAlarmTriggered
        (ClockNewTick^[k] (ClockSetTime (ClockCancelAlarmUntilNextDay (some e)).2 (some T)).2)
        = false) ∧
    ClockIsAlarmTriggered
      (ClockNewTick^[(toSeconds e.alarm_time + 86400 - toSeconds T) % 86400 * R]
        (ClockSetTime (ClockCancelAlarmUntilNextDay (some e)).2 (some T)).2) = true := by
  subst htps
  have hcancel : ClockCancelAlarmUntilNextDay (some e) =
      (true, some { e with alarm_triggered := false, snoozed_active := false }) := by
    simp [ClockCancelAlarmUntilNextDay, hv]
  have hset : ClockSetTime (some { e with alarm_triggered := false, snoozed_active := false })
      (some T) = (true, some { e with alarm_triggered := false, snoozed_active := false,
                                      current_time := T, valid := true }) := by
    simp [ClockSetTime, hT]
  rw [hcancel]
  simp only [hset]
  have hTlt := toSeconds_lt _ hT
  have hAlt := toSeconds_lt _ hA
  have hsec : toSeconds T ≠ toSeconds e.alarm_time :=
    fun h => hne (toSeconds_injective _ _ hT hA h)
  obtain ⟨q1, q2, _⟩ := target_reached
    { e with alarm_triggered := false, snoozed_active := false, current_time := T, valid := true }
    rfl hR16 (by show e.clock_ticks < e.ticks_per_second; omega) hT hen rfl
    ((toSeconds e.alarm_time + 86400 - toSeconds T) % 86400) (by omega) (Nat.mod_lt _ (by decide))
    (by
      show e.alarm_time = ofSeconds ((toSeconds T +
        (toSeconds e.alarm_time + 86400 - toSeconds T) % 86400) % 86400)
      have h3 : (toSeconds T + (toSeconds e.alarm_time + 86400 - toSeconds T) % 86400) % 86400
          = toSeconds e.alarm_time := by omega
      rw [h3, ofSeconds_toSeconds _ hA])
  have hK : (toSeconds e.alarm_time + 86400 - toSeconds T) % 86400 * e.ticks_per_second
      - e.clock_ticks
      = (toSeconds e.alarm_time + 86400 - toSeconds T) % 86400 * e.ticks_per_second := by
    rw [hacc]; rfl
  refine ⟨?_, ?_, ?_, ?_, ?_⟩
  · trivial
  · rfl
  · trivial
  · intro k hk
    rw [ClockNewTick_iterate]
    exact q1 k (by rw [hK]; exact hk)
  · rw [ClockNewTick_iterate]
    have q2' := q2
    rw [hK] at q2'
    exact q2'

/-- C19 on `sampleFired` (alarm 00:01:00, rate 5): cancel, set 00:00:00, and 60 seconds of
ticks trigger the alarm again, as in the unit test. -/
theorem C19_alarm_fires_after_cancel_witness :
    zeroTime ≠ sampleFired.alarm_time ∧
    (toSeconds sampleFired.alarm_time + 86400 - toSeconds zeroTime) % 86400 * 5 = 300 ∧
    ClockIsAlarmTriggered
      (ClockNewTick^[(toSeconds sampleFired.alarm_time + 86400 - toSeconds zeroTime) % 86400 * 5]
        (ClockSetTime (ClockCancelAlarmUntilNextDay (some sampleFired)).2 (some zeroTime)).2)
      = true :=
  ⟨by decide, by decide,
   (C19_alarm_fires_after_cancel 5 sampleFired zeroTime (by decide) (by decide) rfl rfl rfl
    (by decide) (by decide) (by decide) rfl).2.2.2.2⟩

/-! ## Cancelling within the second of the alarm -/

/-- At a rate of two or more ticks per second, on an engine that is valid with the alarm
enabled, accumulator 0 and the current time equal to the alarm time, the first tick after
`ClockCancelAlarmUntilNextDay` triggers the alarm again: no second has elapsed, so the clock
still shows the alarm time when the tick checks it. -/
theorem cancel_then_tick_retriggers (e : clock_s) (hR : 2 ≤ e.ticks_per_second)
    (hR16 : e.ticks_per_second < 65536) (hv : e.valid = true) (hen : e.alarm_enabled = true)
    (hacc : e.clock_ticks = 0) (hcur : e.current_time = e.alarm_time) :
    ClockIsAlarmTriggered (ClockNewTick (ClockCancelAlarmUntilNextDay (some e)).2) = true := by
  have hcancel : ClockCancelAlarmUntilNextDay (some e) =
      (true, some { e with alarm_triggered := false, snoozed_active := false }) := by
    simp [ClockCancelAlarmUntilNextDay, hv]
  rw [hcancel]
  show (newTick { e with alarm_triggered := false, snoozed_active := false }).alarm_triggered
    = true
  have ht := (newTick_time { e with alarm_triggered := false, snoozed_active := false } hv hR16
    (by show e.clock_ticks < e.ticks_per_second; omega)).2
  have hne : ¬ (e.clock_ticks + 1 = e.ticks_per_second) := by omega
  simp only [if_neg hne] at ht
  exact ((newTick_flags { e with alarm_triggered := false, snoozed_active := false } hv).1
    ⟨hen, by rw [ht]; exact hcur⟩).1

/-- C20, what the code does: the engine `sampleFired` is reached from `ClockCreate 5` by
setting 00:00:59, arming the alarm for 00:01:00 and ticking one second; after
`ClockCancelAlarmUntilNextDay` the alarm is silent, and the very next tick, on which the
clock still shows the alarm time, triggers it again. -/
theorem C20_cancel_retriggers_on_next_tick :
    runOps [Op.SetTime (some (ofHMS 0 0 59)), Op.SetAlarmTime (some (ofHMS 0 1 0)),
        Op.EnableAlarm, Op.NewTick, Op.NewTick, Op.NewTick, Op.NewTick, Op.NewTick]
      (ClockCreate true 5) = some sampleFired ∧
    ClockCancelAlarmUntilNextDay (some sampleFired) =
      (true, some { sampleFired with alarm_triggered := false }) ∧
    ClockIsAlarmTriggered (ClockCancelAlarmUntilNextDay (some sampleFired)).2 = false ∧
    ClockIsAlarmTriggered
      (ClockNewTick^[1] (ClockCancelAlarmUntilNextDay (some sampleFired)).2) = true := by
  decide


/-! ## The tick accumulator -/

/-- The accumulator invariant of an engine created at rate `R`. -/
theorem Op_run_ticks (R : Nat) (hR : R < 65536) (o : Op) (e e' : clock_s)
    (h1 : e.clock_ticks < R) (h2 : e.ticks_per_second = R) (h : o.run (some e) = some e') :
    e'.clock_ticks < R ∧ e'.ticks_per_second = R := by
  cases o with
  | SetTime t =>
    cases t with
    | none =>
      simp only [Op.run, ClockSetTime, Option.some.injEq] at h
      subst h; exact ⟨h1, h2⟩
    | some t =>
      simp only [Op.run, ClockSetTime] at h
      split_ifs at h <;> simp only [Option.some.injEq] at h <;> subst h <;> exact ⟨h1, h2⟩
  | SetAlarmTime t =>
    cases t with
    | none =>
      simp only [Op.run, ClockSetAlarmTime, Option.some.injEq] at h
      subst h; exact ⟨h1, h2⟩
    | some t =>
      simp only [Op.run, ClockSetAlarmTime] at h
      split_ifs at h <;> simp only [Option.some.injEq] at h <;> subst h <;> exact ⟨h1, h2⟩
  | NewTick =>
    simp only [Op.run, ClockNewTick, Option.some.injEq] at h
    subst h
    refine ⟨?_, by rw [(newTick_frame e).2.1]; exact h2⟩
    cases hv : e.valid
    · rw [newTick_invalid e hv]; exact h1
    · rw [(newTick_time e hv (by rw [h2]; exact hR) (by rw [h2]; exact h1)).1]
      split_ifs <;> omega
  | EnableAlarm =>
    simp only [Op.run, ClockEnableAlarm] at h
    split_ifs at h <;> simp only [Option.some.injEq] at h <;> subst h <;> exact ⟨h1, h2⟩
  | DisableAlarm =>
    simp only [Op.run, ClockDisableAlarm] at h
    split_ifs at h <;> simp only [Option.some.injEq] at h <;> subst h <;> exact ⟨h1, h2⟩
  | SnoozeAlarm m =>
    simp only [Op.run, ClockSnoozeAlarm] at h
    split_ifs at h <;> simp only [Option.some.injEq] at h <;> subst h <;> exact ⟨h1, h2⟩
  | CancelAlarmUntilNextDay =>
    simp only [Op.run, ClockCancelAlarmUntilNextDay] at h
    split_ifs at h <;> simp only [Option.some.injEq] at h <;> subst h <;> exact ⟨h1, h2⟩

theorem Op_run_none (o : Op) : o.run none = none := by
  cases o <;> rfl

theorem runOps_none (ops : List Op) : runOps ops none = none := by
  induction ops with
  | nil => rfl
  | cons o ops ih =>
    show runOps ops (o.run none) = none
    rw [Op_run_none, ih]

theorem runOps_ticks (R : Nat) (hR : R < 65536) (ops : List Op) (e e' : clock_s)
    (h1 : e.clock_ticks < R) (h2 : e.ticks_per_second = R) (h : runOps ops (some e) = some e') :
    e'.clock_ticks < R ∧ e'.ticks_per_second = R := by
  induction ops generalizing e with
  | nil =>
    simp only [runOps, List.foldl_nil, Option.some.injEq] at h
    subst h; exact ⟨h1, h2⟩
  | cons o ops ih =>
    have h' : runOps ops (o.run (some e)) = some e' := h
    cases ho : o.run (some e) with
    | none => rw [ho, runOps_none] at h'; cases h'
    | some e1 =>
      rw [ho] at h'
      obtain ⟨g1, g2⟩ := Op_run_ticks R hR o e e1 h1 h2 ho
      exact ih e1 g1 g2 h'

/-- C21: in every engine state reached from a successful `ClockCreate R` (`R` a `uint16_t`)
by any sequence of the state-changing operations (the getters return no engine and cannot
change it), `clock_ticks < R`, the increment of the next tick does not wrap 16 bits, and
`ticks_per_second` is still `R`. -/
theorem C21_accumulator_below_rate (malloc_ok : Bool) (R : Nat) (ops : List Op) (e : clock_s)
    (hR : R < 65536) (h : runOps ops (ClockCreate malloc_ok R) = some e) :
    e.clock_ticks < R ∧ e.clock_ticks + 1 < 65536 ∧ e.ticks_per_second = R := by
  cases hc : ClockCreate malloc_ok R with
  | none => rw [hc, runOps_none] at h; cases h
  | some e0 =>
    rw [hc] at h
    simp only [ClockCreate] at hc
    split_ifs at hc with c1 c2
    simp only [Option.some.injEq] at hc
    have h1 : e0.clock_ticks < R := by rw [← hc]; show 0 < R; omega
    have h2 : e0.ticks_per_second = R := by rw [← hc]
    obtain ⟨g1, g2⟩ := runOps_ticks R hR ops e0 e h1 h2 h
    exact ⟨g1, by omega, g2⟩

/-- C21 at rate 1: after setting the time and three ticks the accumulator is 0. -/
theorem C21_accumulator_below_rate_witness :
    runOps [Op.SetTime (some (ofHMS 23 59 59)), Op.NewTick, Op.NewTick, Op.NewTick]
        (ClockCreate true 1)
      = some { clock_ticks := 0, current_time := ofHMS 0 0 2, valid := true,
               ticks_per_second := 1, alarm_time := zeroTime, alarm_enabled := false,
               alarm_triggered := false, snoozed_time := zeroTime, snoozed_active := false } ∧
    (0 : Nat) < 1 ∧ (0 : Nat) + 1 < 65536 ∧ (1 : Nat) = 1 :=
  ⟨by decide,
   C21_accumulator_below_rate true 1
    [Op.SetTime (some (ofHMS 23 59 59)), Op.NewTick, Op.NewTick, Op.NewTick]
    { clock_ticks := 0, current_time := ofHMS 0 0 2, valid := true,
      ticks_per_second := 1, alarm_time := zeroTime, alarm_enabled := false,
      alarm_triggered := false, snoozed_time := zeroTime, snoozed_active := false }
    (by decide) (by decide)⟩

/-! ## Absent engine, absent buffer -/

/-- C22: with an absent engine every operation reports failure and changes nothing: the six
Boolean operations return false (and leave a caller buffer as it was), the two flag accessors
return false, and `ClockNewTick`, `ClockEnableAlarm`, `ClockDisableAlarm` leave the engine
absent; with a present engine and an absent time buffer the two getters and the two setters
return false and the engine is unchanged. -/
theorem C22_absent_arguments (e : clock_s) (buf : Option clock_time_t)
    (arg : Option clock_time_t) (minutes : Nat) :
    ClockGetTime none buf = (false, buf) ∧
    ClockSetTime none arg = (false, none) ∧
    ClockSetAlarmTime none arg = (false, none) ∧
    ClockGetAlarmTime none buf = (false, buf) ∧
    ClockSnoozeAlarm none minutes = (false, none) ∧
    ClockCancelAlarmUntilNextDay none = (false, none) ∧
    ClockIsAlarmEnabled none = false ∧
    ClockIsAlarmTriggered none = false ∧
    ClockNewTick none = none ∧
    ClockEnableAlarm none = none ∧
    ClockDisableAlarm none = none ∧
    ClockGetTime (some e) none = (false, none) ∧
    ClockGetAlarmTime (some e) none = (false, none) ∧
    ClockSetTime (some e) none = (false, some e) ∧
    ClockSetAlarmTime (some e) none = (false, some e) := by
  refine ⟨?_, ?_, ?_, ?_, rfl, rfl, rfl, rfl, rfl, rfl, rfl, rfl, rfl, rfl, rfl⟩
  · cases buf <;> rfl
  · cases arg <;> rfl
  · cases arg <;> rfl
  · cases buf <;> rfl


/-! ## Long-press detector -/

theorem tickSub_of_le (a b : Nat) (h : b ≤ a) (ha : a < TICK_MODULUS) : tickSub a b = a - b := by
  simp only [tickSub, TICK_MODULUS] at *
  omega

theorem pollOutputs_append (th tol : Nat) (lp : long_press_t) (ps qs : List (Bool × Nat)) :
    pollOutputs th tol lp (ps ++ qs) =
      pollOutputs th tol lp ps ++ pollOutputs th tol (pollState th tol lp ps) qs := by
  induction ps generalizing lp with
  | nil => rfl
  | cons p ps ih =>
    show _ :: pollOutputs th tol _ (ps ++ qs) = _ :: (_ ++ _)
    rw [ih]
    rfl

theorem pollState_append (th tol : Nat) (lp : long_press_t) (ps qs : List (Bool × Nat)) :
    pollState th tol lp (ps ++ qs) = pollState th tol (pollState th tol lp ps) qs := by
  induction ps generalizing lp with
  | nil => rfl
  | cons p ps ih =>
    show pollState th tol _ (ps ++ qs) = _
    rw [ih]
    rfl

/-- A poll returns true only from a detector that has not fired, and leaves it fired. -/
theorem LongPressUpdate_fires (lp : long_press_t) (p : Bool) (t th tol : Nat)
    (h : (LongPressUpdate lp p t th tol).1 = true) :
    lp.active = false ∧ p = true ∧ (LongPressUpdate lp p t th tol).2.active = true := by
  simp only [LongPressUpdate] at h ⊢
  split_ifs at h ⊢ with h1 h2 h3
  simp_all

/-- A fired detector answers false; it stays fired unless this poll is a released one that
finds the tolerance elapsed since the recorded release time and resets the detector. -/
theorem LongPressUpdate_active (lp : long_press_t) (p : Bool) (t th tol : Nat)
    (h : lp.active = true) :
    (LongPressUpdate lp p t th tol).1 = false ∧
    ((LongPressUpdate lp p t th tol).2.active = true ∨
      (p = false ∧ lp.press_time > 0 ∧ lp.release_time ≠ 0 ∧
        tickSub t lp.release_time ≥ tol ∧
        (LongPressUpdate lp p t th tol).2 = { press_time := 0, release_time := 0,
                                              active := false })) := by
  simp only [LongPressUpdate]
  split_ifs with h1 h2 h3 h4 h5 h6 <;> simp_all

theorem pressed_active_outputs (th tol : Nat) (lp : long_press_t) (ts : List Nat)
    (h : lp.active = true) :
    pollOutputs th tol lp (pressedAt ts) = ts.map (fun _ => false) := by
  induction ts generalizing lp with
  | nil => rfl
  | cons t ts ih =>
    obtain ⟨h1, h2⟩ := LongPressUpdate_active lp true t th tol h
    have h3 : (LongPressUpdate lp true t th tol).2.active = true := by
      rcases h2 with h2 | h2
      · exact h2
      · exact absurd h2.1 (by decide)
    simp only [pressedAt, List.map_cons, pollOutputs, h1]
    exact congrArg _ (ih _ h3)

theorem count_true_map_false (ts : List Nat) :
    List.count true (ts.map (fun _ => false)) = 0 := by
  induction ts with
  | nil => rfl
  | cons t ts ih => simp only [List.map_cons, List.count_cons, ih]; rfl

theorem pressed_fires_once (th tol : Nat) (lp : long_press_t) (ts : List Nat) :
    List.count true (pollOutputs th tol lp (pressedAt ts)) ≤ 1 := by
  induction ts generalizing lp with
  | nil => exact Nat.zero_le _
  | cons t ts ih =>
    simp only [pressedAt, List.map_cons, pollOutputs, List.count_cons]
    cases h : (LongPressUpdate lp true t th tol).1
    · have := ih (LongPressUpdate lp true t th tol).2
      simp only [pressedAt] at this
      simpa using this
    · have h3 := (LongPressUpdate_fires lp true t th tol h).2.2
      have h4 := pressed_active_outputs th tol _ ts h3
      simp only [pressedAt] at h4
      rw [h4, count_true_map_false]
      simp

/-- From a fired detector, a poll sequence after which the detector is no longer fired
contains a released poll that found the tolerance elapsed and reset the detector. -/
theorem fired_until_reset (th tol : Nat) (lp : long_press_t) (pre : List (Bool × Nat))
    (h : lp.active = true) (h2 : (pollState th tol lp pre).active = false) :
    ∃ pre1 r post1, pre = pre1 ++ (false, r) :: post1 ∧
      (pollState th tol lp pre1).press_time > 0 ∧
      (pollState th tol lp pre1).release_time ≠ 0 ∧
      tickSub r (pollState th tol lp pre1).release_time ≥ tol ∧
      pollState th tol lp (pre1 ++ [(false, r)]) =
        { press_time := 0, release_time := 0, active := false } := by
  induction pre generalizing lp with
  | nil => simp only [pollState] at h2; rw [h] at h2; cases h2
  | cons p pre ih =>
    obtain ⟨pb, pt⟩ := p
    obtain ⟨_, hor⟩ := LongPressUpdate_active lp pb pt th tol h
    rcases hor with hact | ⟨hp, g1, g2, g3, g4⟩
    · obtain ⟨pre1, r, post1, e1, e2, e3, e4, e5⟩ := ih _ hact h2
      refine ⟨(pb, pt) :: pre1, r, post1, by rw [e1]; rfl, e2, e3, e4, e5⟩
    · subst hp
      exact ⟨[], pt, pre, rfl, g1, g2, g3, g4⟩


/-- C23: for every detector state, threshold and tolerance, a sequence of polls with the
button pressed at every poll (at any timestamps) returns true at most once; and after a poll
that returned true, a later poll of any sequence returns true only if in between a released
poll found the tolerance elapsed since the recorded release time and reset the detector. -/
theorem C23_fires_at_most_once (lp : long_press_t) (th tol : Nat) (ts : List Nat)
    (p0 : Bool) (t0 : Nat) (pre : List (Bool × Nat)) (p : Bool) (t : Nat) :
    List.count true (pollOutputs th tol lp (pressedAt ts)) ≤ 1 ∧
    ((LongPressUpdate lp p0 t0 th tol).1 = true →
      (LongPressUpdate (pollState th tol (LongPressUpdate lp p0 t0 th tol).2 pre) p t th tol).1
        = true →
      ∃ pre1 r post1, pre = pre1 ++ (false, r) :: post1 ∧
        (pollState th tol (LongPressUpdate lp p0 t0 th tol).2 pre1).press_time > 0 ∧
        (pollState th tol (LongPressUpdate lp p0 t0 th tol).2 pre1).release_time ≠ 0 ∧
        tickSub r (pollState th tol (LongPressUpdate lp p0 t0 th tol).2 pre1).release_time
          ≥ tol ∧
        pollState th tol (LongPressUpdate lp p0 t0 th tol).2 (pre1 ++ [(false, r)]) =
          { press_time := 0, release_time := 0, active := false }) := by
  refine ⟨pressed_fires_once th tol lp ts, ?_⟩
  intro h1 h2
  exact fired_until_reset th tol _ pre (LongPressUpdate_fires lp p0 t0 th tol h1).2.2
    (LongPressUpdate_fires _ p t th tol h2).1

/-- C23 on a hold started at tick 100 with threshold 3000 and tolerance 100: it fires at
3100; after releases at 3200 and 3300 (the reset) and a new press at 3400 it fires at 6400. -/
theorem C23_fires_at_most_once_witness :
    (LongPressUpdate ⟨100, 0, false⟩ true 3100 3000 100).1 = true ∧
    (LongPressUpdate (pollState 3000 100 (LongPressUpdate ⟨100, 0, false⟩ true 3100 3000 100).2
      [(false, 3200), (false, 3300), (true, 3400)]) true 6400 3000 100).1 = true ∧
    ∃ pre1 r post1, [(false, 3200), (false, 3300), (true, 3400)] = pre1 ++ (false, r) :: post1 ∧
      (pollState 3000 100 (LongPressUpdate ⟨100, 0, false⟩ true 3100 3000 100).2 pre1).press_time
        > 0 ∧
      (pollState 3000 100 (LongPressUpdate ⟨100, 0, false⟩ true 3100 3000 100).2
        pre1).release_time ≠ 0 ∧
      tickSub r (pollState 3000 100 (LongPressUpdate ⟨100, 0, false⟩ true 3100 3000 100).2
        pre1).release_time ≥ 100 ∧
      pollState 3000 100 (LongPressUpdate ⟨100, 0, false⟩ true 3100 3000 100).2
        (pre1 ++ [(false, r)]) = { press_time := 0, release_time := 0, active := false } :=
  ⟨by decide, by decide,
   (C23_fires_at_most_once ⟨100, 0, false⟩ 3000 100 [] true 3100
    [(false, 3200), (false, 3300), (true, 3400)] true 6400).2 (by decide) (by decide)⟩

theorem pressed_active_state (th tol : Nat) (lp : long_press_t) (ts : List Nat)
    (h : lp.active = true) (hp : lp.press_time ≠ 0) :
    (pollState th tol lp (pressedAt ts)).press_time = lp.press_time ∧
      (pollState th tol lp (pressedAt ts)).active = true := by
  induction ts generalizing lp with
  | nil => exact ⟨rfl, h⟩
  | cons t ts ih =>
    have hs : (LongPressUpdate lp true t th tol).2 = { lp with release_time := 0 } := by
      simp [LongPressUpdate, h, hp]
    have hcons : pollState th tol lp (pressedAt (t :: ts)) =
        pollState th tol { lp with release_time := 0 } (pressedAt ts) := by
      show pollState th tol (LongPressUpdate lp true t th tol).2 (pressedAt ts) = _
      rw [hs]
    rw [hcons]
    exact ih _ h hp

/-- Pressed polls on a detector that tracks a press since `t0` and has not fired: the results
are those of `firstReach`, and the press stays timed from `t0`. -/
theorem pressed_tracking (th tol t0 : Nat) (lp : long_press_t) (ts : List Nat)
    (h0 : lp.press_time = t0) (hpos : 0 < t0) (hact : lp.active = false)
    (hts : ∀ t ∈ ts, t0 ≤ t ∧ t < TICK_MODULUS) :
    pollOutputs th tol lp (pressedAt ts) = firstReach th t0 ts ∧
      (pollState th tol lp (pressedAt ts)).press_time = t0 := by
  induction ts generalizing lp with
  | nil => exact ⟨rfl, h0⟩
  | cons t ts ih =>
    obtain ⟨ht1, ht2⟩ := hts t (List.mem_cons_self t ts)
    have hts' : ∀ u ∈ ts, t0 ≤ u ∧ u < TICK_MODULUS :=
      fun u hu => hts u (List.mem_cons_of_mem t hu)
    have hsub : tickSub t lp.press_time = t - t0 := by
      rw [h0]; exact tickSub_of_le t t0 ht1 ht2
    have hne : lp.press_time ≠ 0 := by omega
    by_cases hth : t - t0 ≥ th
    · have hs : LongPressUpdate lp true t th tol =
          (true, { lp with release_time := 0, active := true }) := by
        simp [LongPressUpdate, hne, hact, hsub, hth]
      show (LongPressUpdate lp true t th tol).1 ::
          pollOutputs th tol (LongPressUpdate lp true t th tol).2 (pressedAt ts) = _ ∧
        (pollState th tol (LongPressUpdate lp true t th tol).2 (pressedAt ts)).press_time = _
      rw [hs]
      simp only [firstReach, if_pos hth]
      rw [pressed_active_outputs th tol _ ts rfl]
      exact ⟨rfl, by
        rw [(pressed_active_state th tol { lp with release_time := 0, active := true } ts
          rfl hne).1]
        exact h0⟩
    · have hs : LongPressUpdate lp true t th tol = (false, { lp with release_time := 0 }) := by
        simp [LongPressUpdate, hne, hact, hsub, hth]
      show (LongPressUpdate lp true t th tol).1 ::
          pollOutputs th tol (LongPressUpdate lp true t th tol).2 (pressedAt ts) = _ ∧
        (pollState th tol (LongPressUpdate lp true t th tol).2 (pressedAt ts)).press_time = _
      rw [hs]
      simp only [firstReach, if_neg hth]
      obtain ⟨i1, i2⟩ := ih { lp with release_time := 0 } h0 hact hts'
      exact ⟨by rw [i1], i2⟩

/-- Pressed polls on an initialised detector whose first timestamp is not 0. -/
theorem pressed_from_init (th tol t0 : Nat) (ts : List Nat) (hpos : 0 < t0)
    (hts : ∀ t ∈ ts, t0 ≤ t ∧ t < TICK_MODULUS) :
    pollOutputs th tol { press_time := 0, release_time := 0, active := false }
        (pressedAt (t0 :: ts)) = false :: firstReach th t0 ts ∧
    (LongPressUpdate { press_time := 0, release_time := 0, active := false } true t0 th tol).2
      = { press_time := t0, release_time := 0, active := false } ∧
    (pollState th tol { press_time := 0, release_time := 0, active := false }
        (pressedAt (t0 :: ts))).press_time = t0 := by
  have hs : LongPressUpdate { press_time := 0, release_time := 0, active := false } true t0 th tol
      = (false, { press_time := t0, release_time := 0, active := false }) := by
    simp [LongPressUpdate]
  obtain ⟨i1, i2⟩ := pressed_tracking th tol t0
    { press_time := t0, release_time := 0, active := false } ts rfl hpos rfl hts
  refine ⟨?_, by rw [hs], ?_⟩
  · show (LongPressUpdate _ true t0 th tol).1 ::
      pollOutputs th tol (LongPressUpdate _ true t0 th tol).2 (pressedAt ts) = _
    rw [hs, i1]
  · show (pollState th tol (LongPressUpdate _ true t0 th tol).2 (pressedAt ts)).press_time = _
    rw [hs, i2]

/-- Released polls within the tolerance of the recorded release time change nothing. -/
theorem released_short (th tol r0 : Nat) (lp : long_press_t) (rs : List Nat)
    (hp : lp.press_time ≠ 0) (h0 : lp.release_time = r0) (hpos : 0 < r0)
    (hrs : ∀ r ∈ rs, r0 ≤ r ∧ r < TICK_MODULUS ∧ r - r0 < tol) :
    pollOutputs th tol lp (releasedAt rs) = rs.map (fun _ => false) ∧
      pollState th tol lp (releasedAt rs) = lp := by
  induction rs with
  | nil => exact ⟨rfl, rfl⟩
  | cons r rs ih =>
    obtain ⟨hr1, hr2, hr3⟩ := hrs r (List.mem_cons_self r rs)
    have hsub : tickSub r lp.release_time = r - r0 := by
      rw [h0]; exact tickSub_of_le r r0 hr1 hr2
    have hne : lp.release_time ≠ 0 := by omega
    have hs : LongPressUpdate lp false r th tol = (false, lp) := by
      simp [LongPressUpdate, Nat.pos_of_ne_zero hp, hne, hsub, hr3]
    obtain ⟨i1, i2⟩ := ih (fun u hu => hrs u (List.mem_cons_of_mem r hu))
    constructor
    · show (LongPressUpdate lp false r th tol).1 ::
        pollOutputs th tol (LongPressUpdate lp false r th tol).2 (releasedAt rs) = _
      rw [hs, i1]
      rfl
    · show pollState th tol (LongPressUpdate lp false r th tol).2 (releasedAt rs) = _
      rw [hs, i2]

/-- A run of released polls that starts on a tracked press and stays within the tolerance of
its first timestamp records that timestamp and changes nothing else. -/
theorem released_run (th tol r0 : Nat) (lp : long_press_t) (rest : List Nat)
    (hp : lp.press_time ≠ 0) (h0 : lp.release_time = 0) (hpos : 0 < r0)
    (hrs : ∀ r ∈ rest, r0 ≤ r ∧ r < TICK_MODULUS ∧ r - r0 < tol) :
    pollOutputs th tol lp (releasedAt (r0 :: rest)) = (r0 :: rest).map (fun _ => false) ∧
      pollState th tol lp (releasedAt (r0 :: rest)) = { lp with release_time := r0 } := by
  have hs : LongPressUpdate lp false r0 th tol = (false, { lp with release_time := r0 }) := by
    simp [LongPressUpdate, Nat.pos_of_ne_zero hp, h0]
  obtain ⟨i1, i2⟩ := released_short th tol r0 { lp with release_time := r0 } rest hp rfl hpos hrs
  constructor
  · show (LongPressUpdate lp false r0 th tol).1 ::
      pollOutputs th tol (LongPressUpdate lp false r0 th tol).2 (releasedAt rest) = _
    rw [hs, i1]
    rfl
  · show pollState th tol (LongPressUpdate lp false r0 th tol).2 (releasedAt rest) = _
    rw [hs, i2]


theorem LongPressInit_eq (lp : long_press_t) :
    LongPressInit lp = { press_time := 0, release_time := 0, active := false } := rfl

/-- C24 as stated fails for a press that starts at tick 0: from an initialised detector with
threshold 3000, pressed polls at ticks 0, 10, 3000, 3010 are non-decreasing and the first poll
`i ≥ 1` with `t_i - t0 ≥ 3000` is the one at 3000, yet `LongPressUpdate` returns false there
and true at 3010: the latch 0 reads as "no press", so the hold is timed from tick 10. -/
theorem C24_start_at_tick_zero_counterexample :
    List.Pairwise (· ≤ ·) [0, 10, 3000, 3010] ∧
    false :: firstReach 3000 0 [10, 3000, 3010] = [false, false, true, false] ∧
    pollOutputs 3000 100 (LongPressInit ⟨0, 0, false⟩) (pressedAt [0, 10, 3000, 3010])
      = [false, false, false, true] ∧
    (pollState 3000 100 (LongPressInit ⟨0, 0, false⟩) (pressedAt [0, 10])).press_time = 10 ∧
    pollOutputs 3000 100 (LongPressInit ⟨0, 0, false⟩) (pressedAt [0, 10, 3000, 3010])
      ≠ false :: firstReach 3000 0 [10, 3000, 3010] := by
  decide

/-- Pressed polls at tick 0 on an initialised detector return false and leave it
initialised: the latch `press_time = 0` reads as "no press tracked". -/
theorem pressed_at_zero (th tol k : Nat) :
    pollOutputs th tol { press_time := 0, release_time := 0, active := false }
        (pressedAt (List.replicate k 0)) = List.replicate k false ∧
    pollState th tol { press_time := 0, release_time := 0, active := false }
        (pressedAt (List.replicate k 0)) =
      { press_time := 0, release_time := 0, active := false } := by
  have hs : LongPressUpdate { press_time := 0, release_time := 0, active := false } true 0 th tol
      = (false, { press_time := 0, release_time := 0, active := false }) := by
    simp [LongPressUpdate]
  induction k with
  | zero => exact ⟨rfl, rfl⟩
  | succ n ih =>
    constructor
    · show (LongPressUpdate _ true 0 th tol).1 ::
        pollOutputs th tol (LongPressUpdate _ true 0 th tol).2 (pressedAt (List.replicate n 0))
          = false :: List.replicate n false
      rw [hs, ih.1]
    · show pollState th tol (LongPressUpdate _ true 0 th tol).2
        (pressedAt (List.replicate n 0)) = _
      rw [hs, ih.2]

/-- C24, amended: from an initialised detector, for every threshold and every sequence of
pressed polls at timestamps `t0, t1, ...` (values of `TickType_t`) with `t0 > 0` and no
timestamp before `t0`, which non-decreasing timestamps satisfy: the first poll returns false
and latches `press_time = t0`, the latch stays `t0`, and `LongPressUpdate` returns true exactly
at the first later poll with `t_i - t0 ≥ threshold` and at no other poll. When the sequence
opens with `k` polls at tick 0, each of them returns false and leaves the detector
initialised, and the same holds from the first poll with a non-zero timestamp `t0` on. -/
theorem C24_fires_at_first_reach (lp : long_press_t) (th tol t0 : Nat) (ts : List Nat) (k : Nat)
    (hpos : 0 < t0) (hts : ∀ t ∈ ts, t0 ≤ t ∧ t < TICK_MODULUS) :
    pollOutputs th tol (LongPressInit lp) (pressedAt (t0 :: ts)) = false :: firstReach th t0 ts ∧
    (LongPressUpdate (LongPressInit lp) true t0 th tol).2.press_time = t0 ∧
    (pollState th tol (LongPressInit lp) (pressedAt (t0 :: ts))).press_time = t0 ∧
    pollOutputs th tol (LongPressInit lp) (pressedAt (List.replicate k 0))
      = List.replicate k false ∧
    pollState th tol (LongPressInit lp) (pressedAt (List.replicate k 0)) = LongPressInit lp ∧
    pollOutputs th tol (LongPressInit lp) (pressedAt (List.replicate k 0 ++ t0 :: ts))
      = List.replicate k false ++ false :: firstReach th t0 ts ∧
    (pollState th tol (LongPressInit lp) (pressedAt (List.replicate k 0 ++ [t0]))).press_time
      = t0 ∧
    (pollState th tol (LongPressInit lp)
      (pressedAt (List.replicate k 0 ++ t0 :: ts))).press_time = t0 := by
  rw [LongPressInit_eq]
  obtain ⟨h1, h2, h3⟩ := pressed_from_init th tol t0 ts hpos hts
  obtain ⟨_, _, h4⟩ := pressed_from_init th tol t0 [] hpos (fun t ht => by cases ht)
  obtain ⟨z1, z2⟩ := pressed_at_zero th tol k
  have happ : ∀ us : List Nat, pressedAt (List.replicate k 0 ++ us) =
      pressedAt (List.replicate k 0) ++ pressedAt us := fun us => List.map_append _ _ _
  refine ⟨h1, by rw [h2], h3, z1, z2, ?_, ?_, ?_⟩
  · rw [happ, pollOutputs_append, z1, z2, h1]
  · rw [happ, pollState_append, z2]
    exact h4
  · rw [happ, pollState_append, z2]
    exact h3

/-- C24, amended, on a press at ticks 5, 10, 3000, 3005, 3010 with threshold 3000: true at
3005 only; and on a press polled at ticks 0, 0, 7, 3000, 3007: latched at 7, true at 3007
only. -/
theorem C24_fires_at_first_reach_witness :
    (∀ t ∈ [10, 3000, 3005, 3010], 5 ≤ t ∧ t < TICK_MODULUS) ∧
    false :: firstReach 3000 5 [10, 3000, 3005, 3010] = [false, false, false, true, false] ∧
    pollOutputs 3000 100 (LongPressInit ⟨9, 9, true⟩) (pressedAt (5 :: [10, 3000, 3005, 3010]))
      = false :: firstReach 3000 5 [10, 3000, 3005, 3010] ∧
    (∀ t ∈ [3000, 3007], 7 ≤ t ∧ t < TICK_MODULUS) ∧
    List.replicate 2 false ++ false :: firstReach 3000 7 [3000, 3007]
      = [false, false, false, false, true] ∧
    pollOutputs 3000 100 (LongPressInit ⟨9, 9, true⟩)
        (pressedAt (List.replicate 2 0 ++ 7 :: [3000, 3007]))
      = List.replicate 2 false ++ false :: firstReach 3000 7 [3000, 3007] ∧
    (pollState 3000 100 (LongPressInit ⟨9, 9, true⟩)
      (pressedAt (List.replicate 2 0 ++ [7]))).press_time = 7 :=
  ⟨by decide, by decide,
   (C24_fires_at_first_reach ⟨9, 9, true⟩ 3000 100 5 [10, 3000, 3005, 3010] 0 (by decide)
    (by decide)).1,
   by decide, by decide,
   (C24_fires_at_first_reach ⟨9, 9, true⟩ 3000 100 7 [3000, 3007] 2 (by decide)
    (by decide)).2.2.2.2.2.1,
   (C24_fires_at_first_reach ⟨9, 9, true⟩ 3000 100 7 [3000, 3007] 2 (by decide)
    (by decide)).2.2.2.2.2.2.1⟩

/-- C25: on a detector tracking a press started at `t0` (`press_time = t0 > 0`, last poll
pressed), a run of released polls at `r0, ..., rk` (values of `TickType_t`, none before `r0`,
`r0` not before `t0`) with every `r - r0` below the tolerance returns false at each poll and
leaves `press_time = t0` and `active` unchanged; pressed polls that follow are timed from `t0`:
a detector that has not fired returns true exactly at the first of them with
`now - t0 ≥ threshold`, a detector that has fired returns false at all of them. -/
theorem C25_short_release_keeps_press (lp : long_press_t) (th tol t0 r0 : Nat)
    (rest ps : List Nat) (ht0 : lp.press_time = t0) (hpos : 0 < t0)
    (hrel : lp.release_time = 0) (hr0 : t0 ≤ r0)
    (hrest : ∀ r ∈ rest, r0 ≤ r ∧ r < TICK_MODULUS ∧ r - r0 < tol)
    (hps : ∀ p ∈ ps, t0 ≤ p ∧ p < TICK_MODULUS) :
    pollOutputs th tol lp (releasedAt (r0 :: rest)) = (r0 :: rest).map (fun _ => false) ∧
    (pollState th tol lp (releasedAt (r0 :: rest))).press_time = t0 ∧
    (pollState th tol lp (releasedAt (r0 :: rest))).active = lp.active ∧
    (lp.active = false →
      pollOutputs th tol (pollState th tol lp (releasedAt (r0 :: rest))) (pressedAt ps)
        = firstReach th t0 ps) ∧
    (lp.active = true →
      pollOutputs th tol (pollState th tol lp (releasedAt (r0 :: rest))) (pressedAt ps)
        = ps.map (fun _ => false)) := by
  have hne : lp.press_time ≠ 0 := by omega
  obtain ⟨h1, h2⟩ := released_run th tol r0 lp rest hne hrel (by omega) hrest
  rw [h2]
  refine ⟨h1, ht0, rfl, ?_, ?_⟩
  · intro hact
    exact (pressed_tracking th tol t0 { lp with release_time := r0 } ps ht0 hpos hact hps).1
  · intro hact
    exact pressed_active_outputs th tol { lp with release_time := r0 } ps hact

/-- C25 on a press since tick 100 with threshold 3000 and tolerance 100: releases at 2000,
2050, 2090 change nothing, and the hold resumed at 2100 fires at 3100. -/
theorem C25_short_release_keeps_press_witness :
    (∀ r ∈ [2050, 2090], 2000 ≤ r ∧ r < TICK_MODULUS ∧ r - 2000 < 100) ∧
    (∀ p ∈ [2100, 3099, 3100, 3110], 100 ≤ p ∧ p < TICK_MODULUS) ∧
    firstReach 3000 100 [2100, 3099, 3100, 3110] = [false, false, true, false] ∧
    pollOutputs 3000 100 (pollState 3000 100 ⟨100, 0, false⟩ (releasedAt (2000 :: [2050, 2090])))
      (pressedAt [2100, 3099, 3100, 3110]) = firstReach 3000 100 [2100, 3099, 3100, 3110] :=
  ⟨by decide, by decide, by decide,
   (C25_short_release_keeps_press ⟨100, 0, false⟩ 3000 100 100 2000 [2050, 2090]
    [2100, 3099, 3100, 3110] rfl (by decide) rfl (by decide) (by decide) (by decide)).2.2.2.1
    rfl⟩

theorem validDigits_iff (d : digits_t) :
    validDigits d = true ↔
      d.d0 ≤ 9 ∧ d.d1 ≤ 9 ∧ d.d2 ≤ 9 ∧ d.d3 ≤ 9 ∧ d.d0 * 10 + d.d1 < 24 ∧
        d.d2 * 10 + d.d3 < 60 := by
  simp [validDigits, hoursOf, minutesOf]

theorem validDigits_eq_IsValidTime (d : digits_t) :
    validDigits d = IsValidTime (some (digitsToTime d)) := by
  rw [Bool.eq_iff_iff, validDigits_iff, IsValidTime_iff]
  simp only [digitsToTime]
  omega

theorem incMinutes_eq (d : digits_t) :
    incMinutes d = { d0 := d.d0, d1 := d.d1, d2 := (minutesOf d + 1) % 60 / 10,
                     d3 := (minutesOf d + 1) % 60 % 10 } := by
  simp only [incMinutes, minutesOf, digits_t.mk.injEq]
  refine ⟨trivial, trivial, by omega, by omega⟩

theorem decMinutes_eq (d : digits_t) :
    decMinutes d = { d0 := d.d0, d1 := d.d1, d2 := (minutesOf d + 59) % 60 / 10,
                     d3 := (minutesOf d + 59) % 60 % 10 } := by
  simp only [decMinutes, minutesOf, digits_t.mk.injEq]
  refine ⟨trivial, trivial, by omega, by omega⟩

theorem incHours_eq (d : digits_t) :
    incHours d = { d0 := (hoursOf d + 1) % 24 / 10, d1 := (hoursOf d + 1) % 24 % 10,
                   d2 := d.d2, d3 := d.d3 } := by
  simp only [incHours, hoursOf, digits_t.mk.injEq]
  refine ⟨by omega, by omega, trivial, trivial⟩

theorem decHours_eq (d : digits_t) :
    decHours d = { d0 := (hoursOf d + 23) % 24 / 10, d1 := (hoursOf d + 23) % 24 % 10,
                   d2 := d.d2, d3 := d.d3 } := by
  simp only [decHours, hoursOf, digits_t.mk.injEq]
  refine ⟨by omega, by omega, trivial, trivial⟩

theorem cancelOrTimeout_frame (inp : inputs_t) (s : main_t) :
    (cancelOrTimeout inp s).digits = s.digits ∧ (cancelOrTimeout inp s).clock = s.clock ∧
    (cancelOrTimeout inp s).dots = s.dots ∧ (cancelOrTimeout inp s).last_state = s.last_state ∧
    (inp.cancel_released = false → s.timeout = false → cancelOrTimeout inp s = s) := by
  simp only [cancelOrTimeout]
  split_ifs with h1 h2
  · exact ⟨rfl, rfl, rfl, rfl, fun a b => by rw [a, b] at h1; simp at h1⟩
  · exact ⟨rfl, rfl, rfl, rfl, fun a b => by rw [a, b] at h1; simp at h1⟩
  · exact ⟨rfl, rfl, rfl, rfl, fun _ _ => rfl⟩

theorem timeMinutesBlocks_frame (inp : inputs_t) (s : main_t) :
    (timeMinutesBlocks inp s).clock = s.clock ∧ (timeMinutesBlocks inp s).mode = s.mode ∧
    (timeMinutesBlocks inp s).last_state = s.last_state ∧
    (timeMinutesBlocks inp s).dots = s.dots ∧
    (inp.increment_released = true → inp.decrement_released = false →
      (timeMinutesBlocks inp s).digits = incMinutes s.digits) ∧
    (inp.increment_released = false → inp.decrement_released = true →
      (timeMinutesBlocks inp s).digits = decMinutes s.digits) ∧
    (inp.increment_released = false → inp.decrement_released = false →
      timeMinutesBlocks inp s = s) := by
  simp only [timeMinutesBlocks]
  by_cases hi : inp.increment_released = true <;> by_cases hd : inp.decrement_released = true <;>
    simp [hi, hd]

theorem alarmMinutesBlocks_frame (inp : inputs_t) (s : main_t) :
    (alarmMinutesBlocks inp s).clock = s.clock ∧ (alarmMinutesBlocks inp s).mode = s.mode ∧
    (alarmMinutesBlocks inp s).last_state = s.last_state ∧
    (alarmMinutesBlocks inp s).dots = s.dots ∧
    (inp.increment_released = true → inp.decrement_released = false →
      (alarmMinutesBlocks inp s).digits = incMinutes s.digits) ∧
    (inp.increment_released = false → inp.decrement_released = true →
      (alarmMinutesBlocks inp s).digits = decMinutes s.digits) ∧
    (inp.increment_released = false → inp.decrement_released = false →
      alarmMinutesBlocks inp s = s) := by
  simp only [alarmMinutesBlocks]
  by_cases hi : inp.increment_released = true <;> by_cases hd : inp.decrement_released = true <;>
    simp [hi, hd]

theorem hoursBlocks_frame (inp : inputs_t) (s : main_t) :
    (hoursBlocks inp s).clock = s.clock ∧ (hoursBlocks inp s).mode = s.mode ∧
    (hoursBlocks inp s).last_state = s.last_state ∧ (hoursBlocks inp s).dots = s.dots ∧
    (hoursBlocks inp s).digits = editHours inp s.digits ∧
    (inp.increment_released = false → inp.decrement_released = false →
      hoursBlocks inp s = s) := by
  simp only [hoursBlocks, editHours]
  by_cases hi : inp.increment_released = true <;> by_cases hd : inp.decrement_released = true <;>
    simp [hi, hd]

theorem editHours_cases (inp : inputs_t) (d : digits_t) :
    (inp.increment_released = true → inp.decrement_released = false →
      editHours inp d = incHours d) ∧
    (inp.increment_released = false → inp.decrement_released = true →
      editHours inp d = decHours d) ∧
    (inp.increment_released = false → inp.decrement_released = false → editHours inp d = d) := by
  simp only [editHours]
  by_cases hi : inp.increment_released = true <;> by_cases hd : inp.decrement_released = true <;>
    simp [hi, hd]

theorem acceptMinutes_none (next : system_mode_t) (inp : inputs_t) (s : main_t)
    (ha : inp.accept_released = false) : acceptMinutes next inp s = s := by
  simp [acceptMinutes, ha]

theorem acceptTimeHours_none (inp : inputs_t) (s : main_t)
    (ha : inp.accept_released = false) : acceptTimeHours inp s = s := by
  simp [acceptTimeHours, ha]

theorem acceptAlarmHours_none (inp : inputs_t) (s : main_t)
    (ha : inp.accept_released = false) : acceptAlarmHours inp s = s := by
  simp [acceptAlarmHours, ha]

/-- The minutes cases on a step with neither cancel nor accept: what happens to the digits,
the clock and the mode. -/
theorem minutes_case_edit (th tol : Nat) (inp : inputs_t) (s : main_t)
    (hm : s.mode = system_mode_t.MODE_SET_TIME_MINUTES ∨
      s.mode = system_mode_t.MODE_SET_ALARM_MINUTES)
    (hc : inp.cancel_released = false) (ha : inp.accept_released = false) :
    (ButtonTask th tol inp s).clock = s.clock ∧
    (s.timeout = false → (ButtonTask th tol inp s).mode = s.mode) ∧
    (inp.increment_released = true → inp.decrement_released = false →
      (ButtonTask th tol inp s).digits = incMinutes s.digits) ∧
    (inp.increment_released = false → inp.decrement_released = true →
      (ButtonTask th tol inp s).digits = decMinutes s.digits) := by
  obtain ⟨f1, f2, _, _, f5⟩ := cancelOrTimeout_frame inp s
  rcases hm with hm | hm
  · obtain ⟨g1, g2, _, _, g5, g6, _⟩ := timeMinutesBlocks_frame inp (cancelOrTimeout inp s)
    simp only [ButtonTask, hm, caseSetTimeMinutes, acceptMinutes_none _ inp _ ha]
    exact ⟨by rw [g1, f2], fun ht => by rw [g2, f5 hc ht, hm],
      fun hi hd => by rw [g5 hi hd, f1], fun hi hd => by rw [g6 hi hd, f1]⟩
  · obtain ⟨g1, g2, _, _, g5, g6, _⟩ := alarmMinutesBlocks_frame inp (cancelOrTimeout inp s)
    simp only [ButtonTask, hm, caseSetAlarmMinutes, acceptMinutes_none _ inp _ ha]
    exact ⟨by rw [g1, f2], fun ht => by rw [g2, f5 hc ht, hm],
      fun hi hd => by rw [g5 hi hd, f1], fun hi hd => by rw [g6 hi hd, f1]⟩

/-- The hours cases on a step with neither cancel nor accept. -/
theorem hours_case_edit (th tol : Nat) (inp : inputs_t) (s : main_t)
    (hm : s.mode = system_mode_t.MODE_SET_TIME_HOURS ∨
      s.mode = system_mode_t.MODE_SET_ALARM_HOURS)
    (hc : inp.cancel_released = false) (ha : inp.accept_released = false) :
    (ButtonTask th tol inp s).clock = s.clock ∧
    (s.timeout = false → (ButtonTask th tol inp s).mode = s.mode) ∧
    (inp.increment_released = true → inp.decrement_released = false →
      (ButtonTask th tol inp s).digits = incHours s.digits) ∧
    (inp.increment_released = false → inp.decrement_released = true →
      (ButtonTask th tol inp s).digits = decHours s.digits) := by
  obtain ⟨f1, f2, _, _, f5⟩ := cancelOrTimeout_frame inp s
  obtain ⟨g1, g2, _, _, g5, _⟩ := hoursBlocks_frame inp (cancelOrTimeout inp s)
  obtain ⟨k1, k2, _⟩ := editHours_cases inp s.digits
  rcases hm with hm | hm
  · simp only [ButtonTask, hm, caseSetTimeHours, acceptTimeHours_none inp _ ha]
    exact ⟨by rw [g1, f2], fun ht => by rw [g2, f5 hc ht, hm],
      fun hi hd => by rw [g5, f1, k1 hi hd], fun hi hd => by rw [g5, f1, k2 hi hd]⟩
  · simp only [ButtonTask, hm, caseSetAlarmHours, acceptAlarmHours_none inp _ ha]
    exact ⟨by rw [g1, f2], fun ht => by rw [g2, f5 hc ht, hm],
      fun hi hd => by rw [g5, f1, k1 hi hd], fun hi hd => by rw [g5, f1, k2 hi hd]⟩

/-- C27: for every digit buffer holding a valid `hh:mm` and every step without cancel-release
and accept-release: in `MODE_SET_TIME_MINUTES` and `MODE_SET_ALARM_MINUTES` a lone
increment-release turns the minutes `m` into `(m + 1) mod 60` and a lone decrement-release
into `(m + 59) mod 60`, the hours digits unchanged; in `MODE_SET_TIME_HOURS` and
`MODE_SET_ALARM_HOURS` they turn the hours `h` into `(h + 1) mod 24` and `(h + 23) mod 24`, the
minutes digits unchanged; the new digits are the decimal digits of the new value, the buffer
is again a valid `hh:mm`, and the clock engine is not modified. -/
theorem C27_edit_wraps (th tol : Nat) (inp : inputs_t) (s : main_t)
    (hv : validDigits s.digits = true) (hc : inp.cancel_released = false)
    (ha : inp.accept_released = false) :
    ((s.mode = system_mode_t.MODE_SET_TIME_MINUTES ∨
        s.mode = system_mode_t.MODE_SET_ALARM_MINUTES) →
      (inp.increment_released = true → inp.decrement_released = false →
        (ButtonTask th tol inp s).digits =
          { d0 := s.digits.d0, d1 := s.digits.d1, d2 := (minutesOf s.digits + 1) % 60 / 10,
            d3 := (minutesOf s.digits + 1) % 60 % 10 } ∧
        minutesOf (ButtonTask th tol inp s).digits = (minutesOf s.digits + 1) % 60 ∧
        validDigits (ButtonTask th tol inp s).digits = true ∧
        (ButtonTask th tol inp s).clock = s.clock) ∧
      (inp.increment_released = false → inp.decrement_released = true →
        (ButtonTask th tol inp s).digits =
          { d0 := s.digits.d0, d1 := s.digits.d1, d2 := (minutesOf s.digits + 59) % 60 / 10,
            d3 := (minutesOf s.digits + 59) % 60 % 10 } ∧
        minutesOf (ButtonTask th tol inp s).digits = (minutesOf s.digits + 59) % 60 ∧
        validDigits (ButtonTask th tol inp s).digits = true ∧
        (ButtonTask th tol inp s).clock = s.clock)) ∧
    ((s.mode = system_mode_t.MODE_SET_TIME_HOURS ∨
        s.mode = system_mode_t.MODE_SET_ALARM_HOURS) →
      (inp.increment_released = true → inp.decrement_released = false →
        (ButtonTask th tol inp s).digits =
          { d0 := (hoursOf s.digits + 1) % 24 / 10, d1 := (hoursOf s.digits + 1) % 24 % 10,
            d2 := s.digits.d2, d3 := s.digits.d3 } ∧
        hoursOf (ButtonTask th tol inp s).digits = (hoursOf s.digits + 1) % 24 ∧
        validDigits (ButtonTask th tol inp s).digits = true ∧
        (ButtonTask th tol inp s).clock = s.clock) ∧
      (inp.increment_released = false → inp.decrement_released = true →
        (ButtonTask th tol inp s).digits =
          { d0 := (hoursOf s.digits + 23) % 24 / 10, d1 := (hoursOf s.digits + 23) % 24 % 10,
            d2 := s.digits.d2, d3 := s.digits.d3 } ∧
        hoursOf (ButtonTask th tol inp s).digits = (hoursOf s.digits + 23) % 24 ∧
        validDigits (ButtonTask th tol inp s).digits = true ∧
        (ButtonTask th tol inp s).clock = s.clock)) := by
  have hv' := (validDigits_iff s.digits).mp hv
  constructor
  · intro hm
    obtain ⟨e1, _, e3, e4⟩ := minutes_case_edit th tol inp s hm hc ha
    constructor
    · intro hi hd
      rw [e3 hi hd, incMinutes_eq]
      refine ⟨rfl, ?_, ?_, e1⟩
      · simp only [minutesOf]; omega
      · rw [validDigits_iff]; simp only [minutesOf]; omega
    · intro hi hd
      rw [e4 hi hd, decMinutes_eq]
      refine ⟨rfl, ?_, ?_, e1⟩
      · simp only [minutesOf]; omega
      · rw [validDigits_iff]; simp only [minutesOf]; omega
  · intro hm
    obtain ⟨e1, _, e3, e4⟩ := hours_case_edit th tol inp s hm hc ha
    constructor
    · intro hi hd
      rw [e3 hi hd, incHours_eq]
      refine ⟨rfl, ?_, ?_, e1⟩
      · simp only [hoursOf]; omega
      · rw [validDigits_iff]; simp only [hoursOf]; omega
    · intro hi hd
      rw [e4 hi hd, decHours_eq]
      refine ⟨rfl, ?_, ?_, e1⟩
      · simp only [hoursOf]; omega
      · rw [validDigits_iff]; simp only [hoursOf]; omega

/-- C27 on buffers showing 23:59 and 00:00 over a fresh clock: incrementing the minutes of
23:59 gives 23:00, decrementing the hours of 00:00 gives 23:00. -/
theorem C27_edit_wraps_witness :
    validDigits (digitsOf 23 59) = true ∧ validDigits (digitsOf 0 0) = true ∧
    (ButtonTask 3000 100 (incrementOnly 0)
      (sampleEdit system_mode_t.MODE_SET_ALARM_MINUTES system_mode_t.MODE_UNSET
        (ClockCreate true 1000) 23 59)).digits = digitsOf 23 0 ∧
    (ButtonTask 3000 100 (decrementOnly 0)
      (sampleEdit system_mode_t.MODE_SET_TIME_HOURS system_mode_t.MODE_UNSET
        (ClockCreate true 1000) 0 0)).digits = digitsOf 23 0 :=
  ⟨by decide, by decide,
   (((C27_edit_wraps 3000 100 (incrementOnly 0)
      (sampleEdit system_mode_t.MODE_SET_ALARM_MINUTES system_mode_t.MODE_UNSET
        (ClockCreate true 1000) 23 59) (by decide) rfl rfl).1 (Or.inr rfl)).1 rfl rfl).1,
   (((C27_edit_wraps 3000 100 (decrementOnly 0)
      (sampleEdit system_mode_t.MODE_SET_TIME_HOURS system_mode_t.MODE_UNSET
        (ClockCreate true 1000) 0 0) (by decide) rfl rfl).2 (Or.inl rfl)).2 rfl rfl).1⟩

/-! ## Committing the digit buffer -/

theorem digitsToTime_eq (d : digits_t) (hv : validDigits d = true) :
    digitsToTime d = ofHMS (hoursOf d) (minutesOf d) 0 := by
  rw [validDigits_iff] at hv
  simp only [digitsToTime, ofHMS, hoursOf, minutesOf, clock_time_t.mk.injEq]
  refine ⟨trivial, trivial, by omega, by omega, by omega, by omega⟩

theorem acceptTimeHours_accept (inp : inputs_t) (s : main_t)
    (ha : inp.accept_released = true) :
    (acceptTimeHours inp s).clock = (ClockSetTime s.clock (some (digitsToTime s.digits))).2 ∧
    (acceptTimeHours inp s).mode =
      (if (ClockSetTime s.clock (some (digitsToTime s.digits))).1 = true
        then system_mode_t.MODE_HOME else s.mode) ∧
    ((ClockSetTime s.clock (some (digitsToTime s.digits))).1 = true →
      (acceptTimeHours inp s).last_state = system_mode_t.MODE_HOME) ∧
    (acceptTimeHours inp s).digits = s.digits := by
  simp only [acceptTimeHours, ha, if_true]
  split_ifs with h <;> simp [h]

theorem ClockSetTime_valid (e : clock_s) (v : clock_time_t)
    (h : IsValidTime (some v) = true) :
    ClockSetTime (some e) (some v) =
      (true, some { clock_ticks := e.clock_ticks, current_time := v, valid := true,
                    ticks_per_second := e.ticks_per_second, alarm_time := e.alarm_time,
                    alarm_enabled := e.alarm_enabled, alarm_triggered := e.alarm_triggered,
                    snoozed_time := e.snoozed_time, snoozed_active := e.snoozed_active }) := by
  simp [ClockSetTime, h]

/-- C28: in `MODE_SET_TIME_HOURS`, on a step with an accept-release, no cancel-release and the
timeout flag clear, over a clock that exists: if the digit buffer at the commit (the buffer
of the step after any increment or decrement of the same step; the buffer itself when there
is none) holds a valid `hh:mm`, the current time of the clock becomes `hh:mm:00`, the clock
becomes valid, nothing else in the engine changes, and mode and `last_state` become
`MODE_HOME`; if it fails validation, the clock engine is unchanged and the mode stays
`MODE_SET_TIME_HOURS`. -/
theorem C28_commit_time (th tol : Nat) (inp : inputs_t) (s : main_t) (e : clock_s)
    (hm : s.mode = system_mode_t.MODE_SET_TIME_HOURS) (hclk : s.clock = some e)
    (ha : inp.accept_released = true) (hc : inp.cancel_released = false)
    (ht : s.timeout = false) :
    (validDigits (editHours inp s.digits) = true →
      (ButtonTask th tol inp s).clock =
        some { clock_ticks := e.clock_ticks,
               current_time := ofHMS (hoursOf (editHours inp s.digits))
                 (minutesOf (editHours inp s.digits)) 0,
               valid := true, ticks_per_second := e.ticks_per_second,
               alarm_time := e.alarm_time, alarm_enabled := e.alarm_enabled,
               alarm_triggered := e.alarm_triggered, snoozed_time := e.snoozed_time,
               snoozed_active := e.snoozed_active } ∧
      (ButtonTask th tol inp s).mode = system_mode_t.MODE_HOME ∧
      (ButtonTask th tol inp s).last_state = system_mode_t.MODE_HOME) ∧
    (validDigits (editHours inp s.digits) = false →
      (ButtonTask th tol inp s).clock = some e ∧
      (ButtonTask th tol inp s).mode = system_mode_t.MODE_SET_TIME_HOURS) ∧
    (inp.increment_released = false → inp.decrement_released = false →
      editHours inp s.digits = s.digits) := by
  obtain ⟨g1, g2, _, _, g5, _⟩ := hoursBlocks_frame inp s
  obtain ⟨a1, a2, a3, _⟩ := acceptTimeHours_accept inp (hoursBlocks inp s) ha
  have hstep : ButtonTask th tol inp s = acceptTimeHours inp (hoursBlocks inp s) := by
    simp only [ButtonTask, hm, caseSetTimeHours, (cancelOrTimeout_frame inp s).2.2.2.2 hc ht]
  rw [hstep, a1, a2, g1, g2, g5, hclk, hm]
  rw [g1, g5, hclk] at a3
  refine ⟨?_, ?_, (editHours_cases inp s.digits).2.2⟩
  · intro hv
    have hv2 : IsValidTime (some (digitsToTime (editHours inp s.digits))) = true := by
      rw [← validDigits_eq_IsValidTime]; exact hv
    have hset := ClockSetTime_valid e _ hv2
    rw [digitsToTime_eq _ hv] at hset a3
    rw [digitsToTime_eq _ hv, hset]
    exact ⟨rfl, rfl, a3 (by rw [hset])⟩
  · intro hv
    have hv2 : IsValidTime (some (digitsToTime (editHours inp s.digits))) = false := by
      rw [← validDigits_eq_IsValidTime]; exact hv
    have hset : ClockSetTime (some e) (some (digitsToTime (editHours inp s.digits)))
        = (false, some e) := by simp [ClockSetTime, hv2]
    rw [hset]
    exact ⟨rfl, rfl⟩

/-- C28 on buffers showing 07:30 and 25:00 over a fresh clock: the first is committed as
07:30:00 and the mode becomes `MODE_HOME`, the second leaves clock and mode as they were. -/
theorem C28_commit_time_witness :
    validDigits (editHours (acceptOnly 0) (digitsOf 7 30)) = true ∧
    validDigits (editHours (acceptOnly 0) (digitsOf 25 0)) = false ∧
    ClockGetTime (ButtonTask 3000 100 (acceptOnly 0)
      (sampleEdit system_mode_t.MODE_SET_TIME_HOURS system_mode_t.MODE_UNSET
        (ClockCreate true 1000) 7 30)).clock (some zeroTime) = (true, some (ofHMS 7 30 0)) ∧
    (ButtonTask 3000 100 (acceptOnly 0)
      (sampleEdit system_mode_t.MODE_SET_TIME_HOURS system_mode_t.MODE_UNSET
        (ClockCreate true 1000) 7 30)).mode = system_mode_t.MODE_HOME ∧
    (ButtonTask 3000 100 (acceptOnly 0)
      (sampleEdit system_mode_t.MODE_SET_TIME_HOURS system_mode_t.MODE_UNSET
        (ClockCreate true 1000) 25 0)).mode = system_mode_t.MODE_SET_TIME_HOURS := by
  have h1 := (C28_commit_time 3000 100 (acceptOnly 0)
    (sampleEdit system_mode_t.MODE_SET_TIME_HOURS system_mode_t.MODE_UNSET
      (ClockCreate true 1000) 7 30)
    { clock_ticks := 0, current_time := zeroTime, valid := false, ticks_per_second := 1000,
      alarm_time := zeroTime, alarm_enabled := false, alarm_triggered := false,
      snoozed_time := zeroTime, snoozed_active := false } rfl rfl rfl rfl rfl).1 (by decide)
  have h2 := (C28_commit_time 3000 100 (acceptOnly 0)
    (sampleEdit system_mode_t.MODE_SET_TIME_HOURS system_mode_t.MODE_UNSET
      (ClockCreate true 1000) 25 0)
    { clock_ticks := 0, current_time := zeroTime, valid := false, ticks_per_second := 1000,
      alarm_time := zeroTime, alarm_enabled := false, alarm_triggered := false,
      snoozed_time := zeroTime, snoozed_active := false } rfl rfl rfl rfl rfl).2.1 (by decide)
  exact ⟨by decide, by decide, by rw [h1.1]; rfl, h1.2.1, h2.2⟩

theorem acceptAlarmHours_accept (inp : inputs_t) (s : main_t) (e : clock_s)
    (ha : inp.accept_released = true) (hclk : s.clock = some e)
    (hv : validDigits s.digits = true) :
    (acceptAlarmHours inp s).clock =
      ClockEnableAlarm (some
        { e with alarm_time := ofHMS (hoursOf s.digits) (minutesOf s.digits) 0 }) ∧
    (acceptAlarmHours inp s).dots.d3 = 1 ∧
    (acceptAlarmHours inp s).mode =
      (if s.last_state ≠ system_mode_t.MODE_UNSET then system_mode_t.MODE_HOME
        else system_mode_t.MODE_UNSET) ∧
    (acceptAlarmHours inp s).digits =
      (if s.last_state ≠ system_mode_t.MODE_UNSET then s.digits
        else { d0 := 0, d1 := 0, d2 := 0, d3 := 0 }) := by
  have hv2 : IsValidTime (some (digitsToTime s.digits)) = true := by
    rw [← validDigits_eq_IsValidTime]; exact hv
  have hset : ClockSetAlarmTime (some e) (some (digitsToTime s.digits)) =
      (true, some { e with alarm_time := digitsToTime s.digits }) := by
    simp [ClockSetAlarmTime, hv2]
  simp only [acceptAlarmHours, ha, if_true, hclk, hset]
  rw [digitsToTime_eq _ hv]
  split_ifs with h <;> exact ⟨rfl, rfl, rfl, rfl⟩

/-- The accept-release of `MODE_SET_ALARM_HOURS` over a clock that exists, with no
cancel-release, the timeout flag clear and a valid `hh:mm` at the commit: the alarm time is
stored and the indicator dot set; the alarm is enabled when the clock is valid, and left as it
was when the clock has no valid time. -/
theorem set_alarm_hours_accept (th tol : Nat) (inp : inputs_t) (s : main_t) (e : clock_s)
    (hm : s.mode = system_mode_t.MODE_SET_ALARM_HOURS) (hclk : s.clock = some e)
    (ha : inp.accept_released = true) (hc : inp.cancel_released = false)
    (ht : s.timeout = false) (hv : validDigits (editHours inp s.digits) = true) :
    ClockGetAlarmTime (ButtonTask th tol inp s).clock (some zeroTime) =
      (true, some (ofHMS (hoursOf (editHours inp s.digits))
        (minutesOf (editHours inp s.digits)) 0)) ∧
    (ButtonTask th tol inp s).dots.d3 = 1 ∧
    (ButtonTask th tol inp s).mode =
      (if s.last_state ≠ system_mode_t.MODE_UNSET then system_mode_t.MODE_HOME
        else system_mode_t.MODE_UNSET) ∧
    (s.last_state = system_mode_t.MODE_UNSET →
      (ButtonTask th tol inp s).digits = { d0 := 0, d1 := 0, d2 := 0, d3 := 0 }) ∧
    (e.valid = true → ClockIsAlarmEnabled (ButtonTask th tol inp s).clock = true) ∧
    (e.valid = false →
      ClockIsAlarmEnabled (ButtonTask th tol inp s).clock = e.alarm_enabled) := by
  obtain ⟨g1, _, g3, _, g5, _⟩ := hoursBlocks_frame inp s
  have hstep : ButtonTask th tol inp s = acceptAlarmHours inp (hoursBlocks inp s) := by
    simp only [ButtonTask, hm, caseSetAlarmHours, (cancelOrTimeout_frame inp s).2.2.2.2 hc ht]
  obtain ⟨a1, a2, a3, a4⟩ := acceptAlarmHours_accept inp (hoursBlocks inp s) e ha
    (by rw [g1, hclk]) (by rw [g5]; exact hv)
  rw [hstep, a1, a2, a3, a4, g3, g5]
  refine ⟨?_, rfl, rfl, ?_, ?_, ?_⟩
  · cases hval : e.valid <;> simp [ClockEnableAlarm, ClockGetAlarmTime, hval]
  · intro hl
    simp [hl]
  · intro hval
    simp [ClockEnableAlarm, ClockIsAlarmEnabled, hval]
  · intro hval
    simp [ClockEnableAlarm, ClockIsAlarmEnabled, hval]

/-- C29, what the code does in first-time setup: from the initial state, a long press on
set-alarm (polls at ticks 1 and 3001) enters `MODE_SET_ALARM_MINUTES` with `last_state`
`MODE_UNSET`, an accept-release goes on to `MODE_SET_ALARM_HOURS`, an increment-release shows
01:00 and the accept-release commits it: 01:00:00 is stored as alarm time, the mode is
`MODE_UNSET`, the digits are cleared and the indicator dot is set, but `ClockIsAlarmEnabled`
is false, because `ClockEnableAlarm` does nothing on a clock whose time was never set. -/
theorem C29_alarm_not_enabled_before_time_set :
    runButtonTask 3000 100 [holdSetAlarm 1, holdSetAlarm 3001, acceptOnly 3010,
        incrementOnly 3020] (mainInit true) =
      { mode := system_mode_t.MODE_SET_ALARM_HOURS, clock := ClockCreate true 1000,
        current_time := zeroTime, alarm_time := zeroTime, digits := digitsOf 1 0,
        dots := { d0 := 0, d1 := 1, d2 := 0, d3 := 0 },
        last_state := system_mode_t.MODE_UNSET, timeout := false, timeout_counter := 0,
        set_alarm_lp := { press_time := 1, release_time := 0, active := true },
        set_time_lp := { press_time := 0, release_time := 0, active := false } } ∧
    validDigits (digitsOf 1 0) = true ∧
    ClockGetAlarmTime (runButtonTask 3000 100 [holdSetAlarm 1, holdSetAlarm 3001,
        acceptOnly 3010, incrementOnly 3020, acceptOnly 3030] (mainInit true)).clock
      (some zeroTime) = (true, some (ofHMS 1 0 0)) ∧
    (runButtonTask 3000 100 [holdSetAlarm 1, holdSetAlarm 3001, acceptOnly 3010,
        incrementOnly 3020, acceptOnly 3030] (mainInit true)).mode
      = system_mode_t.MODE_UNSET ∧
    (runButtonTask 3000 100 [holdSetAlarm 1, holdSetAlarm 3001, acceptOnly 3010,
        incrementOnly 3020, acceptOnly 3030] (mainInit true)).digits = digitsOf 0 0 ∧
    (runButtonTask 3000 100 [holdSetAlarm 1, holdSetAlarm 3001, acceptOnly 3010,
        incrementOnly 3020, acceptOnly 3030] (mainInit true)).dots.d3 = 1 ∧
    ClockIsAlarmEnabled (runButtonTask 3000 100 [holdSetAlarm 1, holdSetAlarm 3001,
        acceptOnly 3010, incrementOnly 3020, acceptOnly 3030] (mainInit true)).clock
      = false := by
  decide

/-! ## Cancel and idle timeout -/

theorem cancelOrTimeout_taken (inp : inputs_t) (s : main_t)
    (h : inp.cancel_released = true ∨ s.timeout = true) :
    cancelOrTimeout inp s =
      { s with mode := (if s.last_state = system_mode_t.MODE_UNSET
                         then system_mode_t.MODE_UNSET else system_mode_t.MODE_HOME),
               timeout := false, timeout_counter := 0 } := by
  simp only [cancelOrTimeout, if_pos h]
  split_ifs <;> rfl

/-- C30: in each of the four editing modes, a step with a cancel-release or with the timeout
flag set, and no increment-, decrement- or accept-release, changes exactly three fields: the
mode becomes `MODE_UNSET` if `last_state` is `MODE_UNSET` and `MODE_HOME` otherwise, the
timeout flag becomes false and the idle counter 0; the clock engine and every other field are
as before; and the step on a cancel-release with the flag clear and the step without
cancel-release with the flag set end in the same state. -/
theorem C30_cancel_or_timeout (th tol : Nat) (inp : inputs_t) (s : main_t)
    (hm : s.mode = system_mode_t.MODE_SET_TIME_MINUTES ∨
      s.mode = system_mode_t.MODE_SET_TIME_HOURS ∨
      s.mode = system_mode_t.MODE_SET_ALARM_MINUTES ∨
      s.mode = system_mode_t.MODE_SET_ALARM_HOURS)
    (hi : inp.increment_released = false) (hd : inp.decrement_released = false)
    (ha : inp.accept_released = false) :
    (inp.cancel_released = true ∨ s.timeout = true →
      ButtonTask th tol inp s =
        { s with mode := (if s.last_state = system_mode_t.MODE_UNSET
                           then system_mode_t.MODE_UNSET else system_mode_t.MODE_HOME),
                 timeout := false, timeout_counter := 0 } ∧
      (ButtonTask th tol inp s).clock = s.clock) ∧
    ButtonTask th tol { inp with cancel_released := true } { s with timeout := false } =
      ButtonTask th tol { inp with cancel_released := false } { s with timeout := true } := by
  have hstep : ∀ (i : inputs_t) (x : main_t), x.mode = s.mode →
      i.increment_released = false → i.decrement_released = false →
      i.accept_released = false → ButtonTask th tol i x = cancelOrTimeout i x := by
    intro i x hx h1 h2 h3
    rw [← hx] at hm
    rcases hm with hm | hm | hm | hm
    · simp only [ButtonTask, hm, caseSetTimeMinutes, acceptMinutes_none _ i _ h3,
        (timeMinutesBlocks_frame i _).2.2.2.2.2.2 h1 h2]
    · simp only [ButtonTask, hm, caseSetTimeHours, acceptTimeHours_none i _ h3,
        (hoursBlocks_frame i _).2.2.2.2.2 h1 h2]
    · simp only [ButtonTask, hm, caseSetAlarmMinutes, acceptMinutes_none _ i _ h3,
        (alarmMinutesBlocks_frame i _).2.2.2.2.2.2 h1 h2]
    · simp only [ButtonTask, hm, caseSetAlarmHours, acceptAlarmHours_none i _ h3,
        (hoursBlocks_frame i _).2.2.2.2.2 h1 h2]
  constructor
  · intro h
    rw [hstep inp s rfl hi hd ha, cancelOrTimeout_taken inp s h]
    exact ⟨rfl, rfl⟩
  · rw [hstep { inp with cancel_released := true } { s with timeout := false } rfl hi hd ha,
      hstep { inp with cancel_released := false } { s with timeout := true } rfl hi hd ha,
      cancelOrTimeout_taken _ _ (Or.inl rfl), cancelOrTimeout_taken _ _ (Or.inr rfl)]

/-- C30 on a cancel-release in `MODE_SET_ALARM_HOURS` entered from `MODE_UNSET`, the buffer
showing 07:30 over a fresh clock: back to `MODE_UNSET`, counter 0, clock untouched. -/
theorem C30_cancel_or_timeout_witness :
    ButtonTask 3000 100 (cancelOnly 0)
      (sampleEdit system_mode_t.MODE_SET_ALARM_HOURS system_mode_t.MODE_UNSET
        (ClockCreate true 1000) 7 30) =
      { sampleEdit system_mode_t.MODE_SET_ALARM_HOURS system_mode_t.MODE_UNSET
          (ClockCreate true 1000) 7 30 with
        mode := system_mode_t.MODE_UNSET, timeout := false, timeout_counter := 0 } :=
  ((C30_cancel_or_timeout 3000 100 (cancelOnly 0)
    (sampleEdit system_mode_t.MODE_SET_ALARM_HOURS system_mode_t.MODE_UNSET
      (ClockCreate true 1000) 7 30) (Or.inr (Or.inr (Or.inr rfl))) rfl rfl rfl).1
    (Or.inl rfl)).1

/-! ## The UI: idle timeout counter -/

theorem TimeOutTask_editing (s : main_t) (hm : isEditing s.mode = true)
    (hc : s.timeout_counter < 29) :
    TimeOutTask s = { s with timeout_counter := s.timeout_counter + 1 } := by
  have hm2 : s.mode = system_mode_t.MODE_SET_ALARM_HOURS ∨
      s.mode = system_mode_t.MODE_SET_ALARM_MINUTES ∨
      s.mode = system_mode_t.MODE_SET_TIME_HOURS ∨
      s.mode = system_mode_t.MODE_SET_TIME_MINUTES := by
    simp only [isEditing, decide_eq_true_eq] at hm
    tauto
  have h1 : (s.timeout_counter + 1) % 256 = s.timeout_counter + 1 := by omega
  have h2 : ¬ (s.timeout_counter + 1 ≥ 30) := by omega
  simp only [TimeOutTask, if_pos hm2, h1, if_neg h2]

theorem TimeOutTask_fires (s : main_t) (hm : isEditing s.mode = true)
    (hc : s.timeout_counter = 29) :
    TimeOutTask s = { s with timeout := true, timeout_counter := 0 } := by
  have hm2 : s.mode = system_mode_t.MODE_SET_ALARM_HOURS ∨
      s.mode = system_mode_t.MODE_SET_ALARM_MINUTES ∨
      s.mode = system_mode_t.MODE_SET_TIME_HOURS ∨
      s.mode = system_mode_t.MODE_SET_TIME_MINUTES := by
    simp only [isEditing, decide_eq_true_eq] at hm
    tauto
  have h2 : (s.timeout_counter + 1) % 256 ≥ 30 := by omega
  simp only [TimeOutTask, if_pos hm2, if_pos h2]

theorem TimeOutTask_idle (s : main_t) (hm : isEditing s.mode = false) : TimeOutTask s = s := by
  have hm2 : ¬ (s.mode = system_mode_t.MODE_SET_ALARM_HOURS ∨
      s.mode = system_mode_t.MODE_SET_ALARM_MINUTES ∨
      s.mode = system_mode_t.MODE_SET_TIME_HOURS ∨
      s.mode = system_mode_t.MODE_SET_TIME_MINUTES) := by
    simp only [isEditing, decide_eq_false_iff_not] at hm
    tauto
  simp only [TimeOutTask, if_neg hm2]

theorem TimeOutTask_iterate (s : main_t) (hm : isEditing s.mode = true)
    (h0 : s.timeout_counter = 0) (k : Nat) (hk : k ≤ 29) :
    TimeOutTask^[k] s = { s with timeout_counter := k } := by
  induction k with
  | zero => simp only [Function.iterate_zero, id_eq]; rw [← h0]
  | succ n ih =>
    rw [Function.iterate_succ_apply', ih (by omega)]
    exact TimeOutTask_editing _ hm (by show n < 29; omega)

/-- A pass of `ButtonTask` in an editing mode with no release event and the timeout flag
clear changes nothing. -/
theorem ButtonTask_editing_idle (th tol : Nat) (inp : inputs_t) (s : main_t)
    (hm : isEditing s.mode = true) (hf : s.timeout = false)
    (hc : inp.cancel_released = false) (ha : inp.accept_released = false)
    (hi : inp.increment_released = false) (hd : inp.decrement_released = false) :
    ButtonTask th tol inp s = s := by
  have hno : ¬ (inp.cancel_released = true ∨ s.timeout = true) := by simp [hc, hf]
  simp only [isEditing, decide_eq_true_eq] at hm
  rcases hm with h | h | h | h <;>
    simp [ButtonTask, h, caseSetTimeMinutes, caseSetTimeHours, caseSetAlarmMinutes,
      caseSetAlarmHours, cancelOrTimeout, hc, hf, ha, hi, hd, timeMinutesBlocks,
      alarmMinutesBlocks, hoursBlocks, acceptMinutes, acceptTimeHours, acceptAlarmHours]

/-- C31: a pass of `TimeOutTask` leaves the state as it is in `MODE_UNSET`, `MODE_HOME` and
`MODE_ALARM_TRIGGERED`, and in an editing mode with fewer than 29 seconds counted it adds one
to the idle counter and changes nothing else. From an editing mode with counter 0 and the
timeout flag clear, after `k ≤ 29` passes the counter is `k` and the flag still clear (a pass
of `ButtonTask` without release events in between changes nothing), and the 30th pass sets the
flag and puts the counter back to 0. -/
theorem C31_idle_timeout (s : main_t) (hm : isEditing s.mode = true)
    (h0 : s.timeout_counter = 0) (hf : s.timeout = false) :
    (∀ u : main_t, u.mode = system_mode_t.MODE_UNSET ∨ u.mode = system_mode_t.MODE_HOME ∨
      u.mode = system_mode_t.MODE_ALARM_TRIGGERED → TimeOutTask u = u) ∧
    (∀ u : main_t, isEditing u.mode = true → u.timeout_counter < 29 →
      TimeOutTask u = { u with timeout_counter := u.timeout_counter + 1 }) ∧
    (∀ k, k ≤ 29 → TimeOutTask^[k] s = { s with timeout_counter := k } ∧
      (TimeOutTask^[k] s).timeout = false ∧
      ∀ th tol t, ButtonTask th tol (noInput t) (TimeOutTask^[k] s) = TimeOutTask^[k] s) ∧
    TimeOutTask^[30] s = { s with timeout := true, timeout_counter := 0 } ∧
    (TimeOutTask^[30] s).timeout = true ∧ (TimeOutTask^[30] s).timeout_counter = 0 := by
  have h30 : TimeOutTask^[30] s = { s with timeout := true, timeout_counter := 0 } := by
    rw [Function.iterate_succ_apply', TimeOutTask_iterate s hm h0 29 (le_refl _)]
    exact TimeOutTask_fires _ hm rfl
  refine ⟨?_, fun u hu hc => TimeOutTask_editing u hu hc, ?_, h30, by rw [h30], by rw [h30]⟩
  · intro u hu
    apply TimeOutTask_idle
    rcases hu with h | h | h <;> simp [isEditing, h]
  · intro k hk
    have hk2 := TimeOutTask_iterate s hm h0 k hk
    refine ⟨hk2, by rw [hk2]; exact hf, ?_⟩
    intro th tol t
    rw [hk2]
    exact ButtonTask_editing_idle th tol (noInput t) _ hm hf rfl rfl rfl rfl

theorem C31_idle_timeout_witness :
    isEditing (sampleEdit system_mode_t.MODE_SET_TIME_HOURS system_mode_t.MODE_HOME
      (some sampleDue) 6 30).mode = true ∧
    (TimeOutTask^[29] { sampleEdit system_mode_t.MODE_SET_TIME_HOURS system_mode_t.MODE_HOME
      (some sampleDue) 6 30 with timeout_counter := 0 }).timeout = false ∧
    (TimeOutTask^[30] { sampleEdit system_mode_t.MODE_SET_TIME_HOURS system_mode_t.MODE_HOME
      (some sampleDue) 6 30 with timeout_counter := 0 }).timeout = true :=
  ⟨by decide,
   ((C31_idle_timeout { sampleEdit system_mode_t.MODE_SET_TIME_HOURS system_mode_t.MODE_HOME
      (some sampleDue) 6 30 with timeout_counter := 0 } (by decide) rfl rfl).2.2.1 29
        (le_refl _)).2.1,
   (C31_idle_timeout { sampleEdit system_mode_t.MODE_SET_TIME_HOURS system_mode_t.MODE_HOME
      (some sampleDue) 6 30 with timeout_counter := 0 } (by decide) rfl rfl).2.2.2.2.1⟩

/-- In `MODE_SET_TIME_MINUTES`, `MODE_SET_TIME_HOURS` and `MODE_SET_ALARM_HOURS` a pass with
an increment- or decrement-release ends with the idle counter 0 and the timeout flag clear. -/
theorem edit_resets_counter (th tol : Nat) (inp : inputs_t) (s : main_t)
    (hm : s.mode = system_mode_t.MODE_SET_TIME_MINUTES ∨
      s.mode = system_mode_t.MODE_SET_TIME_HOURS ∨
      s.mode = system_mode_t.MODE_SET_ALARM_HOURS)
    (he : inp.increment_released = true ∨ inp.decrement_released = true) :
    (ButtonTask th tol inp s).timeout_counter = 0 ∧ (ButtonTask th tol inp s).timeout = false := by
  rcases hm with h | h | h
  · simp only [ButtonTask, h, caseSetTimeMinutes, acceptMinutes, timeMinutesBlocks]
    rcases he with he | he
    · by_cases hd : inp.decrement_released = true <;>
        by_cases ha : inp.accept_released = true <;> simp [he, hd, ha]
    · by_cases ha : inp.accept_released = true <;> simp [he, ha]
  · simp only [ButtonTask, h, caseSetTimeHours, acceptTimeHours, hoursBlocks]
    rcases he with he | he
    · by_cases hd : inp.decrement_released = true <;>
        by_cases ha : inp.accept_released = true <;> simp [he, hd, ha] <;>
        split_ifs <;> simp
    · by_cases ha : inp.accept_released = true
      · simp only [he, ha, if_true]
        split_ifs <;> simp
      · simp [he, ha]
  · simp only [ButtonTask, h, caseSetAlarmHours, acceptAlarmHours, hoursBlocks]
    rcases he with he | he
    · by_cases hd : inp.decrement_released = true <;>
        by_cases ha : inp.accept_released = true <;> simp [he, hd, ha] <;>
        split_ifs <;> simp
    · by_cases ha : inp.accept_released = true
      · simp only [he, ha, if_true]
        split_ifs <;> simp
      · simp [he, ha]

/-- In `MODE_SET_ALARM_MINUTES` a pass without cancel- or accept-release and with the timeout
flag clear leaves the idle counter as it was, whatever the increment and decrement events. -/
theorem alarm_minutes_counter_kept (th tol : Nat) (inp : inputs_t) (s : main_t)
    (hm : s.mode = system_mode_t.MODE_SET_ALARM_MINUTES) (hf : s.timeout = false)
    (hc : inp.cancel_released = false) (ha : inp.accept_released = false) :
    (ButtonTask th tol inp s).timeout_counter = s.timeout_counter := by
  simp only [ButtonTask, hm, caseSetAlarmMinutes, acceptMinutes, alarmMinutesBlocks,
    cancelOrTimeout]
  by_cases hi : inp.increment_released = true <;>
    by_cases hd : inp.decrement_released = true <;> simp [hi, hd, ha, hc, hf]

set_option maxRecDepth 10000 in
/-- C32, what the code does in `MODE_SET_ALARM_MINUTES`: from the initial state a long press
on set-alarm enters the mode; after 29 passes of `TimeOutTask` the idle counter is 29; an
increment-release then shows 00:01 and leaves the counter at 29, so the next pass of
`TimeOutTask` sets the timeout flag and the next pass of `ButtonTask` abandons the edit, one
second after the increment. The same run through `MODE_SET_TIME_MINUTES` has the counter at 0
after the increment, and the flag is clear one second later. -/
theorem C32_alarm_minutes_keeps_counter :
    runSteps 3000 100 ([step_t.button (holdSetAlarm 1), step_t.button (holdSetAlarm 3001)] ++
        List.replicate 29 step_t.timeOut ++ [step_t.button (incrementOnly 32000)])
        (mainInit true) =
      { mode := system_mode_t.MODE_SET_ALARM_MINUTES, clock := ClockCreate true 1000,
        current_time := zeroTime, alarm_time := zeroTime, digits := digitsOf 0 1,
        dots := { d0 := 0, d1 := 1, d2 := 0, d3 := 0 },
        last_state := system_mode_t.MODE_UNSET, timeout := false, timeout_counter := 29,
        set_alarm_lp := { press_time := 1, release_time := 0, active := true },
        set_time_lp := { press_time := 0, release_time := 0, active := false } } ∧
    (runSteps 3000 100 ([step_t.button (holdSetAlarm 1), step_t.button (holdSetAlarm 3001)] ++
        List.replicate 29 step_t.timeOut ++ [step_t.button (incrementOnly 32000),
          step_t.timeOut]) (mainInit true)).timeout = true ∧
    (runSteps 3000 100 ([step_t.button (holdSetAlarm 1), step_t.button (holdSetAlarm 3001)] ++
        List.replicate 29 step_t.timeOut ++ [step_t.button (incrementOnly 32000),
          step_t.timeOut, step_t.button (noInput 33000)]) (mainInit true)).mode =
      system_mode_t.MODE_UNSET ∧
    (runSteps 3000 100 ([step_t.button (holdSetAlarm 1), step_t.button (holdSetAlarm 3001)] ++
        List.replicate 29 step_t.timeOut ++ [step_t.button (decrementOnly 32000)])
        (mainInit true)).timeout_counter = 29 ∧
    (runSteps 3000 100 ([step_t.button (holdSetTime 1), step_t.button (holdSetTime 3001)] ++
        List.replicate 29 step_t.timeOut ++ [step_t.button (incrementOnly 32000)])
        (mainInit true)).timeout_counter = 0 ∧
    (runSteps 3000 100 ([step_t.button (holdSetTime 1), step_t.button (holdSetTime 3001)] ++
        List.replicate 29 step_t.timeOut ++ [step_t.button (incrementOnly 32000),
          step_t.timeOut]) (mainInit true)).timeout = false := by
  decide

/-- C33, what the code does on a commit: from the initial state, the time is set for the first
time with ten idle seconds counted in `MODE_SET_TIME_HOURS` before the accept-release; the
commit succeeds and the mode is `MODE_HOME` with the timeout flag clear but the idle counter
still 10. A second long press on set-time then enters `MODE_SET_TIME_MINUTES` with the counter
at 10, and the timeout flag is set after 20 passes of `TimeOutTask`, not 30. The commit in
`MODE_SET_ALARM_HOURS` keeps the counter in the same way (here into `MODE_UNSET`, counter 3). -/
theorem C33_commit_keeps_idle_counter :
    (runSteps 3000 100 commitAfterTenSeconds (mainInit true)).mode =
      system_mode_t.MODE_HOME ∧
    clockValid (runSteps 3000 100 commitAfterTenSeconds (mainInit true)).clock = true ∧
    (runSteps 3000 100 commitAfterTenSeconds (mainInit true)).timeout = false ∧
    (runSteps 3000 100 commitAfterTenSeconds (mainInit true)).timeout_counter = 10 ∧
    (runSteps 3000 100 (commitAfterTenSeconds ++ secondLongPress) (mainInit true)).mode =
      system_mode_t.MODE_SET_TIME_MINUTES ∧
    (runSteps 3000 100 (commitAfterTenSeconds ++ secondLongPress)
      (mainInit true)).timeout_counter = 10 ∧
    (runSteps 3000 100 (commitAfterTenSeconds ++ secondLongPress ++
      List.replicate 19 step_t.timeOut) (mainInit true)).timeout = false ∧
    (runSteps 3000 100 (commitAfterTenSeconds ++ secondLongPress ++
      List.replicate 20 step_t.timeOut) (mainInit true)).timeout = true ∧
    (runSteps 3000 100 ([step_t.button (holdSetAlarm 1), step_t.button (holdSetAlarm 3001),
        step_t.button (acceptOnly 3010), step_t.timeOut, step_t.timeOut, step_t.timeOut,
        step_t.button (acceptOnly 7000)]) (mainInit true)).mode = system_mode_t.MODE_UNSET ∧
    (runSteps 3000 100 ([step_t.button (holdSetAlarm 1), step_t.button (holdSetAlarm 3001),
        step_t.button (acceptOnly 3010), step_t.timeOut, step_t.timeOut, step_t.timeOut,
        step_t.button (acceptOnly 7000)]) (mainInit true)).timeout_counter = 3 := by
  decide

/-! ## The UI: digit buffer and BCD time -/

/-- C34: `digitsToTime` writes `digits[0..3]` into `bcd[5]`, `bcd[4]`, `bcd[3]`, `bcd[2]`
(tens and units of the hours, tens and units of the minutes) and 0 into the two seconds bytes;
`timeToDigits` after `digitsToTime` gives the buffer back; `digitsToTime` after `timeToDigits`
gives the time with both seconds bytes 0 and the other four as they were. -/
theorem C34_digits_time_round_trip (d : digits_t) (t : clock_time_t) :
    (digitsToTime d).hours1 = d.d0 ∧ (digitsToTime d).hours0 = d.d1 ∧
    (digitsToTime d).minutes1 = d.d2 ∧ (digitsToTime d).minutes0 = d.d3 ∧
    (digitsToTime d).seconds1 = 0 ∧ (digitsToTime d).seconds0 = 0 ∧
    timeToDigits (digitsToTime d) = d ∧
    digitsToTime (timeToDigits t) = { t with seconds0 := 0, seconds1 := 0 } :=
  ⟨rfl, rfl, rfl, rfl, rfl, rfl, rfl, rfl⟩

/-! ## The UI: home and ringing alarm -/

/-- C35: in `MODE_HOME` over a clock with a valid time, a pass in which neither detector
reports a long press shows the clock's `hh:mm` in the digit buffer; if the alarm is triggered
the mode becomes `MODE_ALARM_TRIGGERED` and the engine is untouched; otherwise the mode stays
`MODE_HOME`, and an accept-release enables the alarm and sets `dots[3]`, else a cancel-release
disables it and clears `dots[3]`, else engine and dots are untouched. -/
theorem C35_home_step (th tol : Nat) (inp : inputs_t) (s : main_t) (e : clock_s)
    (hm : s.mode = system_mode_t.MODE_HOME) (hc : s.clock = some e) (hv : e.valid = true)
    (ht : (LongPressUpdate s.set_time_lp (!inp.set_time_active) inp.ticks_first th tol).1
      = false)
    (ha : (LongPressUpdate s.set_alarm_lp (!inp.set_alarm_active) inp.ticks_second th tol).1
      = false) :
    (ButtonTask th tol inp s).digits = timeToDigits e.current_time ∧
    (ButtonTask th tol inp s).digits =
      { d0 := e.current_time.hours1, d1 := e.current_time.hours0,
        d2 := e.current_time.minutes1, d3 := e.current_time.minutes0 } ∧
    (ClockIsAlarmTriggered (some e) = true →
      (ButtonTask th tol inp s).mode = system_mode_t.MODE_ALARM_TRIGGERED ∧
      (ButtonTask th tol inp s).clock = some e) ∧
    (ClockIsAlarmTriggered (some e) = false →
      (ButtonTask th tol inp s).mode = system_mode_t.MODE_HOME ∧
      (inp.accept_released = true →
        (ButtonTask th tol inp s).clock = ClockEnableAlarm (some e) ∧
        ClockIsAlarmEnabled (ButtonTask th tol inp s).clock = true ∧
        (ButtonTask th tol inp s).dots = { s.dots with d3 := 1 }) ∧
      (inp.accept_released = false → inp.cancel_released = true →
        (ButtonTask th tol inp s).clock = ClockDisableAlarm (some e) ∧
        ClockIsAlarmEnabled (ButtonTask th tol inp s).clock = false ∧
        (ButtonTask th tol inp s).dots = { s.dots with d3 := 0 }) ∧
      (inp.accept_released = false → inp.cancel_released = false →
        (ButtonTask th tol inp s).clock = some e ∧
        (ButtonTask th tol inp s).dots = s.dots)) := by
  have hstep : ButtonTask th tol inp s =
      (let b : main_t :=
        { s with current_time := e.current_time, digits := timeToDigits e.current_time,
                 set_time_lp := (LongPressUpdate s.set_time_lp (!inp.set_time_active)
                   inp.ticks_first th tol).2,
                 set_alarm_lp := (LongPressUpdate s.set_alarm_lp (!inp.set_alarm_active)
                   inp.ticks_second th tol).2 }
       if e.alarm_triggered = true then
         { b with mode := system_mode_t.MODE_ALARM_TRIGGERED, dots := { s.dots with d3 := 1 } }
       else if inp.accept_released = true then
         { b with clock := ClockEnableAlarm (some e), dots := { s.dots with d3 := 1 } }
       else if inp.cancel_released = true then
         { b with clock := ClockDisableAlarm (some e), dots := { s.dots with d3 := 0 } }
       else b) := by
    simp only [ButtonTask, hm, caseHome, refreshDigits, hc, ClockGetTime, hv, if_true,
      Option.getD_some, ht, ha, ClockIsAlarmTriggered, Bool.false_eq_true, if_false]
  rw [hstep]
  simp only [ClockIsAlarmTriggered, ClockEnableAlarm, ClockDisableAlarm, ClockIsAlarmEnabled,
    hv, if_true]
  refine ⟨?_, ?_, ?_, ?_⟩
  · split_ifs <;> rfl
  · split_ifs <;> rfl
  · intro h
    simp only [h, if_true, hc, and_self]
  · intro h
    simp only [h, Bool.false_eq_true, if_false]
    refine ⟨?_, ?_, ?_, ?_⟩
    · split_ifs <;> exact hm
    · intro h1
      simp only [h1, if_true, and_self]
    · intro h1 h2
      simp only [h1, h2, Bool.false_eq_true, if_false, if_true, and_self]
    · intro h1 h2
      simp only [h1, h2, Bool.false_eq_true, if_false, hc, and_self]

theorem C35_home_step_witness :
    (ButtonTask 3000 100 (acceptOnly 50) (sampleEdit system_mode_t.MODE_HOME
      system_mode_t.MODE_HOME (some sampleDisabled) 0 0)).digits
        = timeToDigits sampleDisabled.current_time ∧
    (ButtonTask 3000 100 (acceptOnly 50) (sampleEdit system_mode_t.MODE_HOME
      system_mode_t.MODE_HOME (some sampleDisabled) 0 0)).mode = system_mode_t.MODE_HOME ∧
    ClockIsAlarmEnabled (ButtonTask 3000 100 (acceptOnly 50) (sampleEdit
      system_mode_t.MODE_HOME system_mode_t.MODE_HOME (some sampleDisabled) 0 0)).clock
        = true :=
  ⟨(C35_home_step 3000 100 (acceptOnly 50) (sampleEdit system_mode_t.MODE_HOME
      system_mode_t.MODE_HOME (some sampleDisabled) 0 0) sampleDisabled rfl rfl (by decide)
      (by decide) (by decide)).1,
   ((C35_home_step 3000 100 (acceptOnly 50) (sampleEdit system_mode_t.MODE_HOME
      system_mode_t.MODE_HOME (some sampleDisabled) 0 0) sampleDisabled rfl rfl (by decide)
      (by decide) (by decide)).2.2.2 (by decide)).1,
   (((C35_home_step 3000 100 (acceptOnly 50) (sampleEdit system_mode_t.MODE_HOME
      system_mode_t.MODE_HOME (some sampleDisabled) 0 0) sampleDisabled rfl rfl (by decide)
      (by decide) (by decide)).2.2.2 (by decide)).2.1 (by decide)).2.1⟩

/-- C36: in `MODE_ALARM_TRIGGERED` over a clock holding a valid time, a cancel-release calls
`ClockCancelAlarmUntilNextDay` and an accept-release without cancel-release calls
`ClockSnoozeAlarm(clock, 5)`; either way the mode becomes `MODE_HOME`, `alarm_triggered` is
false afterwards and `alarm_enabled` and `alarm_time` are as before; after the accept the
snooze is active with target `hh:mm` + 5 minutes modulo 24 h, seconds 00; with neither event
the mode stays `MODE_ALARM_TRIGGERED` and the engine is untouched. -/
theorem C36_alarm_triggered_step (th tol : Nat) (inp : inputs_t) (s : main_t) (e : clock_s)
    (hm : s.mode = system_mode_t.MODE_ALARM_TRIGGERED) (hc : s.clock = some e)
    (hv : e.valid = true) (hT : IsValidTime (some e.current_time) = true) :
    (inp.cancel_released = true →
      (ButtonTask th tol inp s).mode = system_mode_t.MODE_HOME ∧
      (ButtonTask th tol inp s).clock = (ClockCancelAlarmUntilNextDay (some e)).2 ∧
      (ButtonTask th tol inp s).clock =
        some { e with alarm_triggered := false, snoozed_active := false } ∧
      ClockIsAlarmTriggered (ButtonTask th tol inp s).clock = false) ∧
    (inp.cancel_released = false → inp.accept_released = true →
      (ButtonTask th tol inp s).mode = system_mode_t.MODE_HOME ∧
      (ButtonTask th tol inp s).clock = (ClockSnoozeAlarm (some e) 5).2 ∧
      (ButtonTask th tol inp s).clock =
        some { e with
          alarm_triggered := false, snoozed_active := true,
          snoozed_time :=
            ofHMS ((60 * (e.current_time.hours1 * 10 + e.current_time.hours0)
                    + (e.current_time.minutes1 * 10 + e.current_time.minutes0) + 5) % 1440 / 60)
                  ((60 * (e.current_time.hours1 * 10 + e.current_time.hours0)
                    + (e.current_time.minutes1 * 10 + e.current_time.minutes0) + 5) % 1440 % 60)
                  0 } ∧
      ClockIsAlarmTriggered (ButtonTask th tol inp s).clock = false) ∧
    (inp.cancel_released = false → inp.accept_released = false →
      (ButtonTask th tol inp s).mode = system_mode_t.MODE_ALARM_TRIGGERED ∧
      (ButtonTask th tol inp s).clock = some e) ∧
    ClockIsAlarmEnabled (ButtonTask th tol inp s).clock = e.alarm_enabled ∧
    ClockGetAlarmTime (ButtonTask th tol inp s).clock (some zeroTime) =
      (true, some e.alarm_time) := by
  have hmode : ∀ u : main_t, (refreshDigits u).mode = u.mode ∧
      (refreshDigits u).clock = u.clock := by
    intro u
    simp only [refreshDigits]
    split_ifs <;> exact ⟨rfl, rfl⟩
  have hcancel : ClockCancelAlarmUntilNextDay (some e) =
      (true, some { e with alarm_triggered := false, snoozed_active := false }) := by
    simp [ClockCancelAlarmUntilNextDay, hv]
  have hsnooze := snooze_result e 5 (by omega) (by omega) hv hT
  by_cases h1 : inp.cancel_released = true
  · have hs : (ButtonTask th tol inp s).mode = system_mode_t.MODE_HOME ∧
        (ButtonTask th tol inp s).clock = (ClockCancelAlarmUntilNextDay (some e)).2 := by
      simp only [ButtonTask, hm, caseAlarmTriggered, h1, if_true, hmode, hc, and_self]
    rw [hs.2, hcancel]
    refine ⟨fun _ => ⟨hs.1, rfl, rfl, rfl⟩, fun h => ?_, fun h => ?_, rfl, rfl⟩
    · rw [h1] at h
      cases h
    · rw [h1] at h
      cases h
  · by_cases h2 : inp.accept_released = true
    · have hs : (ButtonTask th tol inp s).mode = system_mode_t.MODE_HOME ∧
          (ButtonTask th tol inp s).clock = (ClockSnoozeAlarm (some e) 5).2 := by
        simp only [ButtonTask, hm, caseAlarmTriggered, h1, h2, if_true, Bool.false_eq_true,
          if_false, hmode, hc, and_self]
      rw [hs.2, hsnooze]
      refine ⟨fun h => absurd h h1, fun _ _ => ⟨hs.1, rfl, rfl, rfl⟩, fun _ h => ?_, rfl, rfl⟩
      rw [h2] at h
      cases h
    · have hs : (ButtonTask th tol inp s).mode = system_mode_t.MODE_ALARM_TRIGGERED ∧
          (ButtonTask th tol inp s).clock = some e := by
        simp only [ButtonTask, hm, caseAlarmTriggered, h1, h2, Bool.false_eq_true, if_false,
          hmode, hc, hm, and_self]
      rw [hs.2]
      refine ⟨fun h => absurd h h1, fun _ h => absurd h h2, fun _ _ => ⟨hs.1, rfl⟩, rfl, rfl⟩

theorem C36_alarm_triggered_step_witness :
    (ButtonTask 3000 100 (acceptOnly 50) (sampleEdit system_mode_t.MODE_ALARM_TRIGGERED
      system_mode_t.MODE_HOME (some sampleRinging) 23 58)).mode = system_mode_t.MODE_HOME ∧
    (ButtonTask 3000 100 (acceptOnly 50) (sampleEdit system_mode_t.MODE_ALARM_TRIGGERED
      system_mode_t.MODE_HOME (some sampleRinging) 23 58)).clock =
        some { sampleRinging with alarm_triggered := false, snoozed_active := true,
                                  snoozed_time := ofHMS 0 3 0 } ∧
    (ButtonTask 3000 100 (cancelOnly 50) (sampleEdit system_mode_t.MODE_ALARM_TRIGGERED
      system_mode_t.MODE_HOME (some sampleRinging) 23 58)).clock =
        some { sampleRinging with alarm_triggered := false, snoozed_active := false } :=
  ⟨((C36_alarm_triggered_step 3000 100 (acceptOnly 50) (sampleEdit
      system_mode_t.MODE_ALARM_TRIGGERED system_mode_t.MODE_HOME (some sampleRinging) 23 58)
      sampleRinging rfl rfl (by decide) (by decide)).2.1 (by decide) (by decide)).1,
   ((C36_alarm_triggered_step 3000 100 (acceptOnly 50) (sampleEdit
      system_mode_t.MODE_ALARM_TRIGGERED system_mode_t.MODE_HOME (some sampleRinging) 23 58)
      sampleRinging rfl rfl (by decide) (by decide)).2.1 (by decide) (by decide)).2.2.1,
   ((C36_alarm_triggered_step 3000 100 (cancelOnly 50) (sampleEdit
      system_mode_t.MODE_ALARM_TRIGGERED system_mode_t.MODE_HOME (some sampleRinging) 23 58)
      sampleRinging rfl rfl (by decide) (by decide)).1 (by decide)).2.2.1⟩

/-! ## The UI: what every reachable state satisfies -/

theorem Op_run_isSome (o : Op) (self : Option clock_s) :
    (o.run self).isSome = self.isSome := by
  cases self with
  | none => rw [Op_run_none]
  | some e =>
    cases o with
    | SetTime t =>
      cases t with
      | none => rfl
      | some t => simp only [Op.run, ClockSetTime]; split_ifs <;> rfl
    | SetAlarmTime t =>
      cases t with
      | none => rfl
      | some t => simp only [Op.run, ClockSetAlarmTime]; split_ifs <;> rfl
    | NewTick => rfl
    | EnableAlarm => simp only [Op.run, ClockEnableAlarm]; split_ifs <;> rfl
    | DisableAlarm => simp only [Op.run, ClockDisableAlarm]; split_ifs <;> rfl
    | SnoozeAlarm m => simp only [Op.run, ClockSnoozeAlarm]; split_ifs <;> rfl
    | CancelAlarmUntilNextDay =>
      simp only [Op.run, ClockCancelAlarmUntilNextDay]; split_ifs <;> rfl

theorem runOps_isSome (ops : List Op) (self : Option clock_s) :
    (runOps ops self).isSome = self.isSome := by
  induction ops generalizing self with
  | nil => rfl
  | cons o ops ih =>
    show (runOps ops (o.run self)).isSome = self.isSome
    rw [ih, Op_run_isSome]

/-- Only a successful `ClockSetTime` changes whether the engine holds a valid time, and it
makes it valid. -/
theorem Op_run_clockValid (o : Op) (self : Option clock_s) :
    (clockValid self = true → clockValid (o.run self) = true) ∧
    ((∀ t, o ≠ Op.SetTime t) → clockValid (o.run self) = clockValid self) := by
  cases self with
  | none => rw [Op_run_none]; exact ⟨fun h => h, fun _ => rfl⟩
  | some e =>
    cases o with
    | SetTime t =>
      refine ⟨?_, fun h => absurd rfl (h t)⟩
      cases t with
      | none => exact fun h => h
      | some t =>
        simp only [Op.run, ClockSetTime]
        split_ifs
        · exact fun h => h
        · exact fun _ => rfl
    | SetAlarmTime t =>
      cases t with
      | none => exact ⟨fun h => h, fun _ => rfl⟩
      | some t =>
        simp only [Op.run, ClockSetAlarmTime]
        split_ifs <;> exact ⟨fun h => h, fun _ => rfl⟩
    | NewTick =>
      have h := (newTick_frame e).1
      refine ⟨fun h1 => ?_, fun _ => ?_⟩
      · show (newTick e).valid = true
        rw [h]
        exact h1
      · show (newTick e).valid = e.valid
        exact h
    | EnableAlarm =>
      simp only [Op.run, ClockEnableAlarm]
      split_ifs <;> exact ⟨fun h => h, fun _ => rfl⟩
    | DisableAlarm =>
      simp only [Op.run, ClockDisableAlarm]
      split_ifs <;> exact ⟨fun h => h, fun _ => rfl⟩
    | SnoozeAlarm m =>
      simp only [Op.run, ClockSnoozeAlarm]
      split_ifs <;> exact ⟨fun h => h, fun _ => rfl⟩
    | CancelAlarmUntilNextDay =>
      simp only [Op.run, ClockCancelAlarmUntilNextDay]
      split_ifs <;> exact ⟨fun h => h, fun _ => rfl⟩

theorem runOps_clockValid (ops : List Op) (self : Option clock_s)
    (h : clockValid self = true) : clockValid (runOps ops self) = true := by
  induction ops generalizing self with
  | nil => exact h
  | cons o ops ih => exact ih _ ((Op_run_clockValid o self).1 h)

theorem ClockSetTime_result (self : Option clock_s) (t : Option clock_time_t) :
    ((ClockSetTime self t).1 = true → clockValid (ClockSetTime self t).2 = true) ∧
    ((ClockSetTime self t).1 = false → (ClockSetTime self t).2 = self) := by
  cases self with
  | none => exact ⟨fun h => by simp [ClockSetTime] at h, fun _ => rfl⟩
  | some e =>
    cases t with
    | none => exact ⟨fun h => by simp [ClockSetTime] at h, fun _ => rfl⟩
    | some t =>
      simp only [ClockSetTime]
      split_ifs
      · exact ⟨fun h => by simp at h, fun _ => rfl⟩
      · exact ⟨fun _ => rfl, fun h => by simp at h⟩

theorem ClockSetAlarmTime_failed (self : Option clock_s) (t : Option clock_time_t)
    (h : (ClockSetAlarmTime self t).1 = false) : (ClockSetAlarmTime self t).2 = self := by
  cases self with
  | none => rfl
  | some e =>
    cases t with
    | none => rfl
    | some t =>
      simp only [ClockSetAlarmTime] at h ⊢
      split_ifs at h ⊢
      rfl

theorem timeToDigits_valid (t : clock_time_t) (h : IsValidTime (some t) = true) :
    validDigits (timeToDigits t) = true := by
  rw [IsValidTime_iff] at h
  rw [validDigits_iff]
  simp only [timeToDigits, clock_time_t.bcd]
  omega

theorem edit_valid (d : digits_t) (h : validDigits d = true) :
    validDigits (incMinutes d) = true ∧ validDigits (decMinutes d) = true ∧
    validDigits (incHours d) = true ∧ validDigits (decHours d) = true := by
  rw [incMinutes_eq, decMinutes_eq, incHours_eq, decHours_eq]
  simp only [validDigits_iff, hoursOf, minutesOf] at h ⊢
  refine ⟨?_, ?_, ?_, ?_⟩ <;> omega

theorem editHours_valid (inp : inputs_t) (d : digits_t) (h : validDigits d = true) :
    validDigits (editHours inp d) = true := by
  simp only [editHours]
  split_ifs <;>
    first
    | exact h
    | exact (edit_valid d h).2.2.1
    | exact (edit_valid d h).2.2.2
    | exact (edit_valid _ (edit_valid d h).2.2.1).2.2.2

theorem minutesBlocks_valid (inp : inputs_t) (s : main_t) (h : validDigits s.digits = true) :
    validDigits (timeMinutesBlocks inp s).digits = true ∧
    validDigits (alarmMinutesBlocks inp s).digits = true := by
  simp only [timeMinutesBlocks, alarmMinutesBlocks]
  refine ⟨?_, ?_⟩ <;> split_ifs <;>
    first
    | exact h
    | exact (edit_valid _ h).1
    | exact (edit_valid _ h).2.1
    | exact (edit_valid _ (edit_valid _ h).1).2.1

/-- The statement pair that shows the clock's time: only `current_time` and `digits` may
change, and the digits shown are valid when the stored times are. -/
theorem refreshDigits_frame (s : main_t) :
    (refreshDigits s).clock = s.clock ∧ (refreshDigits s).mode = s.mode ∧
    (refreshDigits s).last_state = s.last_state ∧ (refreshDigits s).dots = s.dots ∧
    (refreshDigits s).timeout = s.timeout ∧
    (refreshDigits s).timeout_counter = s.timeout_counter ∧
    (refreshDigits s).set_alarm_lp = s.set_alarm_lp ∧
    (refreshDigits s).set_time_lp = s.set_time_lp ∧
    (validDigits s.digits = true → StoredTimesValid s.clock →
      validDigits (refreshDigits s).digits = true) := by
  simp only [refreshDigits]
  split_ifs with h
  · refine ⟨rfl, rfl, rfl, rfl, rfl, rfl, rfl, rfl, fun _ hs => ?_⟩
    cases hc : s.clock with
    | none => rw [hc] at h; simp [ClockGetTime] at h
    | some e =>
      simp only [hc, ClockGetTime, Option.getD_some]
      exact timeToDigits_valid _ (hs e hc).1
  · exact ⟨rfl, rfl, rfl, rfl, rfl, rfl, rfl, rfl, fun hd _ => hd⟩

theorem loadAlarmDigits_frame (s : main_t) :
    (loadAlarmDigits s).clock = s.clock ∧ (loadAlarmDigits s).mode = s.mode ∧
    (loadAlarmDigits s).last_state = s.last_state ∧ (loadAlarmDigits s).dots = s.dots ∧
    (loadAlarmDigits s).timeout = s.timeout ∧
    (loadAlarmDigits s).timeout_counter = s.timeout_counter ∧
    (validDigits s.digits = true → StoredTimesValid s.clock →
      validDigits (loadAlarmDigits s).digits = true) ∧
    (∀ e, s.clock = some e → (loadAlarmDigits s).digits = timeToDigits e.alarm_time) := by
  simp only [loadAlarmDigits]
  split_ifs with h
  · refine ⟨rfl, rfl, rfl, rfl, rfl, rfl, fun _ hs => ?_, fun e he => ?_⟩
    · cases hc : s.clock with
      | none => rw [hc] at h; simp [ClockGetAlarmTime] at h
      | some e =>
        simp only [hc, ClockGetAlarmTime, Option.getD_some]
        exact timeToDigits_valid _ (hs e hc).2.1
    · simp only [he, ClockGetAlarmTime, Option.getD_some]
  · refine ⟨rfl, rfl, rfl, rfl, rfl, rfl, fun hd _ => hd, fun e he => ?_⟩
    rw [he] at h
    simp [ClockGetAlarmTime] at h

theorem caseUnset_frame (th tol : Nat) (inp : inputs_t) (s : main_t) :
    (caseUnset th tol inp s).clock = s.clock ∧
    (((caseUnset th tol inp s).mode = s.mode ∧
        (caseUnset th tol inp s).last_state = s.last_state) ∨
      (((caseUnset th tol inp s).mode = system_mode_t.MODE_SET_ALARM_MINUTES ∨
          (caseUnset th tol inp s).mode = system_mode_t.MODE_SET_TIME_MINUTES) ∧
        (caseUnset th tol inp s).last_state = system_mode_t.MODE_UNSET)) ∧
    (validDigits s.digits = true → StoredTimesValid s.clock →
      validDigits (caseUnset th tol inp s).digits = true) := by
  simp only [caseUnset]
  split_ifs with h1 h2
  · obtain ⟨f1, _, _, _, _, _, f7, _⟩ := loadAlarmDigits_frame
      { s with set_alarm_lp := (LongPressUpdate s.set_alarm_lp (!inp.set_alarm_active)
          inp.ticks_first th tol).2 }
    exact ⟨f1, Or.inr ⟨Or.inl rfl, rfl⟩, f7⟩
  · exact ⟨rfl, Or.inr ⟨Or.inr rfl, rfl⟩, fun h _ => h⟩
  · exact ⟨rfl, Or.inl ⟨rfl, rfl⟩, fun h _ => h⟩

theorem caseHome_frame (th tol : Nat) (inp : inputs_t) (s : main_t) :
    ((caseHome th tol inp s).clock = s.clock ∨
      (caseHome th tol inp s).clock = ClockEnableAlarm s.clock ∨
      (caseHome th tol inp s).clock = ClockDisableAlarm s.clock) ∧
    ((((caseHome th tol inp s).mode = s.mode ∨
          (caseHome th tol inp s).mode = system_mode_t.MODE_ALARM_TRIGGERED) ∧
        (caseHome th tol inp s).last_state = s.last_state) ∨
      (((caseHome th tol inp s).mode = system_mode_t.MODE_SET_ALARM_MINUTES ∨
          (caseHome th tol inp s).mode = system_mode_t.MODE_SET_TIME_MINUTES) ∧
        (caseHome th tol inp s).last_state = system_mode_t.MODE_HOME)) ∧
    (validDigits s.digits = true → StoredTimesValid s.clock →
      validDigits (caseHome th tol inp s).digits = true) := by
  obtain ⟨r1, r2, r3, _, _, _, _, _, r9⟩ := refreshDigits_frame s
  simp only [caseHome]
  split_ifs with h1 h2 h3 h4 h5
  · exact ⟨Or.inl r1, Or.inr ⟨Or.inr rfl, rfl⟩, r9⟩
  · obtain ⟨f1, _, _, _, _, _, f7, _⟩ := loadAlarmDigits_frame
      { refreshDigits s with
        set_time_lp := (LongPressUpdate (refreshDigits s).set_time_lp (!inp.set_time_active)
          inp.ticks_first th tol).2,
        set_alarm_lp := (LongPressUpdate (refreshDigits s).set_alarm_lp
          (!inp.set_alarm_active) inp.ticks_second th tol).2 }
    refine ⟨Or.inl (f1.trans r1), Or.inr ⟨Or.inl rfl, rfl⟩, fun hd hs => f7 (r9 hd hs) ?_⟩
    show StoredTimesValid (refreshDigits s).clock
    rw [r1]
    exact hs
  · exact ⟨Or.inl r1, Or.inl ⟨Or.inr rfl, r3⟩, r9⟩
  · refine ⟨Or.inr (Or.inl ?_), Or.inl ⟨Or.inl r2, r3⟩, r9⟩
    show ClockEnableAlarm (refreshDigits s).clock = ClockEnableAlarm s.clock
    rw [r1]
  · refine ⟨Or.inr (Or.inr ?_), Or.inl ⟨Or.inl r2, r3⟩, r9⟩
    show ClockDisableAlarm (refreshDigits s).clock = ClockDisableAlarm s.clock
    rw [r1]
  · exact ⟨Or.inl r1, Or.inl ⟨Or.inl r2, r3⟩, r9⟩

theorem cancelOrTimeout_mode (inp : inputs_t) (s : main_t) :
    (cancelOrTimeout inp s).mode = s.mode ∨
    (cancelOrTimeout inp s).mode =
      (if s.last_state = system_mode_t.MODE_UNSET then system_mode_t.MODE_UNSET
        else system_mode_t.MODE_HOME) := by
  simp only [cancelOrTimeout]
  split_ifs <;> simp

theorem acceptMinutes_frame (next : system_mode_t) (inp : inputs_t) (s : main_t) :
    (acceptMinutes next inp s).clock = s.clock ∧
    (acceptMinutes next inp s).last_state = s.last_state ∧
    (acceptMinutes next inp s).digits = s.digits ∧
    ((acceptMinutes next inp s).mode = s.mode ∨ (acceptMinutes next inp s).mode = next) := by
  simp only [acceptMinutes]
  split_ifs <;> simp

theorem minutes_case_frame (inp : inputs_t) (s : main_t) :
    ((caseSetTimeMinutes inp s).clock = s.clock ∧
      (caseSetTimeMinutes inp s).last_state = s.last_state ∧
      ((caseSetTimeMinutes inp s).mode = s.mode ∨
        (caseSetTimeMinutes inp s).mode =
          (if s.last_state = system_mode_t.MODE_UNSET then system_mode_t.MODE_UNSET
            else system_mode_t.MODE_HOME) ∨
        (caseSetTimeMinutes inp s).mode = system_mode_t.MODE_SET_TIME_HOURS) ∧
      (validDigits s.digits = true → validDigits (caseSetTimeMinutes inp s).digits = true)) ∧
    ((caseSetAlarmMinutes inp s).clock = s.clock ∧
      (caseSetAlarmMinutes inp s).last_state = s.last_state ∧
      ((caseSetAlarmMinutes inp s).mode = s.mode ∨
        (caseSetAlarmMinutes inp s).mode =
          (if s.last_state = system_mode_t.MODE_UNSET then system_mode_t.MODE_UNSET
            else system_mode_t.MODE_HOME) ∨
        (caseSetAlarmMinutes inp s).mode = system_mode_t.MODE_SET_ALARM_HOURS) ∧
      (validDigits s.digits = true → validDigits (caseSetAlarmMinutes inp s).digits = true)) := by
  obtain ⟨c1, c2, _, c4, _⟩ := cancelOrTimeout_frame inp s
  have c5 := cancelOrTimeout_mode inp s
  constructor
  · obtain ⟨b1, b2, b3, _⟩ := timeMinutesBlocks_frame inp (cancelOrTimeout inp s)
    obtain ⟨a1, a2, a3, a4⟩ := acceptMinutes_frame system_mode_t.MODE_SET_TIME_HOURS inp
      (timeMinutesBlocks inp (cancelOrTimeout inp s))
    simp only [caseSetTimeMinutes]
    refine ⟨by rw [a1, b1, c2], by rw [a2, b3, c4], ?_, fun h => ?_⟩
    · rcases a4 with a4 | a4
      · rw [a4, b2]
        rcases c5 with c5 | c5
        · exact Or.inl c5
        · exact Or.inr (Or.inl c5)
      · exact Or.inr (Or.inr a4)
    · rw [a3]
      exact (minutesBlocks_valid inp _ (by rw [c1]; exact h)).1
  · obtain ⟨b1, b2, b3, _⟩ := alarmMinutesBlocks_frame inp (cancelOrTimeout inp s)
    obtain ⟨a1, a2, a3, a4⟩ := acceptMinutes_frame system_mode_t.MODE_SET_ALARM_HOURS inp
      (alarmMinutesBlocks inp (cancelOrTimeout inp s))
    simp only [caseSetAlarmMinutes]
    refine ⟨by rw [a1, b1, c2], by rw [a2, b3, c4], ?_, fun h => ?_⟩
    · rcases a4 with a4 | a4
      · rw [a4, b2]
        rcases c5 with c5 | c5
        · exact Or.inl c5
        · exact Or.inr (Or.inl c5)
      · exact Or.inr (Or.inr a4)
    · rw [a3]
      exact (minutesBlocks_valid inp _ (by rw [c1]; exact h)).2

theorem acceptTimeHours_frame (inp : inputs_t) (s : main_t) :
    (acceptTimeHours inp s).digits = s.digits ∧
    (((acceptTimeHours inp s).clock = s.clock ∧
        (acceptTimeHours inp s).last_state = s.last_state ∧
        (acceptTimeHours inp s).mode = s.mode) ∨
      ((acceptTimeHours inp s).clock = (ClockSetTime s.clock (some (digitsToTime s.digits))).2 ∧
        (ClockSetTime s.clock (some (digitsToTime s.digits))).1 = true ∧
        (acceptTimeHours inp s).mode = system_mode_t.MODE_HOME ∧
        (acceptTimeHours inp s).last_state = system_mode_t.MODE_HOME)) := by
  simp only [acceptTimeHours]
  split_ifs with h1 h2
  · exact ⟨rfl, Or.inr ⟨rfl, h2, rfl, rfl⟩⟩
  · refine ⟨rfl, Or.inl ⟨?_, rfl, rfl⟩⟩
    exact (ClockSetTime_result _ _).2 (by simpa using h2)
  · exact ⟨rfl, Or.inl ⟨rfl, rfl, rfl⟩⟩

theorem caseSetTimeHours_frame (inp : inputs_t) (s : main_t) :
    (((caseSetTimeHours inp s).clock = s.clock ∧
        (caseSetTimeHours inp s).last_state = s.last_state ∧
        ((caseSetTimeHours inp s).mode = s.mode ∨
          (caseSetTimeHours inp s).mode =
            (if s.last_state = system_mode_t.MODE_UNSET then system_mode_t.MODE_UNSET
              else system_mode_t.MODE_HOME))) ∨
      ((caseSetTimeHours inp s).clock =
          (ClockSetTime s.clock (some (digitsToTime (editHours inp s.digits)))).2 ∧
        (ClockSetTime s.clock (some (digitsToTime (editHours inp s.digits)))).1 = true ∧
        (caseSetTimeHours inp s).mode = system_mode_t.MODE_HOME ∧
        (caseSetTimeHours inp s).last_state = system_mode_t.MODE_HOME)) ∧
    (validDigits s.digits = true → validDigits (caseSetTimeHours inp s).digits = true) := by
  obtain ⟨c1, c2, _, c4, _⟩ := cancelOrTimeout_frame inp s
  have c5 := cancelOrTimeout_mode inp s
  obtain ⟨b1, b2, b3, _, b5, _⟩ := hoursBlocks_frame inp (cancelOrTimeout inp s)
  obtain ⟨a1, a2⟩ := acceptTimeHours_frame inp (hoursBlocks inp (cancelOrTimeout inp s))
  simp only [caseSetTimeHours]
  refine ⟨?_, fun h => ?_⟩
  · rcases a2 with ⟨a3, a4, a5⟩ | ⟨a3, a4, a5, a6⟩
    · left
      refine ⟨by rw [a3, b1, c2], by rw [a4, b3, c4], ?_⟩
      rw [a5, b2]
      exact c5
    · right
      rw [b1, c2, b5, c1] at a3 a4
      exact ⟨a3, a4, a5, a6⟩
  · rw [a1, b5, c1]
    exact editHours_valid inp _ h

theorem acceptAlarmHours_frame (inp : inputs_t) (s : main_t) :
    (acceptAlarmHours inp s).last_state = s.last_state ∧
    (((acceptAlarmHours inp s).clock = s.clock ∧ (acceptAlarmHours inp s).mode = s.mode ∧
        (acceptAlarmHours inp s).digits = s.digits) ∨
      ((acceptAlarmHours inp s).clock =
          ClockEnableAlarm (ClockSetAlarmTime s.clock (some (digitsToTime s.digits))).2 ∧
        (acceptAlarmHours inp s).mode =
          (if s.last_state = system_mode_t.MODE_UNSET then system_mode_t.MODE_UNSET
            else system_mode_t.MODE_HOME) ∧
        ((acceptAlarmHours inp s).digits = s.digits ∨
          (acceptAlarmHours inp s).digits = { d0 := 0, d1 := 0, d2 := 0, d3 := 0 }))) := by
  simp only [acceptAlarmHours]
  by_cases h1 : inp.accept_released = true
  · simp only [if_pos h1]
    by_cases h2 : (ClockSetAlarmTime s.clock (some (digitsToTime s.digits))).1 = true
    · simp only [if_pos h2]
      by_cases h3 : s.last_state = system_mode_t.MODE_UNSET
      · simp [h3]
      · simp [h3]
    · simp only [if_neg h2]
      refine ⟨trivial, Or.inl ⟨?_, trivial, trivial⟩⟩
      exact ClockSetAlarmTime_failed _ _ (by simpa using h2)
  · simp only [if_neg h1]
    exact ⟨trivial, Or.inl ⟨trivial, trivial, trivial⟩⟩

theorem caseSetAlarmHours_frame (inp : inputs_t) (s : main_t) :
    (caseSetAlarmHours inp s).last_state = s.last_state ∧
    ((caseSetAlarmHours inp s).clock = s.clock ∨
      (caseSetAlarmHours inp s).clock = ClockEnableAlarm
        (ClockSetAlarmTime s.clock (some (digitsToTime (editHours inp s.digits)))).2) ∧
    ((caseSetAlarmHours inp s).mode = s.mode ∨
      (caseSetAlarmHours inp s).mode =
        (if s.last_state = system_mode_t.MODE_UNSET then system_mode_t.MODE_UNSET
          else system_mode_t.MODE_HOME)) ∧
    (validDigits s.digits = true → validDigits (caseSetAlarmHours inp s).digits = true) := by
  obtain ⟨c1, c2, _, c4, _⟩ := cancelOrTimeout_frame inp s
  have c5 := cancelOrTimeout_mode inp s
  obtain ⟨b1, b2, b3, _, b5, _⟩ := hoursBlocks_frame inp (cancelOrTimeout inp s)
  obtain ⟨a1, a2⟩ := acceptAlarmHours_frame inp (hoursBlocks inp (cancelOrTimeout inp s))
  simp only [caseSetAlarmHours]
  rw [b3, c4] at a1 a2
  rw [b1, c2, b2, b5, c1] at a2
  refine ⟨a1, ?_, ?_, fun h => ?_⟩
  · rcases a2 with ⟨a3, _, _⟩ | ⟨a3, _, _⟩
    · exact Or.inl a3
    · exact Or.inr a3
  · rcases a2 with ⟨_, a4, _⟩ | ⟨_, a4, _⟩
    · rw [a4]
      exact c5
    · exact Or.inr a4
  · have hv := editHours_valid inp _ h
    rcases a2 with ⟨_, _, a5⟩ | ⟨_, _, a5 | a5⟩
    · rw [a5]; exact hv
    · rw [a5]; exact hv
    · rw [a5]; rfl

theorem caseAlarmTriggered_frame (inp : inputs_t) (s : main_t) :
    (caseAlarmTriggered inp s).last_state = s.last_state ∧
    ((caseAlarmTriggered inp s).clock = s.clock ∨
      (caseAlarmTriggered inp s).clock = (ClockCancelAlarmUntilNextDay s.clock).2 ∨
      (caseAlarmTriggered inp s).clock = (ClockSnoozeAlarm s.clock 5).2) ∧
    ((caseAlarmTriggered inp s).mode = s.mode ∨
      (caseAlarmTriggered inp s).mode = system_mode_t.MODE_HOME) ∧
    (validDigits s.digits = true → StoredTimesValid s.clock →
      validDigits (caseAlarmTriggered inp s).digits = true) := by
  simp only [caseAlarmTriggered]
  split_ifs with h1 h2
  · obtain ⟨r1, r2, r3, _, _, _, _, _, r9⟩ := refreshDigits_frame
      { s with clock := (ClockCancelAlarmUntilNextDay s.clock).2,
               mode := system_mode_t.MODE_HOME }
    exact ⟨r3, Or.inr (Or.inl r1), Or.inr r2,
      fun hd hs => r9 hd (Op_run_StoredTimesValid Op.CancelAlarmUntilNextDay _ hs)⟩
  · obtain ⟨r1, r2, r3, _, _, _, _, _, r9⟩ := refreshDigits_frame
      { s with clock := (ClockSnoozeAlarm s.clock 5).2, mode := system_mode_t.MODE_HOME }
    exact ⟨r3, Or.inr (Or.inr r1), Or.inr r2,
      fun hd hs => r9 hd (Op_run_StoredTimesValid (Op.SnoozeAlarm 5) _ hs)⟩
  · obtain ⟨r1, r2, r3, _, _, _, _, _, r9⟩ := refreshDigits_frame s
    exact ⟨r3, Or.inl r1, Or.inl r2, r9⟩

theorem tasks_frame (s : main_t) :
    ((ClockTask s).clock = ClockNewTick s.clock ∧ (ClockTask s).mode = s.mode ∧
      (ClockTask s).last_state = s.last_state ∧ (ClockTask s).digits = s.digits ∧
      (ClockTask s).dots = s.dots ∧ (ClockTask s).timeout = s.timeout ∧
      (ClockTask s).timeout_counter = s.timeout_counter) ∧
    ((TimeOutTask s).clock = s.clock ∧ (TimeOutTask s).mode = s.mode ∧
      (TimeOutTask s).last_state = s.last_state ∧ (TimeOutTask s).digits = s.digits ∧
      (TimeOutTask s).dots = s.dots) ∧
    ((DotBlinkTask s).clock = s.clock ∧ (DotBlinkTask s).mode = s.mode ∧
      (DotBlinkTask s).last_state = s.last_state ∧ (DotBlinkTask s).digits = s.digits ∧
      (DotBlinkTask s).dots.d3 = s.dots.d3 ∧ (DotBlinkTask s).timeout = s.timeout ∧
      (DotBlinkTask s).timeout_counter = s.timeout_counter) := by
  refine ⟨⟨rfl, rfl, rfl, rfl, rfl, rfl, rfl⟩, ?_, ?_⟩
  · simp only [TimeOutTask]
    split_ifs <;> exact ⟨rfl, rfl, rfl, rfl, rfl⟩
  · simp only [DotBlinkTask]
    split_ifs <;> exact ⟨rfl, rfl, rfl, rfl, rfl, rfl, rfl⟩

/-- A step that keeps `last_state` and the validity of the engine, and either keeps the mode,
ends in an editing mode, goes back to the mode `last_state` names, or moves between
`MODE_HOME` and `MODE_ALARM_TRIGGERED`, keeps the invariant. -/
theorem modeInvariant_of_frame (s u : main_t) (h : modeInvariant s)
    (hl : u.last_state = s.last_state) (hc : clockValid u.clock = clockValid s.clock)
    (hm : u.mode = s.mode ∨ isEditing u.mode = true ∨
      u.mode = (if s.last_state = system_mode_t.MODE_UNSET then system_mode_t.MODE_UNSET
        else system_mode_t.MODE_HOME) ∨
      (u.mode = system_mode_t.MODE_ALARM_TRIGGERED ∧ s.mode = system_mode_t.MODE_HOME) ∨
      (u.mode = system_mode_t.MODE_HOME ∧ s.mode = system_mode_t.MODE_ALARM_TRIGGERED)) :
    modeInvariant u := by
  simp only [modeInvariant, hl, hc]
  simp only [isEditing, decide_eq_true_eq] at hm
  rcases h with ⟨h1, h2, h3, h4⟩ | ⟨h1, h2, h3⟩
  · left
    refine ⟨h1, h2, ?_, ?_⟩
    · rcases hm with hm | hm | hm | hm | hm
      · rw [hm]; exact h3
      · rcases hm with hm | hm | hm | hm <;> simp [hm]
      · simp [hm, h1]
      · exact absurd hm.2 h3
      · exact absurd hm.2 h4
    · rcases hm with hm | hm | hm | hm | hm
      · rw [hm]; exact h4
      · rcases hm with hm | hm | hm | hm <;> simp [hm]
      · simp [hm, h1]
      · exact absurd hm.2 h3
      · exact absurd hm.2 h4
  · right
    refine ⟨h1, h2, ?_⟩
    rcases hm with hm | hm | hm | hm | hm
    · rw [hm]; exact h3
    · rcases hm with hm | hm | hm | hm <;> simp [hm]
    · simp [hm, h1]
    · simp [hm.1]
    · simp [hm.1]

theorem clockValid_frame (c : Option clock_s) (t : Option clock_time_t) (m : Nat) :
    clockValid (ClockEnableAlarm c) = clockValid c ∧
    clockValid (ClockDisableAlarm c) = clockValid c ∧
    clockValid (ClockNewTick c) = clockValid c ∧
    clockValid (ClockSetAlarmTime c t).2 = clockValid c ∧
    clockValid (ClockSnoozeAlarm c m).2 = clockValid c ∧
    clockValid (ClockCancelAlarmUntilNextDay c).2 = clockValid c :=
  ⟨(Op_run_clockValid Op.EnableAlarm c).2 (fun _ h => by cases h),
   (Op_run_clockValid Op.DisableAlarm c).2 (fun _ h => by cases h),
   (Op_run_clockValid Op.NewTick c).2 (fun _ h => by cases h),
   (Op_run_clockValid (Op.SetAlarmTime t) c).2 (fun _ h => by cases h),
   (Op_run_clockValid (Op.SnoozeAlarm m) c).2 (fun _ h => by cases h),
   (Op_run_clockValid Op.CancelAlarmUntilNextDay c).2 (fun _ h => by cases h)⟩

theorem ButtonTask_modeInvariant (th tol : Nat) (inp : inputs_t) (s : main_t)
    (h : modeInvariant s) : modeInvariant (ButtonTask th tol inp s) := by
  cases hmode : s.mode with
  | MODE_UNSET =>
    simp only [ButtonTask, hmode]
    obtain ⟨f1, f2, _⟩ := caseUnset_frame th tol inp s
    rcases f2 with ⟨f2, f3⟩ | ⟨f2, f3⟩
    · exact modeInvariant_of_frame s _ h f3 (by rw [f1]) (Or.inl f2)
    · rcases h with ⟨_, h2, _, _⟩ | ⟨_, _, h3⟩
      · left
        refine ⟨f3, by rw [f1]; exact h2, ?_, ?_⟩ <;> rcases f2 with f2 | f2 <;> simp [f2]
      · exact absurd hmode h3
  | MODE_HOME =>
    simp only [ButtonTask, hmode]
    obtain ⟨f1, f2, _⟩ := caseHome_frame th tol inp s
    obtain ⟨v1, v2, _⟩ := clockValid_frame s.clock none 0
    have hc : clockValid (caseHome th tol inp s).clock = clockValid s.clock := by
      rcases f1 with f1 | f1 | f1 <;> rw [f1]
      · exact v1
      · exact v2
    rcases f2 with ⟨f2, f3⟩ | ⟨f2, f3⟩
    · refine modeInvariant_of_frame s _ h f3 hc ?_
      rcases f2 with f2 | f2
      · exact Or.inl f2
      · exact Or.inr (Or.inr (Or.inr (Or.inl ⟨f2, hmode⟩)))
    · rcases h with ⟨_, _, h3, _⟩ | ⟨_, h2, _⟩
      · exact absurd hmode h3
      · right
        refine ⟨f3, by rw [hc]; exact h2, ?_⟩
        rcases f2 with f2 | f2 <;> simp [f2]
  | MODE_SET_TIME_MINUTES =>
    simp only [ButtonTask, hmode]
    obtain ⟨⟨f1, f2, f3, _⟩, _⟩ := minutes_case_frame inp s
    refine modeInvariant_of_frame s _ h f2 (by rw [f1]) ?_
    rcases f3 with f3 | f3 | f3
    · exact Or.inl f3
    · exact Or.inr (Or.inr (Or.inl f3))
    · exact Or.inr (Or.inl (by rw [f3]; rfl))
  | MODE_SET_ALARM_MINUTES =>
    simp only [ButtonTask, hmode]
    obtain ⟨_, f1, f2, f3, _⟩ := minutes_case_frame inp s
    refine modeInvariant_of_frame s _ h f2 (by rw [f1]) ?_
    rcases f3 with f3 | f3 | f3
    · exact Or.inl f3
    · exact Or.inr (Or.inr (Or.inl f3))
    · exact Or.inr (Or.inl (by rw [f3]; rfl))
  | MODE_SET_TIME_HOURS =>
    simp only [ButtonTask, hmode]
    obtain ⟨f, _⟩ := caseSetTimeHours_frame inp s
    rcases f with ⟨f1, f2, f3⟩ | ⟨f1, f2, f3, f4⟩
    · refine modeInvariant_of_frame s _ h f2 (by rw [f1]) ?_
      rcases f3 with f3 | f3
      · exact Or.inl f3
      · exact Or.inr (Or.inr (Or.inl f3))
    · right
      refine ⟨f4, ?_, by simp [f3]⟩
      rw [f1]
      exact (ClockSetTime_result _ _).1 f2
  | MODE_SET_ALARM_HOURS =>
    simp only [ButtonTask, hmode]
    obtain ⟨f1, f2, f3, _⟩ := caseSetAlarmHours_frame inp s
    obtain ⟨v1, _, _, _, _, _⟩ := clockValid_frame
      (ClockSetAlarmTime s.clock (some (digitsToTime (editHours inp s.digits)))).2 none 0
    obtain ⟨_, _, _, v4, _, _⟩ := clockValid_frame s.clock
      (some (digitsToTime (editHours inp s.digits))) 0
    refine modeInvariant_of_frame s _ h f1 ?_ ?_
    · rcases f2 with f2 | f2 <;> rw [f2]
      rw [v1, v4]
    · rcases f3 with f3 | f3
      · exact Or.inl f3
      · exact Or.inr (Or.inr (Or.inl f3))
  | MODE_ALARM_TRIGGERED =>
    simp only [ButtonTask, hmode]
    obtain ⟨f1, f2, f3, _⟩ := caseAlarmTriggered_frame inp s
    obtain ⟨_, _, _, _, v5, v6⟩ := clockValid_frame s.clock none 5
    refine modeInvariant_of_frame s _ h f1 ?_ ?_
    · rcases f2 with f2 | f2 | f2 <;> rw [f2]
      · exact v6
      · exact v5
    · rcases f3 with f3 | f3
      · exact Or.inl f3
      · exact Or.inr (Or.inr (Or.inr (Or.inr ⟨f3, hmode⟩)))

theorem step_modeInvariant (th tol : Nat) (st : step_t) (s : main_t)
    (h : modeInvariant s) : modeInvariant (st.run th tol s) := by
  obtain ⟨⟨a1, a2, a3, _⟩, ⟨b1, b2, b3, _⟩, ⟨c1, c2, c3, _⟩⟩ := tasks_frame s
  cases st with
  | button inp => exact ButtonTask_modeInvariant th tol inp s h
  | clockTick =>
    exact modeInvariant_of_frame s _ h a3
      (by show clockValid (ClockTask s).clock = _
          rw [a1]; exact (clockValid_frame s.clock none 0).2.2.1) (Or.inl a2)
  | timeOut =>
    exact modeInvariant_of_frame s _ h b3
      (by show clockValid (TimeOutTask s).clock = _
          rw [b1]) (Or.inl b2)
  | dotBlink =>
    exact modeInvariant_of_frame s _ h c3
      (by show clockValid (DotBlinkTask s).clock = _
          rw [c1]) (Or.inl c2)

theorem runSteps_induction (P : main_t → Prop) (th tol : Nat)
    (hstep : ∀ st s, P s → P (step_t.run th tol st s)) (steps : List step_t) (s : main_t)
    (h : P s) : P (runSteps th tol steps s) := by
  induction steps generalizing s with
  | nil => exact h
  | cons st steps ih => exact ih _ (hstep st s h)

theorem mainInit_modeInvariant (malloc_ok : Bool) : modeInvariant (mainInit malloc_ok) := by
  left
  refine ⟨rfl, ?_, by simp [mainInit], by simp [mainInit]⟩
  cases malloc_ok <;> rfl

theorem runSteps_modeInvariant (malloc_ok : Bool) (th tol : Nat) (steps : List step_t) :
    modeInvariant (runSteps th tol steps (mainInit malloc_ok)) :=
  runSteps_induction modeInvariant th tol (step_modeInvariant th tol) steps _
    (mainInit_modeInvariant malloc_ok)

/-- Whatever a step does to the engine is a sequence of calls of `clock.h`. -/
theorem step_clock (th tol : Nat) (st : step_t) (s : main_t) :
    ∃ ops, (st.run th tol s).clock = runOps ops s.clock := by
  obtain ⟨⟨a1, _⟩, ⟨b1, _⟩, ⟨c1, _⟩⟩ := tasks_frame s
  cases st with
  | clockTick => exact ⟨[Op.NewTick], a1⟩
  | timeOut => exact ⟨[], b1⟩
  | dotBlink => exact ⟨[], c1⟩
  | button inp =>
    show ∃ ops, (ButtonTask th tol inp s).clock = runOps ops s.clock
    cases hmode : s.mode with
    | MODE_UNSET =>
      simp only [ButtonTask, hmode]
      exact ⟨[], (caseUnset_frame th tol inp s).1⟩
    | MODE_HOME =>
      simp only [ButtonTask, hmode]
      rcases (caseHome_frame th tol inp s).1 with f | f | f
      · exact ⟨[], f⟩
      · exact ⟨[Op.EnableAlarm], f⟩
      · exact ⟨[Op.DisableAlarm], f⟩
    | MODE_SET_TIME_MINUTES =>
      simp only [ButtonTask, hmode]
      exact ⟨[], (minutes_case_frame inp s).1.1⟩
    | MODE_SET_ALARM_MINUTES =>
      simp only [ButtonTask, hmode]
      exact ⟨[], (minutes_case_frame inp s).2.1⟩
    | MODE_SET_TIME_HOURS =>
      simp only [ButtonTask, hmode]
      rcases (caseSetTimeHours_frame inp s).1 with f | f
      · exact ⟨[], f.1⟩
      · exact ⟨[Op.SetTime (some (digitsToTime (editHours inp s.digits)))], f.1⟩
    | MODE_SET_ALARM_HOURS =>
      simp only [ButtonTask, hmode]
      rcases (caseSetAlarmHours_frame inp s).2.1 with f | f
      · exact ⟨[], f⟩
      · exact ⟨[Op.SetAlarmTime (some (digitsToTime (editHours inp s.digits))),
          Op.EnableAlarm], f⟩
    | MODE_ALARM_TRIGGERED =>
      simp only [ButtonTask, hmode]
      rcases (caseAlarmTriggered_frame inp s).2.1 with f | f | f
      · exact ⟨[], f⟩
      · exact ⟨[Op.CancelAlarmUntilNextDay], f⟩
      · exact ⟨[Op.SnoozeAlarm 5], f⟩

theorem step_digits (th tol : Nat) (st : step_t) (s : main_t)
    (hd : validDigits s.digits = true) (hs : StoredTimesValid s.clock) :
    validDigits (st.run th tol s).digits = true := by
  obtain ⟨⟨_, _, _, a4, _⟩, ⟨_, _, _, b4, _⟩, ⟨_, _, _, c4, _⟩⟩ := tasks_frame s
  cases st with
  | clockTick => show validDigits (ClockTask s).digits = true; rw [a4]; exact hd
  | timeOut => show validDigits (TimeOutTask s).digits = true; rw [b4]; exact hd
  | dotBlink => show validDigits (DotBlinkTask s).digits = true; rw [c4]; exact hd
  | button inp =>
    show validDigits (ButtonTask th tol inp s).digits = true
    cases hmode : s.mode with
    | MODE_UNSET =>
      simp only [ButtonTask, hmode]
      exact (caseUnset_frame th tol inp s).2.2 hd hs
    | MODE_HOME =>
      simp only [ButtonTask, hmode]
      exact (caseHome_frame th tol inp s).2.2 hd hs
    | MODE_SET_TIME_MINUTES =>
      simp only [ButtonTask, hmode]
      exact (minutes_case_frame inp s).1.2.2.2 hd
    | MODE_SET_ALARM_MINUTES =>
      simp only [ButtonTask, hmode]
      exact (minutes_case_frame inp s).2.2.2.2 hd
    | MODE_SET_TIME_HOURS =>
      simp only [ButtonTask, hmode]
      exact (caseSetTimeHours_frame inp s).2 hd
    | MODE_SET_ALARM_HOURS =>
      simp only [ButtonTask, hmode]
      exact (caseSetAlarmHours_frame inp s).2.2.2 hd
    | MODE_ALARM_TRIGGERED =>
      simp only [ButtonTask, hmode]
      exact (caseAlarmTriggered_frame inp s).2.2.2 hd hs

/-- In every state reached from the initial one the digit buffer holds a valid `hh:mm`, the
stored times of the engine pass validation, and the engine is there when `malloc` gave
one. -/
theorem runSteps_data (malloc_ok : Bool) (th tol : Nat) (steps : List step_t) :
    validDigits (runSteps th tol steps (mainInit malloc_ok)).digits = true ∧
    StoredTimesValid (runSteps th tol steps (mainInit malloc_ok)).clock ∧
    (runSteps th tol steps (mainInit malloc_ok)).clock.isSome = malloc_ok := by
  refine runSteps_induction
    (fun s => validDigits s.digits = true ∧ StoredTimesValid s.clock ∧
      s.clock.isSome = malloc_ok) th tol ?_ steps _ ?_
  · intro st s ⟨h1, h2, h3⟩
    obtain ⟨ops, hops⟩ := step_clock th tol st s
    refine ⟨step_digits th tol st s h1 h2, ?_, ?_⟩
    · rw [hops]
      exact runOps_StoredTimesValid ops _ h2
    · rw [hops, runOps_isSome]
      exact h3
  · refine ⟨rfl, ?_, ?_⟩
    · show StoredTimesValid (ClockCreate malloc_ok 1000)
      exact ClockCreate_StoredTimesValid _ _
    · cases malloc_ok <;> rfl

/-- Once the engine holds a valid time it keeps one. -/
theorem runSteps_clockValid (th tol : Nat) (steps : List step_t) (s : main_t)
    (h : clockValid s.clock = true) : clockValid (runSteps th tol steps s).clock = true := by
  refine runSteps_induction (fun s => clockValid s.clock = true) th tol ?_ steps s h
  intro st s hs
  obtain ⟨ops, hops⟩ := step_clock th tol st s
  rw [hops]
  exact runOps_clockValid ops _ hs

theorem runSteps_append (th tol : Nat) (xs ys : List step_t) (s : main_t) :
    runSteps th tol (xs ++ ys) s = runSteps th tol ys (runSteps th tol xs s) := by
  simp only [runSteps, List.foldl_append]

/-- C37: over a clock that exists. In `MODE_UNSET` the set-alarm detector is polled first: when
it reports a long press the digits become tens and units of the hours, tens and units of the
minutes of the stored alarm time and the mode becomes `MODE_SET_ALARM_MINUTES`; when it does not and the set-time detector does, the mode
becomes `MODE_SET_TIME_MINUTES`. In `MODE_HOME` the set-time detector is polled first and
leads to `MODE_SET_TIME_MINUTES`; when it does not fire and the set-alarm detector does, the
digits become those four digits of the alarm time and the mode becomes
`MODE_SET_ALARM_MINUTES`. Each time `last_state`
becomes the mode the pass started in and the engine is as before. In every state reached from
the initial one `last_state` is `MODE_UNSET` or `MODE_HOME`. -/
theorem C37_long_press_transitions (th tol : Nat) (inp : inputs_t) (s : main_t) (e : clock_s)
    (hc : s.clock = some e) :
    (s.mode = system_mode_t.MODE_UNSET →
      ((LongPressUpdate s.set_alarm_lp (!inp.set_alarm_active) inp.ticks_first th tol).1
          = true →
        (ButtonTask th tol inp s).mode = system_mode_t.MODE_SET_ALARM_MINUTES ∧
        (ButtonTask th tol inp s).digits = timeToDigits e.alarm_time ∧
        (ButtonTask th tol inp s).digits =
          { d0 := e.alarm_time.hours1, d1 := e.alarm_time.hours0,
            d2 := e.alarm_time.minutes1, d3 := e.alarm_time.minutes0 } ∧
        (ButtonTask th tol inp s).last_state = system_mode_t.MODE_UNSET ∧
        (ButtonTask th tol inp s).clock = s.clock) ∧
      ((LongPressUpdate s.set_alarm_lp (!inp.set_alarm_active) inp.ticks_first th tol).1
          = false →
        (LongPressUpdate s.set_time_lp (!inp.set_time_active) inp.ticks_second th tol).1
          = true →
        (ButtonTask th tol inp s).mode = system_mode_t.MODE_SET_TIME_MINUTES ∧
        (ButtonTask th tol inp s).last_state = system_mode_t.MODE_UNSET ∧
        (ButtonTask th tol inp s).clock = s.clock)) ∧
    (s.mode = system_mode_t.MODE_HOME →
      ((LongPressUpdate s.set_time_lp (!inp.set_time_active) inp.ticks_first th tol).1
          = true →
        (ButtonTask th tol inp s).mode = system_mode_t.MODE_SET_TIME_MINUTES ∧
        (ButtonTask th tol inp s).last_state = system_mode_t.MODE_HOME ∧
        (ButtonTask th tol inp s).clock = s.clock) ∧
      ((LongPressUpdate s.set_time_lp (!inp.set_time_active) inp.ticks_first th tol).1
          = false →
        (LongPressUpdate s.set_alarm_lp (!inp.set_alarm_active) inp.ticks_second th tol).1
          = true →
        (ButtonTask th tol inp s).mode = system_mode_t.MODE_SET_ALARM_MINUTES ∧
        (ButtonTask th tol inp s).digits = timeToDigits e.alarm_time ∧
        (ButtonTask th tol inp s).digits =
          { d0 := e.alarm_time.hours1, d1 := e.alarm_time.hours0,
            d2 := e.alarm_time.minutes1, d3 := e.alarm_time.minutes0 } ∧
        (ButtonTask th tol inp s).last_state = system_mode_t.MODE_HOME ∧
        (ButtonTask th tol inp s).clock = s.clock)) ∧
    (∀ (malloc_ok : Bool) (steps : List step_t),
      (runSteps th tol steps (mainInit malloc_ok)).last_state = system_mode_t.MODE_UNSET ∨
      (runSteps th tol steps (mainInit malloc_ok)).last_state = system_mode_t.MODE_HOME) := by
  refine ⟨fun hm => ⟨fun h1 => ?_, fun h1 h2 => ?_⟩, fun hm => ⟨fun h1 => ?_, fun h1 h2 => ?_⟩,
    fun malloc_ok steps => ?_⟩
  · simp only [ButtonTask, hm, caseUnset, if_pos h1]
    exact ⟨trivial, (loadAlarmDigits_frame _).2.2.2.2.2.2.2 e hc,
      (loadAlarmDigits_frame _).2.2.2.2.2.2.2 e hc, trivial, (loadAlarmDigits_frame _).1⟩
  · have h1n : ¬ ((LongPressUpdate s.set_alarm_lp (!inp.set_alarm_active) inp.ticks_first
        th tol).1 = true) := by rw [h1]; simp
    simp only [ButtonTask, hm, caseUnset, if_neg h1n, if_pos h2, and_self]
  · obtain ⟨_, _, _, _, _, _, _, r8, _⟩ := refreshDigits_frame s
    obtain ⟨r1, _⟩ := refreshDigits_frame s
    simp only [ButtonTask, hm, caseHome, r8, if_pos h1]
    exact ⟨trivial, trivial, r1⟩
  · obtain ⟨r1, _, _, _, _, _, r7, r8, _⟩ := refreshDigits_frame s
    have h1n : ¬ ((LongPressUpdate s.set_time_lp (!inp.set_time_active) inp.ticks_first
        th tol).1 = true) := by rw [h1]; simp
    simp only [ButtonTask, hm, caseHome, r7, r8, if_neg h1n, if_pos h2]
    exact ⟨trivial, (loadAlarmDigits_frame _).2.2.2.2.2.2.2 e (r1.trans hc),
      (loadAlarmDigits_frame _).2.2.2.2.2.2.2 e (r1.trans hc), trivial,
      ((loadAlarmDigits_frame _).1).trans r1⟩
  · rcases runSteps_modeInvariant malloc_ok th tol steps with h | h
    · exact Or.inl h.1
    · exact Or.inr h.1

/-- C37 on four passes. In `MODE_HOME` over an engine at 23:59:00 with alarm time 00:01:00:
a set-time hold polled at ticks 1 and 3001 enters `MODE_SET_TIME_MINUTES`, and a set-alarm
hold polled at ticks 1 and 3001 enters `MODE_SET_ALARM_MINUTES` showing 00:01. In `MODE_UNSET`
over an engine with alarm time 07:15:00 the set-alarm hold enters `MODE_SET_ALARM_MINUTES`
showing 07:15 with `last_state` `MODE_UNSET`. -/
theorem C37_long_press_transitions_witness :
    (ButtonTask 3000 100 (holdSetTime 1) (sampleEdit system_mode_t.MODE_HOME
      system_mode_t.MODE_HOME (some sampleMidnight) 6 30)).clock = some sampleMidnight ∧
    (ButtonTask 3000 100 (holdSetTime 3001) (ButtonTask 3000 100 (holdSetTime 1)
      (sampleEdit system_mode_t.MODE_HOME system_mode_t.MODE_HOME (some sampleMidnight)
        6 30))).mode = system_mode_t.MODE_SET_TIME_MINUTES ∧
    (ButtonTask 3000 100 (holdSetTime 3001) (ButtonTask 3000 100 (holdSetTime 1)
      (sampleEdit system_mode_t.MODE_HOME system_mode_t.MODE_HOME (some sampleMidnight)
        6 30))).last_state = system_mode_t.MODE_HOME ∧
    (ButtonTask 3000 100 (holdSetAlarm 3001) (ButtonTask 3000 100 (holdSetAlarm 1)
      (sampleEdit system_mode_t.MODE_HOME system_mode_t.MODE_HOME (some sampleMidnight)
        6 30))).mode = system_mode_t.MODE_SET_ALARM_MINUTES ∧
    (ButtonTask 3000 100 (holdSetAlarm 3001) (ButtonTask 3000 100 (holdSetAlarm 1)
      (sampleEdit system_mode_t.MODE_HOME system_mode_t.MODE_HOME (some sampleMidnight)
        6 30))).digits = { d0 := 0, d1 := 0, d2 := 0, d3 := 1 } ∧
    (ButtonTask 3000 100 (holdSetAlarm 3001) (ButtonTask 3000 100 (holdSetAlarm 1)
      (sampleEdit system_mode_t.MODE_UNSET system_mode_t.MODE_UNSET (some sampleUnset)
        0 0))).digits = { d0 := 0, d1 := 7, d2 := 1, d3 := 5 } ∧
    (ButtonTask 3000 100 (holdSetAlarm 3001) (ButtonTask 3000 100 (holdSetAlarm 1)
      (sampleEdit system_mode_t.MODE_UNSET system_mode_t.MODE_UNSET (some sampleUnset)
        0 0))).last_state = system_mode_t.MODE_UNSET :=
  ⟨by decide,
   (((C37_long_press_transitions 3000 100 (holdSetTime 3001) (ButtonTask 3000 100
      (holdSetTime 1) (sampleEdit system_mode_t.MODE_HOME system_mode_t.MODE_HOME
        (some sampleMidnight) 6 30)) sampleMidnight (by decide)).2.1 (by decide)).1
          (by decide)).1,
   (((C37_long_press_transitions 3000 100 (holdSetTime 3001) (ButtonTask 3000 100
      (holdSetTime 1) (sampleEdit system_mode_t.MODE_HOME system_mode_t.MODE_HOME
        (some sampleMidnight) 6 30)) sampleMidnight (by decide)).2.1 (by decide)).1
          (by decide)).2.1,
   (((C37_long_press_transitions 3000 100 (holdSetAlarm 3001) (ButtonTask 3000 100
      (holdSetAlarm 1) (sampleEdit system_mode_t.MODE_HOME system_mode_t.MODE_HOME
        (some sampleMidnight) 6 30)) sampleMidnight (by decide)).2.1 (by decide)).2
          (by decide) (by decide)).1,
   (((C37_long_press_transitions 3000 100 (holdSetAlarm 3001) (ButtonTask 3000 100
      (holdSetAlarm 1) (sampleEdit system_mode_t.MODE_HOME system_mode_t.MODE_HOME
        (some sampleMidnight) 6 30)) sampleMidnight (by decide)).2.1 (by decide)).2
          (by decide) (by decide)).2.2.1,
   (((C37_long_press_transitions 3000 100 (holdSetAlarm 3001) (ButtonTask 3000 100
      (holdSetAlarm 1) (sampleEdit system_mode_t.MODE_UNSET system_mode_t.MODE_UNSET
        (some sampleUnset) 0 0)) sampleUnset (by decide)).1 (by decide)).1
          (by decide)).2.2.1,
   (((C37_long_press_transitions 3000 100 (holdSetAlarm 3001) (ButtonTask 3000 100
      (holdSetAlarm 1) (sampleEdit system_mode_t.MODE_UNSET system_mode_t.MODE_UNSET
        (some sampleUnset) 0 0)) sampleUnset (by decide)).1 (by decide)).1
          (by decide)).2.2.2.1⟩

/-- C38, what the code does when the alarm is set before the time: from the initial state the
alarm time 01:00 is committed from `MODE_UNSET`; the indicator `dots[3]` is 1 while
`ClockIsAlarmEnabled` is false. After a clock tick and a first setup of the time (00:00
committed, mode `MODE_HOME`, engine valid) the indicator is still 1 and the alarm still not
enabled. -/
theorem C38_dot_set_alarm_not_enabled :
    (runSteps 3000 100 alarmBeforeTime (mainInit true)).mode = system_mode_t.MODE_UNSET ∧
    (runSteps 3000 100 alarmBeforeTime (mainInit true)).dots.d3 = 1 ∧
    ClockIsAlarmEnabled (runSteps 3000 100 alarmBeforeTime (mainInit true)).clock = false ∧
    (runSteps 3000 100 (alarmBeforeTime ++ thenSetTime) (mainInit true)).mode =
      system_mode_t.MODE_HOME ∧
    clockValid (runSteps 3000 100 (alarmBeforeTime ++ thenSetTime) (mainInit true)).clock
      = true ∧
    ClockGetAlarmTime (runSteps 3000 100 (alarmBeforeTime ++ thenSetTime) (mainInit true)).clock
      (some zeroTime) = (true, some (ofHMS 1 0 0)) ∧
    (runSteps 3000 100 (alarmBeforeTime ++ thenSetTime) (mainInit true)).dots.d3 = 1 ∧
    ClockIsAlarmEnabled (runSteps 3000 100 (alarmBeforeTime ++ thenSetTime)
      (mainInit true)).clock = false := by
  decide

theorem ClockGetAlarmTime_enable (e : clock_s) :
    ClockGetAlarmTime (ClockEnableAlarm (some e)) (some zeroTime) = (true, some e.alarm_time) := by
  simp only [ClockEnableAlarm]
  split_ifs <;> rfl

/-- C39: in every state reached from the initial one by passes of `ButtonTask` with any
inputs, of `ClockTask`, `TimeOutTask` and `DotBlinkTask`, in any order, the digit buffer holds
a valid `hh:mm`: four decimal digits, hours at most 23, minutes at most 59. Its conversion
passes `IsValidTime`, also after the increment and decrement of a pass in an hours mode. When
`ClockCreate` returned an engine, `ClockSetTime` and `ClockSetAlarmTime` on that conversion
return true, so a pass with an accept-release in `MODE_SET_TIME_HOURS` ends in `MODE_HOME`
with the shown time stored, and one in `MODE_SET_ALARM_HOURS` stores the shown alarm time. -/
theorem C39_digits_always_valid (malloc_ok : Bool) (th tol : Nat) (steps : List step_t)
    (inp : inputs_t) :
    validDigits (runSteps th tol steps (mainInit malloc_ok)).digits = true ∧
    ((runSteps th tol steps (mainInit malloc_ok)).digits.d0 ≤ 9 ∧
      (runSteps th tol steps (mainInit malloc_ok)).digits.d1 ≤ 9 ∧
      (runSteps th tol steps (mainInit malloc_ok)).digits.d2 ≤ 9 ∧
      (runSteps th tol steps (mainInit malloc_ok)).digits.d3 ≤ 9 ∧
      hoursOf (runSteps th tol steps (mainInit malloc_ok)).digits ≤ 23 ∧
      minutesOf (runSteps th tol steps (mainInit malloc_ok)).digits ≤ 59) ∧
    IsValidTime (some (digitsToTime (runSteps th tol steps (mainInit malloc_ok)).digits))
      = true ∧
    IsValidTime (some (digitsToTime
      (editHours inp (runSteps th tol steps (mainInit malloc_ok)).digits))) = true ∧
    (malloc_ok = true →
      (ClockSetTime (runSteps th tol steps (mainInit malloc_ok)).clock (some (digitsToTime
        (editHours inp (runSteps th tol steps (mainInit malloc_ok)).digits)))).1 = true ∧
      (ClockSetAlarmTime (runSteps th tol steps (mainInit malloc_ok)).clock (some (digitsToTime
        (editHours inp (runSteps th tol steps (mainInit malloc_ok)).digits)))).1 = true ∧
      ((runSteps th tol steps (mainInit malloc_ok)).mode = system_mode_t.MODE_SET_TIME_HOURS →
        inp.accept_released = true →
        (ButtonTask th tol inp (runSteps th tol steps (mainInit malloc_ok))).mode
          = system_mode_t.MODE_HOME ∧
        ClockGetTime (ButtonTask th tol inp (runSteps th tol steps (mainInit malloc_ok))).clock
          (some zeroTime) = (true, some (digitsToTime
            (editHours inp (runSteps th tol steps (mainInit malloc_ok)).digits)))) ∧
      ((runSteps th tol steps (mainInit malloc_ok)).mode = system_mode_t.MODE_SET_ALARM_HOURS →
        inp.accept_released = true →
        ClockGetAlarmTime
          (ButtonTask th tol inp (runSteps th tol steps (mainInit malloc_ok))).clock
          (some zeroTime) = (true, some (digitsToTime
            (editHours inp (runSteps th tol steps (mainInit malloc_ok)).digits))))) := by
  obtain ⟨h1, _, h3⟩ := runSteps_data malloc_ok th tol steps
  generalize runSteps th tol steps (mainInit malloc_ok) = s at h1 h3 ⊢
  have h4 := editHours_valid inp s.digits h1
  have h5 : IsValidTime (some (digitsToTime (editHours inp s.digits))) = true := by
    rw [← validDigits_eq_IsValidTime]; exact h4
  refine ⟨h1, ?_, by rw [← validDigits_eq_IsValidTime]; exact h1, h5, fun hm => ?_⟩
  · have h := (validDigits_iff s.digits).1 h1
    simp only [hoursOf, minutesOf]
    omega
  · rw [hm] at h3
    obtain ⟨e, he⟩ := Option.isSome_iff_exists.1 h3
    obtain ⟨c1, c2, _, c4, _⟩ := cancelOrTimeout_frame inp s
    obtain ⟨b1, _, b3, _, b5, _⟩ := hoursBlocks_frame inp (cancelOrTimeout inp s)
    rw [c2] at b1
    rw [c4] at b3
    rw [c1] at b5
    have hset := ClockSetTime_valid e _ h5
    refine ⟨by rw [he, hset], by simp [he, ClockSetAlarmTime, h5], fun hmode ha => ?_,
      fun hmode ha => ?_⟩
    · obtain ⟨a1, a2, _⟩ := acceptTimeHours_accept inp (hoursBlocks inp (cancelOrTimeout inp s)) ha
      rw [b1, b5, he, hset] at a1 a2
      simp only [ButtonTask, hmode, caseSetTimeHours]
      refine ⟨by rw [a2]; rfl, ?_⟩
      rw [a1]
      rfl
    · have a1 := (acceptAlarmHours_accept inp (hoursBlocks inp (cancelOrTimeout inp s)) e ha
        (by rw [b1, he]) (by rw [b5]; exact h4)).1
      simp only [ButtonTask, hmode, caseSetAlarmHours]
      rw [a1, ClockGetAlarmTime_enable, b5, digitsToTime_eq _ h4]

theorem C39_digits_always_valid_witness :
    (runSteps 3000 100 [step_t.button (holdSetTime 1), step_t.button (holdSetTime 3001),
      step_t.button (acceptOnly 3010), step_t.timeOut] (mainInit true)).mode
        = system_mode_t.MODE_SET_TIME_HOURS ∧
    (ButtonTask 3000 100 (incrementAndAccept 3020)
      (runSteps 3000 100 [step_t.button (holdSetTime 1), step_t.button (holdSetTime 3001),
        step_t.button (acceptOnly 3010), step_t.timeOut] (mainInit true))).mode
        = system_mode_t.MODE_HOME :=
  ⟨by decide,
   (((C39_digits_always_valid true 3000 100 [step_t.button (holdSetTime 1),
      step_t.button (holdSetTime 3001), step_t.button (acceptOnly 3010), step_t.timeOut]
      (incrementAndAccept 3020)).2.2.2.2 rfl).2.2.1 (by decide) rfl).1⟩

/-- C40: in every state reached from the initial one, if the mode is `MODE_HOME` or
`MODE_ALARM_TRIGGERED` or `last_state` is `MODE_HOME`, the engine holds a valid time
(`ClockGetTime` returns true), so in `MODE_ALARM_TRIGGERED` `ClockCancelAlarmUntilNextDay` and
`ClockSnoozeAlarm(clock, 5)` return true; if the mode is `MODE_UNSET` the engine holds no
valid time; and from a state whose engine holds a valid time no further steps lead to
`MODE_UNSET`. -/
theorem C40_mode_and_clock_validity (malloc_ok : Bool) (th tol : Nat)
    (steps more : List step_t) :
    clockValid (runSteps th tol steps (mainInit malloc_ok)).clock =
      (ClockGetTime (runSteps th tol steps (mainInit malloc_ok)).clock (some zeroTime)).1 ∧
    ((runSteps th tol steps (mainInit malloc_ok)).mode = system_mode_t.MODE_HOME ∨
      (runSteps th tol steps (mainInit malloc_ok)).mode = system_mode_t.MODE_ALARM_TRIGGERED ∨
      (runSteps th tol steps (mainInit malloc_ok)).last_state = system_mode_t.MODE_HOME →
      clockValid (runSteps th tol steps (mainInit malloc_ok)).clock = true) ∧
    ((runSteps th tol steps (mainInit malloc_ok)).mode = system_mode_t.MODE_ALARM_TRIGGERED →
      (ClockCancelAlarmUntilNextDay (runSteps th tol steps (mainInit malloc_ok)).clock).1
        = true ∧
      (ClockSnoozeAlarm (runSteps th tol steps (mainInit malloc_ok)).clock 5).1 = true) ∧
    ((runSteps th tol steps (mainInit malloc_ok)).mode = system_mode_t.MODE_UNSET →
      clockValid (runSteps th tol steps (mainInit malloc_ok)).clock = false) ∧
    (clockValid (runSteps th tol steps (mainInit malloc_ok)).clock = true →
      (runSteps th tol (steps ++ more) (mainInit malloc_ok)).mode
        ≠ system_mode_t.MODE_UNSET) := by
  have hinv := runSteps_modeInvariant malloc_ok th tol steps
  have hinv2 := runSteps_modeInvariant malloc_ok th tol (steps ++ more)
  have hmono := runSteps_clockValid th tol more (runSteps th tol steps (mainInit malloc_ok))
  rw [← runSteps_append] at hmono
  generalize runSteps th tol (steps ++ more) (mainInit malloc_ok) = u at hinv2 hmono ⊢
  generalize runSteps th tol steps (mainInit malloc_ok) = s at hinv hmono ⊢
  have hvalid : s.mode = system_mode_t.MODE_HOME ∨
      s.mode = system_mode_t.MODE_ALARM_TRIGGERED ∨
      s.last_state = system_mode_t.MODE_HOME → clockValid s.clock = true := by
    intro h
    rcases hinv with ⟨h1, _, h3, h4⟩ | ⟨_, h2, _⟩
    · rcases h with h | h | h
      · exact absurd h h3
      · exact absurd h h4
      · rw [h1] at h; cases h
    · exact h2
  refine ⟨?_, hvalid, fun hm => ?_, fun hm => ?_, fun hv => ?_⟩
  · cases s.clock <;> rfl
  · have hv := hvalid (Or.inr (Or.inl hm))
    cases hc : s.clock with
    | none => rw [hc] at hv; cases hv
    | some e =>
      rw [hc] at hv
      have hv2 : e.valid = true := hv
      simp [ClockCancelAlarmUntilNextDay, ClockSnoozeAlarm, hv2]
  · rcases hinv with ⟨_, h2, _, _⟩ | ⟨_, _, h3⟩
    · exact h2
    · exact absurd hm h3
  · rcases hinv2 with ⟨_, h2, _, _⟩ | ⟨_, _, h3⟩
    · rw [hmono hv] at h2; cases h2
    · exact h3

theorem C40_mode_and_clock_validity_witness :
    (runSteps 3000 100 commitAfterTenSeconds (mainInit true)).mode = system_mode_t.MODE_HOME ∧
    clockValid (runSteps 3000 100 commitAfterTenSeconds (mainInit true)).clock = true ∧
    (runSteps 3000 100 (commitAfterTenSeconds ++ secondLongPress) (mainInit true)).mode
      ≠ system_mode_t.MODE_UNSET :=
  ⟨by decide,
   (C40_mode_and_clock_validity true 3000 100 commitAfterTenSeconds secondLongPress).2.1
     (Or.inl (by decide)),
   (C40_mode_and_clock_validity true 3000 100 commitAfterTenSeconds secondLongPress).2.2.2.2
     (by decide)⟩

end Clock
